import Mathlib

/-!
# AT86RF2xx Nanostack PHY driver (NanostackRfPhyAtmel.cpp)

A shallow embedding of the driver in `NanostackRfPhyAtmel.cpp`.

* The file's static variables are the fields of `Driver`; the pins, timers
  and critical-section depth of the mbed platform are the fields of
  `Platform`; `State` adds the chip-select pin, the history of bytes sent on
  the SPI bus and a trace of every observable event.
* The transceiver is the environment: the byte it returns for an SPI
  exchange is `Env.miso` applied to the history of bytes sent so far, so
  every sequence of hardware answers is covered by some `Env`.
* The register map of `AT86RFReg.h` is not part of the sources; its
  constants are the fields of `AT86RFReg`. Results hold for all values of
  them, except where a statement about the content of a register assumes
  that the addresses involved are six-bit and different.
* Calls out of the driver (MAC callbacks, `arm_net_phy_register`,
  `randLIB_add_seed`, the platform's `error`) are recorded as events; what
  they return is a parameter.
* Unsigned machine integers are `Nat` with explicit truncation (`u8`,
  `u16`, `u32`), signed ones are `Int`.
* A hardware wait without an iteration bound takes a fuel argument and
  returns `Option`; so does every function that may reach it.
-/

namespace AtmelRf

/-! ## Machine integers -/

/-- Truncation to `uint8_t`. -/
def u8 (x : Nat) : Nat := x % 256

/-- Truncation to `uint16_t`. -/
def u16 (x : Nat) : Nat := x % 65536

/-- Truncation to `uint32_t`. -/
def u32 (x : Nat) : Nat := x % 4294967296

/-- Conversion of an `int` to `int8_t` (two's complement wrap). -/
def i8 (x : Int) : Int := (x + 128) % 256 - 128

/-! ## Constants of the source file -/

def RF_DEFAULT_SENSITIVITY : Int := -88
def RF_CALIBRATION_INTERVAL : Nat := 6000000
def RF_ACK_WAIT_DEFAULT_TIMEOUT : Nat := 50
def RF_CCA_BASE_BACKOFF : Nat := 13
def RF_CCA_RANDOM_BACKOFF : Nat := 51
def RF_MTU : Nat := 127

def RFF_ON : Nat := 0x01
def RFF_RX : Nat := 0x02
def RFF_TX : Nat := 0x04
def RFF_CCA : Nat := 0x08
def RFF_PROT : Nat := 0x10

/-- The enumeration `rf_mode_t`. -/
inductive rf_mode_t
  | RF_MODE_NORMAL
  | RF_MODE_SNIFFER
  | RF_MODE_ED
  deriving DecidableEq, Repr

/-! The enumeration `rf_trx_states_t`, by its numeric values: the driver
compares these with bytes read from the transceiver. -/

def NOP : Nat := 0x00
def BUSY_RX : Nat := 0x01
def RF_TX_START : Nat := 0x02
def FORCE_TRX_OFF : Nat := 0x03
def FORCE_PLL_ON : Nat := 0x04
def RX_ON : Nat := 0x06
def TRX_OFF : Nat := 0x08
def PLL_ON : Nat := 0x09
def BUSY_RX_AACK : Nat := 0x11
def SLEEP : Nat := 0x0F
def RX_AACK_ON : Nat := 0x16
def TX_ARET_ON : Nat := 0x19

/-- The link status codes of `phy_link_tx_status_e` (Nanostack's
`arm_hal_phy.h`) that the driver reports. -/
inductive phy_link_tx_status_e
  | PHY_LINK_TX_DONE
  | PHY_LINK_TX_DONE_PENDING
  | PHY_LINK_TX_SUCCESS
  | PHY_LINK_CCA_FAIL
  deriving DecidableEq, Repr

/-- The interface states of `phy_interface_state_e` (Nanostack's
`arm_hal_phy.h`) that `rf_interface_state_control` switches on. -/
inductive phy_interface_state_e
  | PHY_INTERFACE_RESET
  | PHY_INTERFACE_DOWN
  | PHY_INTERFACE_UP
  | PHY_INTERFACE_RX_ENERGY_STATE
  | PHY_INTERFACE_SNIFFER_STATE
  deriving DecidableEq, Repr

/-! ## Register map (absent header `AT86RFReg.h`) -/

/-- Register addresses and bit masks of `AT86RFReg.h`, which is not among
the sources: they are parameters of the model. -/
structure AT86RFReg where
  TRX_STATUS : Nat
  TRX_STATE : Nat
  TRX_CTRL_2 : Nat
  PHY_ED_LEVEL : Nat
  PHY_CC_CCA : Nat
  ANT_DIV : Nat
  IRQ_MASK : Nat
  IRQ_STATUS : Nat
  RX_SYN : Nat
  XAH_CTRL_1 : Nat
  FTN_CTRL : Nat
  PART_NUM : Nat
  CCA_STATUS : Nat
  CCA_REQUEST : Nat
  CCA_ED_DONE : Nat
  TRX_END : Nat
  RX_PDT_DIS : Nat
  AACK_PROM_MODE : Nat
  ANT_EXT_SW_EN : Nat
  FTN_START : Nat
  PART_AT86RF212 : Nat
  PART_AT86RF233 : Nat
  SHORT_ADDR_0 : Nat
  SHORT_ADDR_1 : Nat
  PAN_ID_0 : Nat
  PAN_ID_1 : Nat
  IEEE_ADDR_0 : Nat
  XAH_CTRL_0 : Nat
  TRX_CTRL_1 : Nat
  RF_CTRL_0 : Nat
  VERSION_NUM : Nat
  PHY_TX_PWR : Nat
  RX_CTRL : Nat
  TRX_RPC : Nat
  PHY_RSSI : Nat
  CSMA_SEED_1 : Nat
  VERSION_AT86RF212B : Nat
  OQPSK_SIN_250 : Nat
  ANT_DIV_EN : Nat
  ANT_CTRL_DEFAULT : Nat
  RX_RPC_CTRL : Nat
  TRX_RPC_RSVD_1 : Nat
  AACK_SET_PD : Nat

/-- The environment of the driver: the register map and the transceiver.
`miso h` is the byte the transceiver shifts out during the exchange that
completes the history `h` of bytes sent to it (newest first). -/
structure Env extends AT86RFReg where
  miso : List Nat → Nat

/-! ## State -/

/-- Everything the driver makes observable, in the order it happens. -/
inductive Event
  | spi (mosi miso : Nat)
  | cs (level : Nat)
  | slp_tr (level : Nat)
  | flags (value : Nat)
  | irq_enable
  | irq_disable
  | ack_timer_start (us : Nat)
  | ack_timer_stop
  | cal_timer_start (us : Nat)
  | cca_timer_start (us : Nat)
  | cca_timer_stop
  | tx_done (driver_id : Int) (handle : Nat) (status : phy_link_tx_status_e)
      (cca_retry tx_retry : Nat)
  | rx (data : List Nat) (len : Nat) (lqi : Nat) (rssi : Int) (driver_id : Int)
  | error
  | add_seed (value : Nat)
  | phy_register
  | phy_unregister (driver_id : Int)
  deriving DecidableEq, Repr

/-- The two link types of `phy_link_type_e` (Nanostack's `arm_hal_phy.h`)
that `rf_device_register` assigns. -/
inductive phy_link_type_e
  | PHY_LINK_15_4_2_4GHZ_TYPE
  | PHY_LINK_15_4_SUBGHZ_TYPE
  deriving DecidableEq, Repr

/-- The static variables of the source file. `rf_tx_data` is a pointer into
Nanostack's transmit buffer, which stays valid and unmodified until a
completion callback: it is modelled by the bytes it points to (the null
pointer by the empty list). `phy_rx_cb` and `phy_tx_done_cb` say whether the
corresponding callback of `device_driver` is set. `rf` is the global pointer
to the registered `RFBits` object (`none` for the null pointer); `PHY_MAC`,
`link_type` and `phy_MTU` are the fields of `device_driver` of those names.
The field defaults are the initialisers of the source. -/
structure Driver where
  rf_tx_data : List Nat := []
  rf_tx_length : Nat := 0
  rf_ack_wait_duration : Nat := RF_ACK_WAIT_DEFAULT_TIMEOUT
  rf_sensitivity : Int := RF_DEFAULT_SENSITIVITY
  rf_mode : rf_mode_t := rf_mode_t.RF_MODE_NORMAL
  radio_tx_power : Nat := 0
  rf_phy_channel : Nat := 12
  rf_tuned : Nat := 1
  rf_use_antenna_diversity : Nat := 0
  expected_ack_sequence : Int := -1
  rf_rx_mode : Nat := 0
  rf_flags : Nat := 0
  rf_radio_driver_id : Int := -1
  phy_rx_cb : Bool := false
  phy_tx_done_cb : Bool := false
  mac_tx_handle : Nat := 0
  rf_part_num : Nat := 0
  rf_rssi_base_val : Int := -91
  rf_buffer : List Nat := List.replicate 127 0
  rf : Option Nat := none
  PHY_MAC : List Nat := []
  link_type : Option phy_link_type_e := none
  phy_MTU : Nat := 0
  deriving DecidableEq, Repr

/-- The mbed objects of `RFBits` the driver acts on, and the nesting depth
of the critical section entered by `rf_if_lock`. A timer holds the delay in
microseconds it was armed with, or `none` when idle. `RST` is the reset pin
and `irq_handler` says whether a handler is attached to the rising edge of
the interrupt pin. -/
structure Platform where
  lock_depth : Nat := 0
  SLP_TR : Nat := 0
  irq_enabled : Bool := true
  ack_timer : Option Nat := none
  cal_timer : Option Nat := none
  cca_timer : Option Nat := none
  RST : Nat := 1
  irq_handler : Bool := false
  deriving DecidableEq, Repr

/-- The whole state: driver variables, platform, chip-select pin, the bytes
sent on the bus so far (newest first) and the trace of events (newest first),
each stamped with the critical-section depth at which it happened. -/
structure State where
  d : Driver := {}
  p : Platform := {}
  CS : Nat := 1
  mosi : List Nat := []
  trace : List (Nat × Event) := []
  deriving DecidableEq, Repr

/-- Append an event to the trace. -/
def log (e : Event) (s : State) : State :=
  { s with trace := (s.p.lock_depth, e) :: s.trace }

/-- Timer and callback events are the ones the MAC layer can observe. -/
def Event.isObs : Event → Bool
  | Event.ack_timer_start _ => true
  | Event.ack_timer_stop => true
  | Event.cal_timer_start _ => true
  | Event.cca_timer_start _ => true
  | Event.cca_timer_stop => true
  | Event.tx_done _ _ _ _ _ => true
  | Event.rx _ _ _ _ _ => true
  | _ => false

/-- The timer and callback events of the trace, newest first. -/
def obs (trace : List (Nat × Event)) : List Event :=
  (trace.map Prod.snd).filter Event.isObs

/-- Whether an event is an invocation of the tx-done callback. -/
def Event.isTxDone : Event → Bool
  | Event.tx_done _ _ _ _ _ => true
  | _ => false

/-- The invocations of the tx-done callback, newest first. -/
def tx_done_calls (trace : List (Nat × Event)) : List Event :=
  (obs trace).filter Event.isTxDone

/-! ## Register access layer -/

def rf_if_lock (s : State) : State :=
  { s with p := { s.p with lock_depth := s.p.lock_depth + 1 } }

def rf_if_unlock (s : State) : State :=
  { s with p := { s.p with lock_depth := s.p.lock_depth - 1 } }

/-- The source's `rf_if_spi_exchange`: one byte out, one byte in. -/
def rf_if_spi_exchange (E : Env) (out : Nat) (s : State) : Nat × State :=
  (u8 (E.miso (u8 out :: s.mosi)),
   log (Event.spi (u8 out) (u8 (E.miso (u8 out :: s.mosi))))
     { s with mosi := u8 out :: s.mosi })

/-- The macro `CS_SELECT`. -/
def CS_SELECT (s : State) : State := log (Event.cs 0) { s with CS := 0 }

/-- The macro `CS_RELEASE` (its delays are not modelled). -/
def CS_RELEASE (s : State) : State := log (Event.cs 1) { s with CS := 1 }

def rf_if_write_register (E : Env) (addr data : Nat) (s : State) : State :=
  CS_RELEASE
    (rf_if_spi_exchange E data
      (rf_if_spi_exchange E (0xC0 ||| addr) (CS_SELECT s)).2).2

def rf_if_read_register (E : Env) (addr : Nat) (s : State) : Nat × State :=
  ((rf_if_spi_exchange E 0
      (rf_if_spi_exchange E (0x80 ||| addr) (CS_SELECT s)).2).1,
   CS_RELEASE
    (rf_if_spi_exchange E 0
      (rf_if_spi_exchange E (0x80 ||| addr) (CS_SELECT s)).2).2)

/-- The source's `rf_if_set_bit`: `reg &= ~bit_mask; reg |= bit` on a
`uint8_t`. -/
def rf_if_set_bit (E : Env) (addr bit bit_mask : Nat) (s : State) : State :=
  rf_if_write_register E addr
    (u8 (((rf_if_read_register E addr s).1 &&& (0xFF ^^^ u8 bit_mask)) ||| bit))
    (rf_if_read_register E addr s).2

def rf_if_clear_bit (E : Env) (addr bit : Nat) (s : State) : State :=
  rf_if_set_bit E addr 0 bit s

def rf_if_ack_wait_timer_start (slots : Nat) (s : State) : State :=
  log (Event.ack_timer_start (u16 slots * 50))
    { s with p := { s.p with ack_timer := some (u16 slots * 50) } }

def rf_if_calibration_timer_start (slots : Nat) (s : State) : State :=
  log (Event.cal_timer_start (u32 (u32 slots * 50)))
    { s with p := { s.p with cal_timer := some (u32 (u32 slots * 50)) } }

def rf_if_cca_timer_start (slots : Nat) (s : State) : State :=
  log (Event.cca_timer_start (u32 (u32 slots * 50)))
    { s with p := { s.p with cca_timer := some (u32 (u32 slots * 50)) } }

def rf_if_cca_timer_stop (s : State) : State :=
  log Event.cca_timer_stop { s with p := { s.p with cca_timer := none } }

def rf_if_ack_wait_timer_stop (s : State) : State :=
  log Event.ack_timer_stop { s with p := { s.p with ack_timer := none } }

def rf_if_enable_promiscuous_mode (E : Env) (s : State) : State :=
  rf_if_set_bit E E.XAH_CTRL_1 E.AACK_PROM_MODE E.AACK_PROM_MODE s

def rf_if_disable_promiscuous_mode (E : Env) (s : State) : State :=
  rf_if_clear_bit E E.XAH_CTRL_1 E.AACK_PROM_MODE s

def rf_if_enable_ant_div (E : Env) (s : State) : State :=
  rf_if_set_bit E E.ANT_DIV E.ANT_EXT_SW_EN E.ANT_EXT_SW_EN s

def rf_if_disable_ant_div (E : Env) (s : State) : State :=
  rf_if_clear_bit E E.ANT_DIV E.ANT_EXT_SW_EN s

def rf_if_enable_slptr (s : State) : State :=
  log (Event.slp_tr 1) { s with p := { s.p with SLP_TR := 1 } }

def rf_if_disable_slptr (s : State) : State :=
  log (Event.slp_tr 0) { s with p := { s.p with SLP_TR := 0 } }

def rf_if_read_part_num (E : Env) (s : State) : Nat × State :=
  rf_if_read_register E E.PART_NUM s

/-- The source's `rf_if_check_cca`: 1 when the channel is clear. -/
def rf_if_check_cca (E : Env) (s : State) : Nat × State :=
  (if (rf_if_read_register E E.TRX_STATUS s).1 &&& E.CCA_STATUS ≠ 0 then 1 else 0,
   (rf_if_read_register E E.TRX_STATUS s).2)

def rf_if_read_trx_state (E : Env) (s : State) : Nat × State :=
  ((rf_if_read_register E E.TRX_STATUS s).1 &&& 0x1F,
   (rf_if_read_register E E.TRX_STATUS s).2)

/-- The source's `rf_if_write_frame_buffer`: command 0x60, the PSDU length
(`length + 2` for the FCS), then `length` bytes from `ptr`. -/
def rf_if_write_frame_bytes (E : Env) (ptr : List Nat) : Nat → Nat → State → State
  | 0, _, s => s
  | n + 1, i, s =>
    rf_if_write_frame_bytes E ptr n (i + 1) (rf_if_spi_exchange E (ptr.getD i 0) s).2

def rf_if_write_frame_buffer (E : Env) (ptr : List Nat) (length : Nat) (s : State) : State :=
  CS_RELEASE
    (rf_if_write_frame_bytes E ptr (u8 length) 0
      (rf_if_spi_exchange E (u8 length + 2)
        (rf_if_spi_exchange E 0x60 (CS_SELECT s)).2).2)

/-- The byte loop of `rf_if_read_packet`: `n` bytes still to read, the next
one stored at index `i` of the static `rf_buffer`. -/
def rf_if_read_bytes (E : Env) : Nat → Nat → State → State
  | 0, _, s => s
  | n + 1, i, s =>
    rf_if_read_bytes E n (i + 1)
      { (rf_if_spi_exchange E 0 s).2 with
        d := { (rf_if_spi_exchange E 0 s).2.d with
          rf_buffer := (rf_if_spi_exchange E 0 s).2.d.rf_buffer.set i
            (rf_if_spi_exchange E 0 s).1 } }

/-- What `rf_if_read_packet` returns: the PSDU length and the three
output parameters. -/
structure Packet where
  len : Nat
  lqi : Nat
  ed : Nat
  crc_good : Bool
  deriving DecidableEq, Repr

/-- The state after the length byte of `rf_if_read_packet` has been read. -/
def rf_if_read_packet_len (E : Env) (s : State) : Nat × State :=
  ((rf_if_spi_exchange E 0 (rf_if_spi_exchange E 0x20 (CS_SELECT s)).2).1 &&& 0x7F,
   (rf_if_spi_exchange E 0 (rf_if_spi_exchange E 0x20 (CS_SELECT s)).2).2)

/-- The source's `rf_if_read_packet`, called with `data_out = rf_buffer`. -/
def rf_if_read_packet (E : Env) (s : State) : Packet × State :=
  let s1 := rf_if_read_bytes E (rf_if_read_packet_len E s).1 0 (rf_if_read_packet_len E s).2
  let l := rf_if_spi_exchange E 0 s1
  let e := rf_if_spi_exchange E 0 l.2
  let c := rf_if_spi_exchange E 0 e.2
  ({ len := (rf_if_read_packet_len E s).1, lqi := l.1, ed := e.1,
     crc_good := decide (c.1 &&& 0x80 ≠ 0) },
   CS_RELEASE c.2)

/-- The wait of `rf_if_calibration`, `while(read(FTN_CTRL) & FTN_START);`,
which has no iteration bound: `none` when the fuel runs out. -/
def rf_if_calibration_wait (E : Env) : Nat → State → Option State
  | 0, _ => none
  | fuel + 1, s =>
    if (rf_if_read_register E E.FTN_CTRL s).1 &&& E.FTN_START ≠ 0 then
      rf_if_calibration_wait E fuel (rf_if_read_register E E.FTN_CTRL s).2
    else some (rf_if_read_register E E.FTN_CTRL s).2

def rf_if_calibration (E : Env) (fuel : Nat) (s : State) : Option State :=
  rf_if_calibration_wait E fuel (rf_if_set_bit E E.FTN_CTRL E.FTN_START E.FTN_START s)

def rf_if_enable_tx_end_interrupt (E : Env) (s : State) : State :=
  rf_if_set_bit E E.IRQ_MASK E.TRX_END E.TRX_END s

def rf_if_enable_rx_end_interrupt (E : Env) (s : State) : State :=
  rf_if_set_bit E E.IRQ_MASK E.TRX_END E.TRX_END s

def rf_if_enable_cca_ed_done_interrupt (E : Env) (s : State) : State :=
  rf_if_set_bit E E.IRQ_MASK E.CCA_ED_DONE E.CCA_ED_DONE s

def rf_if_start_cca_process (E : Env) (s : State) : State :=
  rf_if_set_bit E E.PHY_CC_CCA E.CCA_REQUEST E.CCA_REQUEST s

/-- The source's `rf_if_scale_rssi`: `ed_level` is a `uint8_t`, the result
an `int8_t`. -/
def rf_if_scale_rssi (E : Env) (ed_level : Nat) (s : State) : Int :=
  i8 (s.d.rf_rssi_base_val +
    ((if s.d.rf_part_num = E.PART_AT86RF212 then u8 (ed_level + ed_level / 32)
      else ed_level : Nat) : Int))

def rf_if_set_channel_register (E : Env) (channel : Nat) (s : State) : State :=
  rf_if_set_bit E E.PHY_CC_CCA channel 0x1f s

def rf_if_enable_irq (s : State) : State :=
  log Event.irq_enable { s with p := { s.p with irq_enabled := true } }

def rf_if_disable_irq (s : State) : State :=
  log Event.irq_disable { s with p := { s.p with irq_enabled := false } }

/-! ## Flags -/

def rf_flags_set (x : Nat) (s : State) : State :=
  log (Event.flags (u8 (s.d.rf_flags ||| x)))
    { s with d := { s.d with rf_flags := u8 (s.d.rf_flags ||| x) } }

/-- The source's `rf_flags &= ~x` on a `uint8_t`. -/
def rf_flags_clear (x : Nat) (s : State) : State :=
  log (Event.flags (s.d.rf_flags &&& (0xFF ^^^ u8 x)))
    { s with d := { s.d with rf_flags := s.d.rf_flags &&& (0xFF ^^^ u8 x) } }

def rf_flags_check (x : Nat) (s : State) : Nat :=
  s.d.rf_flags &&& x

def rf_flags_reset (s : State) : State :=
  log (Event.flags 0) { s with d := { s.d with rf_flags := 0 } }

/-! ## State machine core -/

def rf_enable_static_frame_buffer_protection (E : Env) (s : State) : State :=
  if rf_flags_check RFF_PROT s = 0 then
    rf_flags_set RFF_PROT (rf_if_write_register E E.RX_SYN E.RX_PDT_DIS s)
  else s

def rf_disable_static_frame_buffer_protection (E : Env) (s : State) : State :=
  if rf_flags_check RFF_PROT s ≠ 0 then
    rf_flags_clear RFF_PROT (rf_if_write_register E E.RX_SYN 0 s)
  else s

/-- The loop of `rf_poll_trx_state_change`. The first argument is the
number of status reads still allowed, `0x1ff - while_counter`: the source
leaves the loop when the state read equals `trx_state` or when the counter
reaches `0x1ff`. -/
def rf_poll_loop (E : Env) (trx_state : Nat) : Nat → State → State
  | 0, s => s
  | n + 1, s =>
    if (rf_if_read_trx_state E s).1 ≠ trx_state then
      rf_poll_loop E trx_state n (rf_if_read_trx_state E s).2
    else (rf_if_read_trx_state E s).2

def rf_poll_trx_state_change (E : Env) (trx_state : Nat) (s : State) : State :=
  rf_if_unlock
    (if trx_state ≠ RF_TX_START then
      rf_poll_loop E
        (if trx_state = FORCE_PLL_ON then PLL_ON
         else if trx_state = FORCE_TRX_OFF then TRX_OFF
         else trx_state)
        0x1ff (rf_if_lock s)
     else rf_if_lock s)

def rf_if_change_trx_state (E : Env) (trx_state : Nat) (s : State) : State :=
  rf_if_unlock
    (rf_poll_trx_state_change E trx_state
      (rf_if_write_register E E.TRX_STATE trx_state (rf_if_lock s)))

/-- The loop `while(rf_if_read_trx_state() == BUSY_RX_AACK)` of `rf_off`
and `rf_receive`. The first argument is the number of status reads still
allowed, `0xffff - while_counter`. -/
def rf_busy_wait (E : Env) : Nat → State → State
  | 0, s => s
  | n + 1, s =>
    if (rf_if_read_trx_state E s).1 = BUSY_RX_AACK then
      rf_busy_wait E n (rf_if_read_trx_state E s).2
    else (rf_if_read_trx_state E s).2

def rf_channel_set (E : Env) (ch : Nat) (s : State) : State :=
  rf_if_unlock
    (if ch < 0x1f then
      rf_if_set_channel_register E ch
        { rf_if_lock s with d := { s.d with rf_phy_channel := ch } }
     else { rf_if_lock s with d := { s.d with rf_phy_channel := ch } })

def rf_on (E : Env) (s : State) : State :=
  if rf_flags_check RFF_ON s = 0 then
    rf_if_unlock
      (rf_poll_trx_state_change E TRX_OFF
        (rf_if_disable_slptr
          (if (rf_flags_set RFF_ON (rf_if_lock s)).d.rf_use_antenna_diversity ≠ 0 then
            rf_if_enable_ant_div E (rf_flags_set RFF_ON (rf_if_lock s))
           else rf_flags_set RFF_ON (rf_if_lock s))))
  else s

/-- The receive-state selection inside `rf_receive`. -/
def rf_receive_rx_state (E : Env) (s : State) : State :=
  if s.d.rf_mode = rf_mode_t.RF_MODE_SNIFFER ∨ s.d.rf_mode = rf_mode_t.RF_MODE_ED then
    rf_if_change_trx_state E RX_ON s
  else
    rf_if_change_trx_state E RX_AACK_ON
      (if s.d.rf_rx_mode ≠ 0 then
        rf_if_enable_promiscuous_mode E { s with d := { s.d with rf_rx_mode := 0 } }
       else rf_if_disable_promiscuous_mode E s)

/-- The tail of `rf_receive` after the deferred calibration. -/
def rf_receive_finish (E : Env) (s : State) : State :=
  rf_if_unlock
    (if (rf_flags_set RFF_RX (rf_channel_set E s.d.rf_phy_channel s)).d.rf_mode
          ≠ rf_mode_t.RF_MODE_ED then
      rf_if_enable_rx_end_interrupt E
        (rf_flags_set RFF_RX (rf_channel_set E s.d.rf_phy_channel s))
     else rf_flags_set RFF_RX (rf_channel_set E s.d.rf_phy_channel s))

/-- The body of `rf_receive` that runs when the receiving flag is clear. -/
def rf_receive_body (E : Env) (fuel : Nat) (s : State) : Option State :=
  let s1 := rf_receive_rx_state E
    (rf_if_change_trx_state E PLL_ON (rf_busy_wait E 0xffff (rf_if_lock s)))
  if s1.d.rf_tuned = 0 then
    (rf_if_calibration E fuel s1).map
      (fun s2 => rf_receive_finish E { s2 with d := { s2.d with rf_tuned := 1 } })
  else some (rf_receive_finish E s1)

/-- The source's `rf_receive`. The fuel bounds the wait of the deferred
calibration, the only part that may not return. -/
def rf_receive (E : Env) (fuel : Nat) (s : State) : Option State :=
  let s0 := if rf_flags_check RFF_ON s = 0 then rf_on E s else s
  if rf_flags_check RFF_RX s0 = 0 then rf_receive_body E fuel s0 else some s0

def rf_cca_abort (E : Env) (s : State) : State :=
  rf_disable_static_frame_buffer_protection E
    (rf_flags_clear RFF_CCA (rf_if_cca_timer_stop s))

def rf_off (E : Env) (s : State) : State :=
  rf_flags_reset
    (if rf_flags_check RFF_ON s ≠ 0 then
      let s1 := rf_busy_wait E 0xffff (rf_cca_abort E (rf_if_lock s))
      let s2 :=
        if (rf_if_read_trx_state E s1).1 = RX_AACK_ON then
          rf_if_change_trx_state E PLL_ON (rf_if_read_trx_state E s1).2
        else (rf_if_read_trx_state E s1).2
      let s3 := rf_if_enable_slptr (rf_if_change_trx_state E TRX_OFF s2)
      rf_if_unlock
        (if s3.d.rf_use_antenna_diversity ≠ 0 then rf_if_disable_ant_div E s3 else s3)
     else s)

def rf_shutdown (E : Env) (s : State) : State := rf_off E s

/-- Invocation of `device_driver.phy_tx_done_cb`, when it is set. The MAC
layer's callback is outside the driver: the call is recorded, and is assumed
not to re-enter the driver. -/
def phy_tx_done_cb (status : phy_link_tx_status_e) (s : State) : State :=
  if s.d.phy_tx_done_cb then
    log (Event.tx_done s.d.rf_radio_driver_id s.d.mac_tx_handle status 0 0) s
  else s

/-- Invocation of `device_driver.phy_rx_cb`, when it is set, with the first
`len` bytes of `rf_buffer`. -/
def phy_rx_cb (len lqi : Nat) (rssi : Int) (s : State) : State :=
  if s.d.phy_rx_cb then
    log (Event.rx (s.d.rf_buffer.take len) len lqi rssi s.d.rf_radio_driver_id) s
  else s

def rf_ack_wait_timer_start (slots : Nat) (s : State) : State :=
  rf_if_ack_wait_timer_start slots s

def rf_ack_wait_timer_stop (s : State) : State := rf_if_ack_wait_timer_stop s

def rf_calibration_timer_start (slots : Nat) (s : State) : State :=
  rf_if_calibration_timer_start slots s

def rf_cca_timer_start (slots : Nat) (s : State) : State :=
  rf_if_cca_timer_start slots s

def rf_cca_timer_stop (s : State) : State := rf_if_cca_timer_stop s

/-- The source's `rf_ack_wait_timer_interrupt`. -/
def rf_ack_wait_timer_interrupt (E : Env) (fuel : Nat) (s : State) : Option State :=
  (rf_receive E fuel
    (rf_flags_clear RFF_RX
      { rf_poll_trx_state_change E PLL_ON
          (rf_if_change_trx_state E FORCE_PLL_ON
            { rf_if_lock s with d := { s.d with expected_ack_sequence := -1 } }) with
        d := { (rf_poll_trx_state_change E PLL_ON
          (rf_if_change_trx_state E FORCE_PLL_ON
            { rf_if_lock s with d := { s.d with expected_ack_sequence := -1 } })).d with
          rf_rx_mode := 0 } })).map rf_if_unlock

/-- The source's `rf_cca_timer_interrupt`. -/
def rf_cca_timer_interrupt (E : Env) (fuel : Nat) (s : State) : Option State :=
  let s1 := rf_enable_static_frame_buffer_protection E s
  if (rf_if_read_trx_state E s1).1 = BUSY_RX_AACK then
    some (phy_tx_done_cb phy_link_tx_status_e.PHY_LINK_CCA_FAIL
      (rf_disable_static_frame_buffer_protection E (rf_if_read_trx_state E s1).2))
  else
    (rf_receive E fuel
      (rf_if_write_frame_buffer E (rf_if_read_trx_state E s1).2.d.rf_tx_data
        (rf_if_read_trx_state E s1).2.d.rf_tx_length (rf_if_read_trx_state E s1).2)).map
      (fun s2 =>
        rf_if_start_cca_process E
          (rf_if_enable_cca_ed_done_interrupt E (rf_flags_set RFF_CCA s2)))

/-- The source's `rf_start_cca`. `rnd` is the value that
`randLIB_get_random_in_range(0, RF_CCA_RANDOM_BACKOFF)` returns (randLIB is an
external library); it is used only when the request is accepted. The unused
`data_protocol` argument is dropped. -/
def rf_start_cca (E : Env) (rnd : Nat) (data_ptr : List Nat) (data_length tx_handle : Nat)
    (s : State) : Int × State :=
  if (rf_if_read_trx_state E (rf_if_lock s)).1 = BUSY_RX_AACK ∨ data_length > RF_MTU - 2 then
    (-1, rf_if_unlock (rf_if_read_trx_state E (rf_if_lock s)).2)
  else
    (0, rf_if_unlock
      { rf_cca_timer_start (RF_CCA_BASE_BACKOFF + rnd)
          { (rf_if_read_trx_state E (rf_if_lock s)).2 with
            d := { (rf_if_read_trx_state E (rf_if_lock s)).2.d with
              expected_ack_sequence := -1
              rf_tx_data := data_ptr
              rf_tx_length := u8 data_length } } with
        d := { (rf_cca_timer_start (RF_CCA_BASE_BACKOFF + rnd)
          { (rf_if_read_trx_state E (rf_if_lock s)).2 with
            d := { (rf_if_read_trx_state E (rf_if_lock s)).2.d with
              expected_ack_sequence := -1
              rf_tx_data := data_ptr
              rf_tx_length := u8 data_length } }).d with
          mac_tx_handle := u8 tx_handle } })

/-- The source's `rf_start_tx`. -/
def rf_start_tx (E : Env) (s : State) : State :=
  if (rf_if_read_trx_state E s).1 ≠ RX_AACK_ON then
    phy_tx_done_cb phy_link_tx_status_e.PHY_LINK_CCA_FAIL
      (rf_disable_static_frame_buffer_protection E (rf_if_read_trx_state E s).2)
  else
    rf_if_change_trx_state E RF_TX_START
      (rf_flags_set RFF_TX
        (rf_if_enable_tx_end_interrupt E
          (rf_disable_static_frame_buffer_protection E
            (rf_flags_clear RFF_RX
              (rf_if_change_trx_state E FORCE_PLL_ON (rf_if_read_trx_state E s).2)))))

/-- The source's `rf_handle_ack`: `expected_ack_sequence` (an `int16_t`) is
compared with the `uint8_t` sequence number as integers. -/
def rf_handle_ack (seq_number data_pending : Nat) (s : State) : State :=
  rf_if_unlock
    (if (rf_if_lock s).d.expected_ack_sequence = (seq_number : Int) then
      phy_tx_done_cb
        (if data_pending ≠ 0 then phy_link_tx_status_e.PHY_LINK_TX_DONE_PENDING
         else phy_link_tx_status_e.PHY_LINK_TX_DONE)
        { rf_ack_wait_timer_stop (rf_if_lock s) with
          d := { (rf_ack_wait_timer_stop (rf_if_lock s)).d with
            expected_ack_sequence := -1 } }
     else rf_if_lock s)

/-- The source's `rf_scale_lqi`: `rssi` is an `int8_t`, and the sums
`rf_sensitivity + 10k` are computed in `int`. -/
def rf_scale_lqi (rssi : Int) (s : State) : Nat :=
  if rssi < s.d.rf_sensitivity then 0
  else if rssi < s.d.rf_sensitivity + 10 then 31
  else if rssi < s.d.rf_sensitivity + 20 then 207
  else if rssi < s.d.rf_sensitivity + 30 then 255
  else if rssi < s.d.rf_sensitivity + 40 then 255
  else if rssi < s.d.rf_sensitivity + 50 then 255
  else if rssi < s.d.rf_sensitivity + 60 then 255
  else if rssi < s.d.rf_sensitivity + 70 then 255
  else if rssi > s.d.rf_sensitivity + 80 then 111
  else 255

/-- The part of `rf_handle_rx_end` after the packet has been read. -/
def rf_handle_rx_frame (E : Env) (pk : Packet) (s : State) : State :=
  if pk.len < 5 ∨ pk.crc_good = false then s
  else if (s.d.rf_buffer.getD 0 0 &&& 0x07) = 0x02 ∧ s.d.rf_mode ≠ rf_mode_t.RF_MODE_SNIFFER then
    rf_handle_ack (s.d.rf_buffer.getD 2 0)
      (if s.d.rf_buffer.getD 0 0 &&& 0x10 ≠ 0 then 1 else 0) s
  else
    phy_rx_cb (pk.len - 2) (rf_scale_lqi (rf_if_scale_rssi E pk.ed s) s)
      (rf_if_scale_rssi E pk.ed s) s

/-- The source's `rf_handle_rx_end`. -/
def rf_handle_rx_end (E : Env) (fuel : Nat) (s : State) : Option State :=
  (rf_receive E fuel (rf_flags_clear RFF_RX s)).map
    (fun s1 =>
      if rf_flags_check RFF_RX s1 = 0 then s1
      else rf_handle_rx_frame E (rf_if_read_packet E s1).1 (rf_if_read_packet E s1).2)

/-- The first half of `rf_handle_tx_end`, up to the receiver restart. A null
or too short `rf_tx_data` reads as zero bytes. -/
def rf_handle_tx_end_ack (s : State) : State :=
  if (u8 (s.d.rf_tx_data.getD 0 0) &&& 0x20 ≠ 0) ∧ rf_flags_check RFF_TX s ≠ 0 then
    { rf_ack_wait_timer_start s.d.rf_ack_wait_duration
        { s with d := { s.d with
            rf_rx_mode := 0
            expected_ack_sequence := (u8 (s.d.rf_tx_data.getD 2 0) : Int) } } with
      d := { (rf_ack_wait_timer_start s.d.rf_ack_wait_duration
        { s with d := { s.d with
            rf_rx_mode := 0
            expected_ack_sequence := (u8 (s.d.rf_tx_data.getD 2 0) : Int) } }).d with
        rf_rx_mode := 1 } }
  else { s with d := { s.d with rf_rx_mode := 0 } }

/-- The source's `rf_handle_tx_end`. -/
def rf_handle_tx_end (E : Env) (fuel : Nat) (s : State) : Option State :=
  (rf_receive E fuel (rf_flags_clear RFF_RX (rf_handle_tx_end_ack s))).map
    (phy_tx_done_cb phy_link_tx_status_e.PHY_LINK_TX_SUCCESS)

/-- The source's `rf_handle_cca_ed_done`. -/
def rf_handle_cca_ed_done (E : Env) (s : State) : State :=
  if rf_flags_check RFF_CCA s = 0 then s
  else if (rf_if_check_cca E (rf_flags_clear RFF_CCA s)).1 ≠ 0 then
    rf_start_tx E (rf_if_check_cca E (rf_flags_clear RFF_CCA s)).2
  else
    phy_tx_done_cb phy_link_tx_status_e.PHY_LINK_CCA_FAIL
      (rf_disable_static_frame_buffer_protection E
        (rf_if_check_cca E (rf_flags_clear RFF_CCA s)).2)

/-- The source's `rf_interface_state_control`; it always returns 0. -/
def rf_interface_state_control (E : Env) (fuel : Nat) (new_state : phy_interface_state_e)
    (rf_channel : Nat) (s : State) : Option (Int × State) :=
  match new_state with
  | phy_interface_state_e.PHY_INTERFACE_RESET => some (0, s)
  | phy_interface_state_e.PHY_INTERFACE_DOWN => some (0, rf_shutdown E s)
  | phy_interface_state_e.PHY_INTERFACE_UP =>
    (rf_receive E fuel
      (rf_channel_set E rf_channel
        { s with d := { s.d with rf_mode := rf_mode_t.RF_MODE_NORMAL } })).map
      (fun s1 => (0, rf_if_enable_irq s1))
  | phy_interface_state_e.PHY_INTERFACE_RX_ENERGY_STATE =>
    (rf_receive E fuel
      (rf_channel_set E rf_channel
        { s with d := { s.d with rf_mode := rf_mode_t.RF_MODE_ED } })).map
      (fun s1 =>
        (0, rf_if_write_register E E.PHY_ED_LEVEL 0xff
          (rf_if_enable_cca_ed_done_interrupt E
            (rf_if_read_register E E.IRQ_STATUS (rf_if_disable_irq s1)).2)))
  | phy_interface_state_e.PHY_INTERFACE_SNIFFER_STATE =>
    (rf_receive E fuel
      (rf_flags_clear RFF_RX
        (rf_channel_set E rf_channel
          { s with d := { s.d with rf_mode := rf_mode_t.RF_MODE_SNIFFER } }))).map
      (fun s1 => (0, rf_if_enable_irq s1))

/-- Assignment of `rf_sensitivity` and `rf_ack_wait_duration` in
`rf_init_phy_mode`. -/
def rf_set_phy_mode (sensitivity : Int) (ack_wait : Nat) (s : State) : State :=
  { s with d := { s.d with rf_sensitivity := sensitivity, rf_ack_wait_duration := ack_wait } }

/-- The decision chain of `rf_init_phy_mode` on the part number `part` and
the value `tmp` read from `TRX_CTRL_2`. The assignments to the local `tmp`
in the branches are dead stores and are left out. -/
def rf_init_phy_mode_select (E : Env) (part tmp : Nat) (s : State) : State :=
  if part = E.PART_AT86RF212 then
    if tmp &&& 0x1f = 0x00 then rf_set_phy_mode (-110) 938 s
    else if tmp &&& 0x1f = 0x04 then rf_set_phy_mode (-108) 469 s
    else if tmp &&& 0x1f = 0x14 then rf_set_phy_mode (-108) 469 s
    else if tmp &&& 0x1f = 0x08 then rf_set_phy_mode (-101) 50 s
    else if tmp &&& 0x1f = 0x09 then rf_set_phy_mode (-99) 30 s
    else if tmp &&& 0x1f = 0x18 then rf_set_phy_mode (-102) 50 s
    else if tmp &&& 0x1f = 0x19 then rf_set_phy_mode (-100) 30 s
    else if tmp &&& 0x1f = 0x0c then rf_set_phy_mode (-100) 20 s
    else if tmp &&& 0x1f = 0x0d then rf_set_phy_mode (-98) 25 s
    else if tmp &&& 0x1f = 0x0f then rf_set_phy_mode (-98) 25 s
    else if tmp &&& 0x1f = 0x1c then rf_set_phy_mode (-101) 20 s
    else if tmp &&& 0x1f = 0x1d then rf_set_phy_mode (-99) 25 s
    else if tmp &&& 0x1f = 0x1f then rf_set_phy_mode (-99) 25 s
    else if tmp &&& 0x3f = 0x2A then rf_set_phy_mode (-91) 25 s
    else if tmp &&& 0x3f = 0x0A then rf_set_phy_mode (-91) 25 s
    else if tmp &&& 0x3f = 0x3A then rf_set_phy_mode (-97) 25 s
    else if tmp &&& 0x3f = 0x1A then rf_set_phy_mode (-97) 25 s
    else if tmp &&& 0x3f = 0x2E then rf_set_phy_mode (-93) 13 s
    else if tmp &&& 0x3f = 0x0E then rf_set_phy_mode (-93) 13 s
    else if tmp &&& 0x3f = 0x3E then rf_set_phy_mode (-95) 13 s
    else if tmp &&& 0x3f = 0x1E then rf_set_phy_mode (-95) 13 s
    else s
  else rf_set_phy_mode (-101) 20 s

/-- The source's `rf_init_phy_mode`. -/
def rf_init_phy_mode (E : Env) (s : State) : State :=
  rf_init_phy_mode_select E (rf_if_read_part_num E s).1
    (rf_if_read_register E E.TRX_CTRL_2 (rf_if_read_part_num E s).2).1
    (rf_if_read_register E E.TRX_CTRL_2 (rf_if_read_part_num E s).2).2

/-- The receiver sensitivities assigned in `rf_init_phy_mode`, and the
initial `RF_DEFAULT_SENSITIVITY`. -/
def rf_sensitivities : List Int :=
  [-110, -108, -101, -99, -102, -100, -98, -91, -97, -93, -95, RF_DEFAULT_SENSITIVITY]

/-! ## Concrete environments and states used in examples -/

/-- The register map of the AT86RF233 data sheet, used for concrete examples
only; no result depends on these values. -/
def at86rf : AT86RFReg where
  TRX_STATUS := 0x01
  TRX_STATE := 0x02
  TRX_CTRL_2 := 0x0C
  PHY_ED_LEVEL := 0x07
  PHY_CC_CCA := 0x08
  ANT_DIV := 0x0D
  IRQ_MASK := 0x0E
  IRQ_STATUS := 0x0F
  RX_SYN := 0x15
  XAH_CTRL_1 := 0x17
  FTN_CTRL := 0x18
  PART_NUM := 0x1C
  CCA_STATUS := 0x40
  CCA_REQUEST := 0x80
  CCA_ED_DONE := 0x10
  TRX_END := 0x08
  RX_PDT_DIS := 0x80
  AACK_PROM_MODE := 0x02
  ANT_EXT_SW_EN := 0x04
  FTN_START := 0x80
  PART_AT86RF212 := 0x07
  PART_AT86RF233 := 0x0B
  SHORT_ADDR_0 := 0x20
  SHORT_ADDR_1 := 0x21
  PAN_ID_0 := 0x22
  PAN_ID_1 := 0x23
  IEEE_ADDR_0 := 0x24
  XAH_CTRL_0 := 0x2C
  TRX_CTRL_1 := 0x04
  RF_CTRL_0 := 0x16
  VERSION_NUM := 0x1D
  PHY_TX_PWR := 0x05
  RX_CTRL := 0x0A
  TRX_RPC := 0x16
  PHY_RSSI := 0x06
  CSMA_SEED_1 := 0x2E
  VERSION_AT86RF212B := 0x03
  OQPSK_SIN_250 := 0x0C
  ANT_DIV_EN := 0x08
  ANT_CTRL_DEFAULT := 0x03
  RX_RPC_CTRL := 0xC0
  TRX_RPC_RSVD_1 := 0x01
  AACK_SET_PD := 5

/-- A transceiver that answers every exchange with the byte `v`. -/
def env_const (v : Nat) : Env := { at86rf with miso := fun _ => v }

/-- A driver in normal receive mode: powered on and receiving, with a
tx-done callback registered and driver id 0. -/
def st_receiving : State :=
  { d := { rf_flags := 0x03, phy_tx_done_cb := true, phy_rx_cb := true,
           rf_radio_driver_id := 0 } }

/-- A 20-byte data frame without the ACK-request bit, sequence number 5. -/
def frame_no_ack : List Nat :=
  [0x41, 0x88, 5, 0xCD, 0xAB, 0xFF, 0xFF, 0x01, 0x00, 1, 2, 3, 4, 5, 6, 7, 8, 9, 10, 11]

/-- A 20-byte data frame with the ACK-request bit (0x20), sequence number 9. -/
def frame_ack : List Nat :=
  [0x61, 0x88, 9, 0xCD, 0xAB, 0x02, 0x00, 0x01, 0x00, 1, 2, 3, 4, 5, 6, 7, 8, 9, 10, 11]

/-! ## Hardware behaviours assumed in scenarios -/

/-- The status byte the transceiver returns for a read of TRX_STATUS issued
after the bus history `h`. -/
def trx_status_byte (E : Env) (h : List Nat) : Nat :=
  u8 (E.miso (u8 0 :: u8 (0x80 ||| E.TRX_STATUS) :: h))

/-- The transceiver reports the state `st` on every read of TRX_STATUS. -/
def hw_reports_state (E : Env) (st : Nat) : Prop :=
  ∀ h, trx_status_byte E h &&& 0x1F = st

/-- The transceiver reports a clear channel (CCA_STATUS set) on every read
of TRX_STATUS. -/
def hw_channel_clear (E : Env) : Prop :=
  ∀ h, trx_status_byte E h &&& E.CCA_STATUS ≠ 0

/-- The transceiver reports a busy channel (CCA_STATUS clear) on every read
of TRX_STATUS. -/
def hw_channel_busy (E : Env) : Prop :=
  ∀ h, trx_status_byte E h &&& E.CCA_STATUS = 0

/-- A driver whose transmission of `frame_ack` (handle 7) has been started
by `rf_start_tx`: powered on, RFF_TX set, receiving flag cleared. -/
def st_transmitting : State :=
  { d := { rf_flags := 0x05, phy_tx_done_cb := true, phy_rx_cb := true,
           rf_radio_driver_id := 0, rf_tx_data := frame_ack, rf_tx_length := 20,
           mac_tx_handle := 7 } }

/-- The state a well-behaved transceiver settles in after the command `v`
written to TRX_STATE. -/
def chip_settle (v : Nat) : Nat :=
  if v = FORCE_PLL_ON then PLL_ON
  else if v = FORCE_TRX_OFF then TRX_OFF
  else if v = RF_TX_START then PLL_ON
  else v

/-- The last value written to TRX_STATE (command byte 0xC2) in a bus
history, RX_AACK_ON when there is none. -/
def chip_last_state : List Nat → Nat
  | v :: c :: rest => if c = 0xC2 then v else chip_last_state (c :: rest)
  | _ => RX_AACK_ON

/-- A well-behaved transceiver, used for concrete runs: a read of TRX_STATUS
reports the state last commanded, as already reached, with a clear channel;
every other exchange returns 0. -/
def env_chip : Env :=
  { at86rf with
    miso := fun h =>
      match h with
      | 0 :: 0x81 :: rest => chip_settle (chip_last_state rest) ||| 0x40
      | _ => 0 }

/-! ## The driver as a transition system -/

/-- The state after initialisation, as far as the ACK bookkeeping goes: no
ACK is expected and the ACK-wait timer is idle. -/
def PostInit (s : State) : Prop :=
  s.d.expected_ack_sequence = -1 ∧ s.p.ack_timer = none

/-- The driver operations that the MAC layer, the radio interrupt and the
timers can trigger. -/
inductive Op
  | start_cca (rnd : Nat) (data_ptr : List Nat) (data_length tx_handle : Nat)
  | cca_timer
  | cca_ed_done
  | tx_end
  | rx_end
  | ack_timeout
  | state_control (new_state : phy_interface_state_e) (rf_channel : Nat)

/-- One operation. The ACK-wait handler runs on expiry of the ACK-wait
timer: the timer must be armed and, being one-shot, is idle when the handler
runs. The other handlers may run in any state. `none` when the operation is
not enabled or does not return within the fuel. -/
def step (E : Env) (fuel : Nat) : Op → State → Option State
  | Op.start_cca rnd data_ptr data_length tx_handle, s =>
    some (rf_start_cca E rnd data_ptr data_length tx_handle s).2
  | Op.cca_timer, s => rf_cca_timer_interrupt E fuel s
  | Op.cca_ed_done, s => some (rf_handle_cca_ed_done E s)
  | Op.tx_end, s => rf_handle_tx_end E fuel s
  | Op.rx_end, s => rf_handle_rx_end E fuel s
  | Op.ack_timeout, s =>
    if s.p.ack_timer ≠ none then
      rf_ack_wait_timer_interrupt E fuel { s with p := { s.p with ack_timer := none } }
    else none
  | Op.state_control new_state rf_channel, s =>
    (rf_interface_state_control E fuel new_state rf_channel s).map Prod.snd

/-- The states reachable from a post-initialisation state. -/
inductive Reachable (E : Env) : State → Prop
  | init (s : State) : PostInit s → Reachable E s
  | step (s s2 : State) (fuel : Nat) (op : Op) :
      Reachable E s → step E fuel op s = some s2 → Reachable E s2

/-- A sequence of operations, each run with the same fuel. -/
def run (E : Env) (fuel : Nat) : List Op → State → Option State
  | [], s => some s
  | op :: ops, s => (step E fuel op s).bind (run E fuel ops)

/-- The operations of the run that leaves the ACK-wait timer armed with no
ACK expected: a transmission of `frame_ack` up to its transmit-end
interrupt, then a second transmit request. -/
def ops_stale_ack_timer : List Op :=
  [Op.start_cca 7 frame_ack 20 7, Op.cca_timer, Op.cca_ed_done, Op.tx_end,
   Op.start_cca 3 frame_no_ack 20 8]

/-- Whether an event is an invocation of the rx callback. -/
def Event.isRx : Event → Bool
  | Event.rx _ _ _ _ _ => true
  | _ => false

/-- A well-behaved transceiver as `env_chip`, which answers every exchange
other than a read of TRX_STATUS with the byte `v`: a frame read from it has
length `v & 0x7F`, all bytes `v`, and a valid CRC when bit 7 of `v` is set. -/
def env_frame (v : Nat) : Env :=
  { at86rf with
    miso := fun h =>
      match h with
      | 0 :: 0x81 :: rest => chip_settle (chip_last_state rest) ||| 0x40
      | _ => v }

/-- The receiving driver after the receiver restart at the start of
`rf_handle_rx_end`, with the transceiver `env_chip`. -/
def st_restarted : State :=
  (rf_receive env_chip 1 (rf_flags_clear RFF_RX st_receiving)).getD st_receiving

/-- The same with the transceiver `env_frame 0x85`. -/
def st_restarted_frame : State :=
  (rf_receive (env_frame 0x85) 1 (rf_flags_clear RFF_RX st_receiving)).getD st_receiving

/-! ## Address filters -/

/-- The address kinds of `phy_address_type_e` (Nanostack's `arm_hal_phy.h`). -/
inductive phy_address_type_e
  | PHY_MAC_48BIT
  | PHY_MAC_64BIT
  | PHY_MAC_16BIT
  | PHY_MAC_PANID
  deriving DecidableEq, Repr

/-- The source's `rf_if_write_short_addr_registers`. A pointer to bytes is
modelled by the map from index to byte. -/
def rf_if_write_short_addr_registers (E : Env) (short_address : Nat → Nat) (s : State) :
    State :=
  rf_if_write_register E E.SHORT_ADDR_0 (short_address 1)
    (rf_if_write_register E E.SHORT_ADDR_1 (short_address 0) s)

/-- The source's `rf_if_write_pan_id_registers`. -/
def rf_if_write_pan_id_registers (E : Env) (pan_id : Nat → Nat) (s : State) : State :=
  rf_if_write_register E E.PAN_ID_0 (pan_id 1)
    (rf_if_write_register E E.PAN_ID_1 (pan_id 0) s)

/-- The loop of `rf_if_write_ieee_addr_registers`: `n` iterations left,
`i` the loop counter, the register address `temp` being `IEEE_ADDR_0 + i`
as a `uint8_t`. -/
def rf_if_write_ieee_addr_loop (E : Env) (address : Nat → Nat) : Nat → Nat → State → State
  | 0, _, s => s
  | n + 1, i, s =>
    rf_if_write_ieee_addr_loop E address n (i + 1)
      (rf_if_write_register E (u8 (E.IEEE_ADDR_0 + i)) (address (7 - i)) s)

/-- The source's `rf_if_write_ieee_addr_registers`. -/
def rf_if_write_ieee_addr_registers (E : Env) (address : Nat → Nat) (s : State) : State :=
  rf_if_write_ieee_addr_loop E address 8 0 s

/-- The common shape of `rf_set_short_adr`, `rf_set_pan_id` and
`rf_set_address`: wake the transceiver if it sleeps, write the registers,
and put it back to sleep. -/
def rf_set_filter (E : Env) (write : State → State) (s : State) : State :=
  let s1 := rf_if_lock s
  let s2 :=
    if rf_flags_check RFF_ON s1 = 0 then
      rf_poll_trx_state_change E TRX_OFF (rf_if_disable_slptr s1)
    else s1
  let s3 := write s2
  rf_if_unlock (if rf_flags_check RFF_ON s3 = 0 then rf_if_enable_slptr s3 else s3)

def rf_set_short_adr (E : Env) (short_address : Nat → Nat) (s : State) : State :=
  rf_set_filter E (rf_if_write_short_addr_registers E short_address) s

def rf_set_pan_id (E : Env) (pan_id : Nat → Nat) (s : State) : State :=
  rf_set_filter E (rf_if_write_pan_id_registers E pan_id) s

def rf_set_address (E : Env) (address : Nat → Nat) (s : State) : State :=
  rf_set_filter E (rf_if_write_ieee_addr_registers E address) s

/-- The source's `rf_address_write`; it always returns 0. -/
def rf_address_write (E : Env) (address_type : phy_address_type_e) (address_ptr : Nat → Nat)
    (s : State) : Int × State :=
  match address_type with
  | phy_address_type_e.PHY_MAC_48BIT => (0, s)
  | phy_address_type_e.PHY_MAC_64BIT => (0, rf_set_address E address_ptr s)
  | phy_address_type_e.PHY_MAC_16BIT => (0, rf_set_short_adr E address_ptr s)
  | phy_address_type_e.PHY_MAC_PANID => (0, rf_set_pan_id E address_ptr s)

/-! ## Views of the trace -/

/-- The value written by the register write to command byte `cmd` that the
trace starts with (newest first), if it starts with one. -/
def write_at (cmd : Nat) (t : List (Nat × Event)) : Option Nat :=
  match t with
  | (_, Event.cs 1) :: (_, Event.spi v _) :: (_, Event.spi c _) :: (_, Event.cs 0) :: _ =>
    if c = cmd then some v else none
  | _ => none

/-- The value of the most recent register write to `addr` in the trace:
what the register holds. -/
def last_write (addr : Nat) : List (Nat × Event) → Option Nat
  | [] => none
  | x :: t =>
    match write_at (u8 (0xC0 ||| addr)) (x :: t) with
    | some v => some v
    | none => last_write addr t

/-- Whether an event is a bus exchange or a change of `rf_flags`. -/
def Event.isAccess : Event → Bool
  | Event.spi _ _ => true
  | Event.flags _ => true
  | _ => false

/-- The bus exchanges and flag changes of a trace made with the lock
released (critical-section depth 0). -/
def unlocked_accesses (t : List (Nat × Event)) : List (Nat × Event) :=
  t.filter (fun x => x.1 = 0 ∧ x.2.isAccess)

/-! ## Initialisation and registration -/

/-- The source's `rf_if_reset_radio`. The SPI clock setting and the delays
are not modelled; the interrupt handler is detached during the reset pulse
and attached at the end. -/
def rf_if_reset_radio (s : State) : State :=
  let s1 := CS_RELEASE { s with p := { s.p with irq_handler := false, RST := 0 } }
  let s2 := log (Event.slp_tr 0) { s1 with p := { s1.p with SLP_TR := 0 } }
  { s2 with p := { s2.p with RST := 1, irq_handler := true } }

def rf_if_write_set_tx_power_register (E : Env) (value : Nat) (s : State) : State :=
  rf_if_write_register E E.PHY_TX_PWR value s

def rf_if_write_antenna_diversity_settings (E : Env) (s : State) : State :=
  rf_if_write_register E E.ANT_DIV (E.ANT_DIV_EN ||| E.ANT_EXT_SW_EN ||| E.ANT_CTRL_DEFAULT)
    (rf_if_set_bit E E.RX_CTRL 0x03 0x0f s)

/-- The sub-GHz branch of `rf_if_write_rf_settings`. `RF_PHY_MODE` is
`OQPSK_SIN_250`. -/
def rf_if_write_rf_settings_212 (E : Env) (s : State) : State :=
  let s1 := rf_if_write_register E E.RF_CTRL_0 0x32 s
  let v := rf_if_read_register E E.VERSION_NUM s1
  let s2 :=
    if v.1 = E.VERSION_AT86RF212B then rf_if_write_register E E.PHY_TX_PWR 0x03 v.2
    else rf_if_write_register E E.PHY_TX_PWR 0x24 v.2
  let s3 := rf_if_write_register E E.TRX_CTRL_2 E.OQPSK_SIN_250 s2
  { s3 with d := { s3.d with rf_rssi_base_val := -98 } }

/-- The source's `rf_if_write_rf_settings`. -/
def rf_if_write_rf_settings (E : Env) (s : State) : State :=
  let p1 := rf_if_read_part_num E (rf_if_reset_radio s)
  let s1 : State := { p1.2 with d := { p1.2.d with rf_part_num := p1.1 } }
  let s2 := rf_if_write_register E E.PHY_CC_CCA 0x05
    (rf_if_write_register E E.TRX_CTRL_1 0x20 (rf_if_write_register E E.XAH_CTRL_0 0 s1))
  let p2 := rf_if_read_register E E.PART_NUM s2
  let s3 : State := { p2.2 with d := { p2.2.d with rf_part_num := p2.1 } }
  if s3.d.rf_part_num = E.PART_AT86RF212 then rf_if_write_rf_settings_212 E s3
  else
    { rf_if_write_register E E.TRX_CTRL_2 0 s3 with
      d := { (rf_if_write_register E E.TRX_CTRL_2 0 s3).d with rf_rssi_base_val := -91 } }

/-- The source's `rf_write_settings`. -/
def rf_write_settings (E : Env) (s : State) : State :=
  let s1 := rf_if_write_rf_settings E (rf_if_lock s)
  let s2 := rf_if_write_set_tx_power_register E s1.d.radio_tx_power s1
  rf_if_unlock
    (if s2.d.rf_use_antenna_diversity ≠ 0 then rf_if_write_antenna_diversity_settings E s2
     else s2)

/-- The four reads of PHY_RSSI in `rf_if_read_rnd`, two random bits each,
assembled in the `uint8_t` variable `temp`. -/
def rf_if_read_rnd_bits (E : Env) (s : State) : Nat × State :=
  let r1 := rf_if_read_register E E.PHY_RSSI s
  let r2 := rf_if_read_register E E.PHY_RSSI r1.2
  let r3 := rf_if_read_register E E.PHY_RSSI r2.2
  let r4 := rf_if_read_register E E.PHY_RSSI r3.2
  (u8 (u8 (u8 (u8 ((r1.1 >>> 5) <<< 6) ||| ((r2.1 >>> 5) <<< 4)) ||| ((r3.1 >>> 5) <<< 2))
      ||| (r4.1 >>> 5)),
   r4.2)

/-- The source's `rf_if_read_rnd`. -/
def rf_if_read_rnd (E : Env) (s : State) : Nat × State :=
  if s.d.rf_part_num = E.PART_AT86RF233 then
    let t := rf_if_read_register E E.TRX_RPC s
    let r := rf_if_read_rnd_bits E
      (rf_if_write_register E E.TRX_RPC (E.RX_RPC_CTRL ||| E.TRX_RPC_RSVD_1) t.2)
    (r.1, rf_if_write_register E E.TRX_RPC t.1 r.2)
  else rf_if_read_rnd_bits E s

/-- The source's `rf_init`. The call `randLIB_add_seed` of the external
random library is recorded as an event. -/
def rf_init (E : Env) (fuel : Nat) (s : State) : Option State :=
  (rf_receive E fuel
    (rf_if_change_trx_state E PLL_ON
      (rf_if_change_trx_state E TRX_OFF
        (rf_flags_reset
          (rf_init_phy_mode E
            (rf_write_settings E (rf_if_lock (rf_if_reset_radio s)))))))).map
    (fun s1 =>
      rf_if_unlock
        (rf_calibration_timer_start RF_CALIBRATION_INTERVAL
          (log (Event.add_seed (rf_if_read_rnd E s1).1) (rf_if_read_rnd E s1).2)))

/-- The radio types of `rf_trx_part_e` that `rf_radio_type_read` tells apart. -/
inductive rf_trx_part_e
  | ATMEL_UNKNOW_DEV
  | ATMEL_AT86RF212
  | ATMEL_AT86RF233
  deriving DecidableEq, Repr

/-- The source's `rf_radio_type_read`. -/
def rf_radio_type_read (E : Env) (s : State) : rf_trx_part_e :=
  if s.d.rf_part_num = E.PART_AT86RF212 then rf_trx_part_e.ATMEL_AT86RF212
  else if s.d.rf_part_num = E.PART_AT86RF233 then rf_trx_part_e.ATMEL_AT86RF233
  else rf_trx_part_e.ATMEL_UNKNOW_DEV

/-- The source's `rf_device_register`. `net_id` is the value that Nanostack's
`arm_net_phy_register` returns (an `int8_t`); the call is recorded as an
event. Of `device_driver` the fields `PHY_MAC`, `link_type`, `phy_MTU` and the
two callbacks are modelled. -/
def rf_device_register (E : Env) (fuel : Nat) (net_id : Int) (mac_addr : List Nat)
    (s : State) : Option (Int × State) :=
  (rf_init E fuel s).map
    (fun s1 =>
      if rf_radio_type_read E s1 ≠ rf_trx_part_e.ATMEL_UNKNOW_DEV then
        (net_id,
         { log Event.phy_register s1 with
           d := { s1.d with
             PHY_MAC := mac_addr
             link_type :=
               if rf_radio_type_read E s1 = rf_trx_part_e.ATMEL_AT86RF212 then
                 some phy_link_type_e.PHY_LINK_15_4_SUBGHZ_TYPE
               else some phy_link_type_e.PHY_LINK_15_4_2_4GHZ_TYPE
             phy_MTU := 127
             phy_rx_cb := false
             phy_tx_done_cb := false
             rf_radio_driver_id := net_id } })
      else (s1.d.rf_radio_driver_id, s1))

/-- The source's `rf_device_unregister`; the call of Nanostack's
`arm_net_phy_unregister` is recorded as an event. -/
def rf_device_unregister (s : State) : State :=
  if s.d.rf_radio_driver_id ≥ 0 then
    { log (Event.phy_unregister s.d.rf_radio_driver_id) s with
      d := { s.d with rf_radio_driver_id := -1 } }
  else s

/-- The members of a `NanostackRfPhyAtmel` object the registration uses:
the pointer `_rf` to its `RFBits` (`none` for the null pointer), and the MAC
address with the flag that says whether the user has set it. -/
structure NanostackRfPhyAtmel where
  _rf : Option Nat
  _mac_set : Bool := false
  _mac_addr : List Nat := List.replicate 8 0
  deriving DecidableEq, Repr

/-- The source's `NanostackRfPhyAtmel::rf_register`. `eui_ret` and `eui` are
what the EEPROM driver's `read_eui64` returns and leaves in `_mac_addr`, when
it is called; `net_id` is what `arm_net_phy_register` returns. The platform's
`error` is recorded as an event, after which the source returns -1. -/
def rf_register (E : Env) (fuel : Nat) (eui_ret : Int) (eui : List Nat) (net_id : Int)
    (self : NanostackRfPhyAtmel) (s : State) : Option (Int × NanostackRfPhyAtmel × State) :=
  if self._rf = none then some (-1, self, s)
  else if (rf_if_lock s).d.rf ≠ none then
    some (-1, self, log Event.error (rf_if_unlock (rf_if_lock s)))
  else if self._mac_set = false ∧ eui_ret < 0 then
    some (-1, { self with _mac_addr := eui },
      rf_if_unlock { rf_if_lock s with d := { s.d with rf := none } })
  else
    (rf_device_register E fuel net_id (if self._mac_set then self._mac_addr else eui)
      { rf_if_lock s with d := { s.d with rf := self._rf } }).map
      (fun r =>
        (r.1, if self._mac_set then self else { self with _mac_addr := eui },
         rf_if_unlock
           (if r.1 < 0 then { r.2 with d := { r.2.d with rf := none } } else r.2)))

/-- The source's `NanostackRfPhyAtmel::rf_unregister`. -/
def rf_unregister (s : State) : State :=
  if (rf_if_lock s).d.rf = none then rf_if_unlock (rf_if_lock s)
  else
    rf_if_unlock
      { rf_device_unregister (rf_if_lock s) with
        d := { (rf_device_unregister (rf_if_lock s)).d with rf := none } }

/-- The source's `NanostackRfPhyAtmel::get_mac_address`: the bytes copied to
`mac`, if any, and the state. -/
def get_mac_address (self : NanostackRfPhyAtmel) (s : State) : Option (List Nat) × State :=
  if (rf_if_lock s).d.rf = none then
    (none, rf_if_unlock (log Event.error (rf_if_lock s)))
  else (some self._mac_addr, rf_if_unlock (rf_if_lock s))

/-- The source's `NanostackRfPhyAtmel::set_mac_address`. -/
def set_mac_address (mac : List Nat) (self : NanostackRfPhyAtmel) (s : State) :
    NanostackRfPhyAtmel × State :=
  if (rf_if_lock s).d.rf ≠ none then
    (self, rf_if_unlock (log Event.error (rf_if_lock s)))
  else ({ self with _mac_addr := mac, _mac_set := true }, rf_if_unlock (rf_if_lock s))

/-! ## Extension calls, calibration callback and the radio interrupt -/

/-- The extension types of `phy_extension_type_e` (Nanostack's
`arm_hal_phy.h`) that `rf_extension` names, and two of those that fall to
its `default` branch. -/
inductive phy_extension_type_e
  | PHY_EXTENSION_CTRL_PENDING_BIT
  | PHY_EXTENSION_READ_LAST_ACK_PENDING_STATUS
  | PHY_EXTENSION_SET_CHANNEL
  | PHY_EXTENSION_READ_CHANNEL_ENERGY
  | PHY_EXTENSION_READ_LINK_STATUS
  | PHY_EXTENSION_CONVERT_SIGNAL_INFO
  | PHY_EXTENSION_ACCEPT_ANY_BEACON
  deriving DecidableEq, Repr

/-- The source's `rf_if_ack_pending_ctrl`. -/
def rf_if_ack_pending_ctrl (E : Env) (state : Nat) (s : State) : State :=
  rf_if_unlock
    (if state ≠ 0 then
      rf_if_set_bit E E.CSMA_SEED_1 (1 <<< E.AACK_SET_PD) (1 <<< E.AACK_SET_PD) (rf_if_lock s)
     else rf_if_clear_bit E E.CSMA_SEED_1 (1 <<< E.AACK_SET_PD) (rf_if_lock s))

/-- The source's `rf_if_last_acked_pending`. -/
def rf_if_last_acked_pending (E : Env) (s : State) : Nat × State :=
  (if (rf_if_read_register E E.CSMA_SEED_1 (rf_if_lock s)).1 &&& 0x20 ≠ 0 then 1 else 0,
   rf_if_unlock (rf_if_read_register E E.CSMA_SEED_1 (rf_if_lock s)).2)

/-- The wait of `rf_extension`,
`while (!(rf_if_read_register(IRQ_STATUS) & CCA_ED_DONE));`, which has no
iteration bound: `none` when the fuel runs out. -/
def rf_ed_wait (E : Env) : Nat → State → Option State
  | 0, _ => none
  | fuel + 1, s =>
    if (rf_if_read_register E E.IRQ_STATUS s).1 &&& E.CCA_ED_DONE = 0 then
      rf_ed_wait E fuel (rf_if_read_register E E.IRQ_STATUS s).2
    else some (rf_if_read_register E E.IRQ_STATUS s).2

/-- The source's `rf_extension`: the return value (always 0), the byte at
`data_ptr` on return, and the state. -/
def rf_extension (E : Env) (fuel : Nat) (extension_type : phy_extension_type_e) (data : Nat)
    (s : State) : Option (Int × Nat × State) :=
  match extension_type with
  | phy_extension_type_e.PHY_EXTENSION_CTRL_PENDING_BIT =>
    some (0, data, rf_if_ack_pending_ctrl E (if data ≠ 0 then 1 else 0) s)
  | phy_extension_type_e.PHY_EXTENSION_READ_LAST_ACK_PENDING_STATUS =>
    some (0, (rf_if_last_acked_pending E s).1, (rf_if_last_acked_pending E s).2)
  | phy_extension_type_e.PHY_EXTENSION_READ_CHANNEL_ENERGY =>
    (rf_ed_wait E fuel s).map
      (fun s1 =>
        (0,
         ((s1.d.rf_sensitivity + ((rf_if_read_register E E.PHY_ED_LEVEL s1).1 : Int)) % 256).toNat,
         rf_if_write_register E E.PHY_ED_LEVEL 0xff
           (rf_if_read_register E E.IRQ_STATUS
             (rf_if_read_register E E.PHY_ED_LEVEL s1).2).2))
  | _ => some (0, data, s)

/-- The source's `rf_calibration_cb`. -/
def rf_calibration_cb (E : Env) (fuel : Nat) (s : State) : Option State :=
  if (rf_if_read_trx_state E { s with d := { s.d with rf_tuned := 0 } }).1 = RX_AACK_ON then
    (rf_if_calibration E fuel
      (rf_if_change_trx_state E RX_ON
        (rf_if_change_trx_state E TRX_OFF
          (rf_if_change_trx_state E PLL_ON
            (rf_if_lock
              (rf_if_read_trx_state E { s with d := { s.d with rf_tuned := 0 } }).2))))).bind
      (fun s1 =>
        (rf_receive E fuel
          (rf_flags_clear RFF_RX { s1 with d := { s1.d with rf_tuned := 1 } })).map rf_if_unlock)
  else some (rf_if_read_trx_state E { s with d := { s.d with rf_tuned := 0 } }).2

/-- The source's `rf_calibration_timer_interrupt`. -/
def rf_calibration_timer_interrupt (E : Env) (fuel : Nat) (s : State) : Option State :=
  (rf_calibration_cb E fuel s).map (rf_calibration_timer_start RF_CALIBRATION_INTERVAL)

/-- The frame-end part of the radio interrupt: the transceiver state is read
a second time only when the first read is not PLL_ON. -/
def rf_if_interrupt_trx_end (E : Env) (fuel : Nat) (s : State) : Option State :=
  if (rf_if_read_trx_state E s).1 = PLL_ON then
    rf_handle_tx_end E fuel (rf_if_read_trx_state E s).2
  else if (rf_if_read_trx_state E (rf_if_read_trx_state E s).2).1 = TX_ARET_ON then
    rf_handle_tx_end E fuel (rf_if_read_trx_state E (rf_if_read_trx_state E s).2).2
  else rf_handle_rx_end E fuel (rf_if_read_trx_state E (rf_if_read_trx_state E s).2).2

/-- The source's `rf_if_interrupt_handler` (`rf_if_irq_task_process_irq`
when an RTOS is present). -/
def rf_if_interrupt_handler (E : Env) (fuel : Nat) (s : State) : Option State :=
  let r := rf_if_read_register E E.IRQ_STATUS s
  let s1 := rf_if_clear_bit E E.IRQ_MASK r.1 r.2
  ((if r.1 &&& E.TRX_END ≠ 0 then rf_if_interrupt_trx_end E fuel s1 else some s1)).map
    (fun s2 => if r.1 &&& E.CCA_ED_DONE ≠ 0 then rf_handle_cca_ed_done E s2 else s2)

/-- The state after `k` consecutive reads of the transceiver state. -/
def status_reads (E : Env) : Nat → State → State
  | 0, s => s
  | k + 1, s => status_reads E k (rf_if_read_trx_state E s).2

/-- The state the loop of `rf_poll_trx_state_change` waits for. -/
def poll_target (trx_state : Nat) : Nat :=
  if trx_state = FORCE_PLL_ON then PLL_ON
  else if trx_state = FORCE_TRX_OFF then TRX_OFF
  else trx_state

/-- The powered-off driver with a transmit request pending: `st_receiving`
after `rf_interface_state_control(PHY_INTERFACE_DOWN)` and an accepted
`rf_start_cca`, with the transceiver `env_chip`. -/
def st_cca_pending_off : State :=
  (rf_start_cca env_chip 0 frame_no_ack 20 7 (rf_off env_chip st_receiving)).2

/-- A sleeping driver: powered off, sleep line asserted. -/
def st_sleeping : State :=
  { d := { rf_flags := 0 }, p := { SLP_TR := 1 } }

/-- An example address: byte `i` is `0x10 + i`. -/
def addr_example (i : Nat) : Nat := 0x10 + i

/-- The receiving driver after
`rf_interface_state_control(PHY_INTERFACE_SNIFFER_STATE, 11)`, with the
transceiver `env_chip`. -/
def st_sniffer : State :=
  ((rf_interface_state_control env_chip 1 phy_interface_state_e.PHY_INTERFACE_SNIFFER_STATE 11
    st_receiving).getD (0, st_receiving)).2

/-- The state `st_sniffer` after
`rf_interface_state_control(PHY_INTERFACE_UP, 11)`. -/
def st_up_after_sniffer : State :=
  ((rf_interface_state_control env_chip 1 phy_interface_state_e.PHY_INTERFACE_UP 11
    st_sniffer).getD (0, st_sniffer)).2

/-- The receiving driver after
`rf_interface_state_control(PHY_INTERFACE_RX_ENERGY_STATE, 11)`, with the
transceiver `env_chip`. -/
def st_energy : State :=
  ((rf_interface_state_control env_chip 1 phy_interface_state_e.PHY_INTERFACE_RX_ENERGY_STATE 11
    st_receiving).getD (0, st_receiving)).2

/-- A receiving driver whose calibration timer has found the transceiver
busy: `rf_tuned` is 0 and the receiving flag has been cleared by a frame-end
interrupt. -/
def st_untuned : State :=
  { d := { rf_flags := 0x01, rf_tuned := 0, phy_tx_done_cb := true, phy_rx_cb := true,
           rf_radio_driver_id := 0 } }

/-- The value of `rf_flags` after the events of a trace (newest first);
`init` when the trace has no flag change. -/
def flags_after (init : Nat) : List (Nat × Event) → Nat
  | [] => init
  | (_, Event.flags v) :: _ => v
  | _ :: t => flags_after init t

/-- The values `rf_flags` had at the moments the trace commanded RX_AACK_ON
(the register writes `TRX_STATE := RX_AACK_ON`), newest first. -/
def flags_at_aack_on (E : Env) (init : Nat) : List (Nat × Event) → List Nat
  | [] => []
  | x :: t =>
    if write_at (u8 (0xC0 ||| E.TRX_STATE)) (x :: t) = some RX_AACK_ON then
      flags_after init t :: flags_at_aack_on E init t
    else flags_at_aack_on E init t

/-- A transmit request made while the interface is down, up to the expiry
of its CCA-backoff timer. -/
def ops_cca_while_down : List Op :=
  [Op.state_control phy_interface_state_e.PHY_INTERFACE_DOWN 11,
   Op.start_cca 0 frame_no_ack 20 7, Op.cca_timer]

/-- The part of `rf_receive` after the receive state has been commanded:
the deferred calibration and `rf_receive_finish`. -/
def rf_receive_tail (E : Env) (fuel : Nat) (s1 : State) : Option State :=
  if s1.d.rf_tuned = 0 then
    (rf_if_calibration E fuel s1).map
      (fun s2 => rf_receive_finish E { s2 with d := { s2.d with rf_tuned := 1 } })
  else some (rf_receive_finish E s1)

/-- The state after the run `ops_cca_while_down` from the receiving driver,
with the transceiver `env_chip`. -/
def st_cca_started_down : State :=
  (run env_chip 1 ops_cca_while_down st_receiving).getD st_receiving

/-- The states the driver can be in once started: the state `rf_init`
returns, from any state, and those reached from it by the driver
operations: the operations of `Op`, `rf_extension`, `rf_address_write` and
the calibration timer. -/
inductive Started (E : Env) : State → Prop
  | init (s0 s : State) (fuel : Nat) : rf_init E fuel s0 = some s → Started E s
  | step (s s2 : State) (fuel : Nat) (op : Op) :
      Started E s → step E fuel op s = some s2 → Started E s2
  | extension (s : State) (fuel : Nat) (extension_type : phy_extension_type_e) (data : Nat)
      (r : Int × Nat × State) :
      Started E s → rf_extension E fuel extension_type data s = some r → Started E r.2.2
  | address_write (s : State) (address_type : phy_address_type_e) (address_ptr : Nat → Nat) :
      Started E s → Started E (rf_address_write E address_type address_ptr s).2
  | calibration_timer (s s2 : State) (fuel : Nat) :
      Started E s → rf_calibration_timer_interrupt E fuel s = some s2 → Started E s2

/-- The state `rf_init` returns from the initial values of the driver
variables, with the transceiver `env_chip`. -/
def st_init : State := (rf_init env_chip 1 {}).getD {}

/-- A driver in sniffer mode with a CCA in progress: RFF_ON, RFF_RX, RFF_CCA
and RFF_PROT set, handle 7 stored. -/
def st_cca_sniffer : State :=
  { d := { rf_flags := 0x1B, rf_mode := rf_mode_t.RF_MODE_SNIFFER, phy_tx_done_cb := true,
           phy_rx_cb := true, rf_radio_driver_id := 0, mac_tx_handle := 7 } }

/-- A registered, receiving driver: `st_receiving` with the global pointer
`rf` set and the calibration timer armed as `rf_init` leaves it. -/
def st_registered : State :=
  { d := { rf_flags := 0x03, phy_tx_done_cb := true, phy_rx_cb := true,
           rf_radio_driver_id := 0, rf := some 1 },
    p := { cal_timer := some 300000000 } }

/-- A second driver object. -/
def nano : NanostackRfPhyAtmel := { _rf := some 2 }

/-- One transmission of `frame_no_ack` (handle 7) on a clear channel, up to
its transmit-end interrupt. -/
def ops_transmission : List Op :=
  [Op.start_cca 7 frame_no_ack 20 7, Op.cca_timer, Op.cca_ed_done, Op.tx_end]

/-- The receiving driver after one completed transmission, with the
transceiver `env_chip`: back in receive mode, RFF_TX still set. -/
def st_after_tx : State :=
  (run env_chip 1 ops_transmission st_receiving).getD st_receiving

/-! # Lemmas and theorems -/

/-! ## Frame lemmas: bus traffic -/

@[simp] theorem obs_cons (n : Nat) (e : Event) (t : List (Nat × Event)) :
    obs ((n, e) :: t) = if e.isObs then e :: obs t else obs t := by
  cases h : e.isObs <;> simp [obs, List.filter_cons, h]

@[simp] theorem log_trace (e : Event) (s : State) :
    (log e s).trace = (s.p.lock_depth, e) :: s.trace := rfl

@[simp] theorem log_d (e : Event) (s : State) : (log e s).d = s.d := rfl
@[simp] theorem log_p (e : Event) (s : State) : (log e s).p = s.p := rfl
@[simp] theorem log_mosi (e : Event) (s : State) : (log e s).mosi = s.mosi := rfl


@[simp] theorem rf_if_lock_d (s : State) : (rf_if_lock s).d = s.d := rfl
@[simp] theorem rf_if_unlock_d (s : State) : (rf_if_unlock s).d = s.d := rfl
@[simp] theorem rf_if_lock_trace (s : State) : (rf_if_lock s).trace = s.trace := rfl
@[simp] theorem rf_if_unlock_trace (s : State) : (rf_if_unlock s).trace = s.trace := rfl
@[simp] theorem rf_if_lock_mosi (s : State) : (rf_if_lock s).mosi = s.mosi := rfl
@[simp] theorem rf_if_unlock_mosi (s : State) : (rf_if_unlock s).mosi = s.mosi := rfl
@[simp] theorem rf_if_lock_p (s : State) :
    (rf_if_lock s).p = { s.p with lock_depth := s.p.lock_depth + 1 } := rfl
@[simp] theorem rf_if_unlock_p (s : State) :
    (rf_if_unlock s).p = { s.p with lock_depth := s.p.lock_depth - 1 } := rfl

/-- A platform whose lock depth went up and down again is the same platform. -/
theorem lock_unlock_p (p q : Platform) (h : q = { p with lock_depth := p.lock_depth + 1 }) :
    ({ q with lock_depth := q.lock_depth - 1 } : Platform) = p := by
  subst h; cases p; simp

@[simp] theorem rf_if_spi_exchange_d (E : Env) (o : Nat) (s : State) :
    (rf_if_spi_exchange E o s).2.d = s.d := rfl
@[simp] theorem rf_if_spi_exchange_p (E : Env) (o : Nat) (s : State) :
    (rf_if_spi_exchange E o s).2.p = s.p := rfl
@[simp] theorem rf_if_spi_exchange_obs (E : Env) (o : Nat) (s : State) :
    obs (rf_if_spi_exchange E o s).2.trace = obs s.trace := rfl

@[simp] theorem rf_if_write_register_d (E : Env) (a v : Nat) (s : State) :
    (rf_if_write_register E a v s).d = s.d := rfl
@[simp] theorem rf_if_write_register_p (E : Env) (a v : Nat) (s : State) :
    (rf_if_write_register E a v s).p = s.p := rfl
@[simp] theorem rf_if_write_register_obs (E : Env) (a v : Nat) (s : State) :
    obs (rf_if_write_register E a v s).trace = obs s.trace := rfl

@[simp] theorem rf_if_read_register_d (E : Env) (a : Nat) (s : State) :
    (rf_if_read_register E a s).2.d = s.d := rfl
@[simp] theorem rf_if_read_register_p (E : Env) (a : Nat) (s : State) :
    (rf_if_read_register E a s).2.p = s.p := rfl
@[simp] theorem rf_if_read_register_obs (E : Env) (a : Nat) (s : State) :
    obs (rf_if_read_register E a s).2.trace = obs s.trace := rfl

@[simp] theorem rf_if_set_bit_d (E : Env) (a b m : Nat) (s : State) :
    (rf_if_set_bit E a b m s).d = s.d := rfl
@[simp] theorem rf_if_set_bit_p (E : Env) (a b m : Nat) (s : State) :
    (rf_if_set_bit E a b m s).p = s.p := rfl
@[simp] theorem rf_if_set_bit_obs (E : Env) (a b m : Nat) (s : State) :
    obs (rf_if_set_bit E a b m s).trace = obs s.trace := rfl

@[simp] theorem rf_if_clear_bit_d (E : Env) (a b : Nat) (s : State) :
    (rf_if_clear_bit E a b s).d = s.d := rfl
@[simp] theorem rf_if_clear_bit_p (E : Env) (a b : Nat) (s : State) :
    (rf_if_clear_bit E a b s).p = s.p := rfl
@[simp] theorem rf_if_clear_bit_obs (E : Env) (a b : Nat) (s : State) :
    obs (rf_if_clear_bit E a b s).trace = obs s.trace := rfl

@[simp] theorem rf_if_read_trx_state_d (E : Env) (s : State) :
    (rf_if_read_trx_state E s).2.d = s.d := rfl
@[simp] theorem rf_if_read_trx_state_p (E : Env) (s : State) :
    (rf_if_read_trx_state E s).2.p = s.p := rfl
@[simp] theorem rf_if_read_trx_state_obs (E : Env) (s : State) :
    obs (rf_if_read_trx_state E s).2.trace = obs s.trace := rfl

@[simp] theorem rf_if_check_cca_d (E : Env) (s : State) :
    (rf_if_check_cca E s).2.d = s.d := rfl
@[simp] theorem rf_if_check_cca_p (E : Env) (s : State) :
    (rf_if_check_cca E s).2.p = s.p := rfl
@[simp] theorem rf_if_check_cca_obs (E : Env) (s : State) :
    obs (rf_if_check_cca E s).2.trace = obs s.trace := rfl

@[simp] theorem rf_poll_loop_d (E : Env) (t n : Nat) (s : State) :
    (rf_poll_loop E t n s).d = s.d := by
  induction n generalizing s with
  | zero => rfl
  | succ n ih => unfold rf_poll_loop; split <;> simp [ih]

@[simp] theorem rf_poll_loop_p (E : Env) (t n : Nat) (s : State) :
    (rf_poll_loop E t n s).p = s.p := by
  induction n generalizing s with
  | zero => rfl
  | succ n ih => unfold rf_poll_loop; split <;> simp [ih]

@[simp] theorem rf_poll_loop_obs (E : Env) (t n : Nat) (s : State) :
    obs (rf_poll_loop E t n s).trace = obs s.trace := by
  induction n generalizing s with
  | zero => rfl
  | succ n ih => unfold rf_poll_loop; split <;> simp [ih]

@[simp] theorem rf_busy_wait_d (E : Env) (n : Nat) (s : State) :
    (rf_busy_wait E n s).d = s.d := by
  induction n generalizing s with
  | zero => rfl
  | succ n ih => unfold rf_busy_wait; split <;> simp [ih]

@[simp] theorem rf_busy_wait_p (E : Env) (n : Nat) (s : State) :
    (rf_busy_wait E n s).p = s.p := by
  induction n generalizing s with
  | zero => rfl
  | succ n ih => unfold rf_busy_wait; split <;> simp [ih]

@[simp] theorem rf_busy_wait_obs (E : Env) (n : Nat) (s : State) :
    obs (rf_busy_wait E n s).trace = obs s.trace := by
  induction n generalizing s with
  | zero => rfl
  | succ n ih => unfold rf_busy_wait; split <;> simp [ih]

@[simp] theorem rf_poll_trx_state_change_d (E : Env) (t : Nat) (s : State) :
    (rf_poll_trx_state_change E t s).d = s.d := by
  unfold rf_poll_trx_state_change; split <;> simp

@[simp] theorem rf_poll_trx_state_change_p (E : Env) (t : Nat) (s : State) :
    (rf_poll_trx_state_change E t s).p = s.p := by
  unfold rf_poll_trx_state_change; split <;> simp

@[simp] theorem rf_poll_trx_state_change_obs (E : Env) (t : Nat) (s : State) :
    obs (rf_poll_trx_state_change E t s).trace = obs s.trace := by
  unfold rf_poll_trx_state_change; split <;> simp

@[simp] theorem rf_if_change_trx_state_d (E : Env) (t : Nat) (s : State) :
    (rf_if_change_trx_state E t s).d = s.d := by
  simp [rf_if_change_trx_state]

@[simp] theorem rf_if_change_trx_state_p (E : Env) (t : Nat) (s : State) :
    (rf_if_change_trx_state E t s).p = s.p := by
  simp [rf_if_change_trx_state]

@[simp] theorem rf_if_change_trx_state_obs (E : Env) (t : Nat) (s : State) :
    obs (rf_if_change_trx_state E t s).trace = obs s.trace := by
  simp [rf_if_change_trx_state]

/-! ## Frame lemmas: flags, pins, timers -/

@[simp] theorem rf_flags_set_d (x : Nat) (s : State) :
    (rf_flags_set x s).d = { s.d with rf_flags := u8 (s.d.rf_flags ||| x) } := rfl
@[simp] theorem rf_flags_set_p (x : Nat) (s : State) : (rf_flags_set x s).p = s.p := rfl
@[simp] theorem rf_flags_set_obs (x : Nat) (s : State) : obs (rf_flags_set x s).trace = obs s.trace := rfl

@[simp] theorem rf_flags_clear_d (x : Nat) (s : State) :
    (rf_flags_clear x s).d = { s.d with rf_flags := s.d.rf_flags &&& (0xFF ^^^ u8 x) } := rfl
@[simp] theorem rf_flags_clear_p (x : Nat) (s : State) : (rf_flags_clear x s).p = s.p := rfl
@[simp] theorem rf_flags_clear_obs (x : Nat) (s : State) : obs (rf_flags_clear x s).trace = obs s.trace := rfl

@[simp] theorem rf_flags_reset_d (s : State) :
    (rf_flags_reset s).d = { s.d with rf_flags := 0 } := rfl
@[simp] theorem rf_flags_reset_p (s : State) : (rf_flags_reset s).p = s.p := rfl
@[simp] theorem rf_flags_reset_obs (s : State) : obs (rf_flags_reset s).trace = obs s.trace := rfl

@[simp] theorem rf_flags_check_def (x : Nat) (s : State) :
    rf_flags_check x s = s.d.rf_flags &&& x := rfl

@[simp] theorem rf_enable_static_frame_buffer_protection_p (E : Env) (s : State) :
    (rf_enable_static_frame_buffer_protection E s).p = s.p := by
  unfold rf_enable_static_frame_buffer_protection; split <;> simp

@[simp] theorem rf_enable_static_frame_buffer_protection_obs (E : Env) (s : State) :
    obs (rf_enable_static_frame_buffer_protection E s).trace = obs s.trace := by
  unfold rf_enable_static_frame_buffer_protection; split <;> simp

theorem rf_enable_static_frame_buffer_protection_d (E : Env) (s : State) :
    (rf_enable_static_frame_buffer_protection E s).d =
      { s.d with rf_flags :=
          if s.d.rf_flags &&& RFF_PROT = 0 then u8 (s.d.rf_flags ||| RFF_PROT)
          else s.d.rf_flags } := by
  unfold rf_enable_static_frame_buffer_protection; split <;> simp_all

@[simp] theorem rf_disable_static_frame_buffer_protection_p (E : Env) (s : State) :
    (rf_disable_static_frame_buffer_protection E s).p = s.p := by
  unfold rf_disable_static_frame_buffer_protection; split <;> simp

@[simp] theorem rf_disable_static_frame_buffer_protection_obs (E : Env) (s : State) :
    obs (rf_disable_static_frame_buffer_protection E s).trace = obs s.trace := by
  unfold rf_disable_static_frame_buffer_protection; split <;> simp

theorem rf_disable_static_frame_buffer_protection_d (E : Env) (s : State) :
    (rf_disable_static_frame_buffer_protection E s).d =
      { s.d with rf_flags :=
          if s.d.rf_flags &&& RFF_PROT ≠ 0 then s.d.rf_flags &&& (0xFF ^^^ u8 RFF_PROT)
          else s.d.rf_flags } := by
  unfold rf_disable_static_frame_buffer_protection; split <;> simp_all

@[simp] theorem rf_if_enable_slptr_d (s : State) : (rf_if_enable_slptr s).d = s.d := rfl
@[simp] theorem rf_if_disable_slptr_d (s : State) : (rf_if_disable_slptr s).d = s.d := rfl
@[simp] theorem rf_if_enable_slptr_obs (s : State) : obs (rf_if_enable_slptr s).trace = obs s.trace := rfl
@[simp] theorem rf_if_disable_slptr_obs (s : State) : obs (rf_if_disable_slptr s).trace = obs s.trace := rfl
@[simp] theorem rf_if_enable_slptr_p (s : State) :
    (rf_if_enable_slptr s).p = { s.p with SLP_TR := 1 } := rfl
@[simp] theorem rf_if_disable_slptr_p (s : State) :
    (rf_if_disable_slptr s).p = { s.p with SLP_TR := 0 } := rfl

@[simp] theorem rf_if_enable_irq_d (s : State) : (rf_if_enable_irq s).d = s.d := rfl
@[simp] theorem rf_if_disable_irq_d (s : State) : (rf_if_disable_irq s).d = s.d := rfl
@[simp] theorem rf_if_enable_irq_obs (s : State) : obs (rf_if_enable_irq s).trace = obs s.trace := rfl
@[simp] theorem rf_if_disable_irq_obs (s : State) : obs (rf_if_disable_irq s).trace = obs s.trace := rfl
@[simp] theorem rf_if_enable_irq_p (s : State) :
    (rf_if_enable_irq s).p = { s.p with irq_enabled := true } := rfl
@[simp] theorem rf_if_disable_irq_p (s : State) :
    (rf_if_disable_irq s).p = { s.p with irq_enabled := false } := rfl

@[simp] theorem rf_channel_set_d (E : Env) (ch : Nat) (s : State) :
    (rf_channel_set E ch s).d = { s.d with rf_phy_channel := ch } := by
  unfold rf_channel_set; split <;> simp [rf_if_set_channel_register]

@[simp] theorem rf_channel_set_p (E : Env) (ch : Nat) (s : State) :
    (rf_channel_set E ch s).p = s.p := by
  unfold rf_channel_set; split <;> simp [rf_if_set_channel_register]

@[simp] theorem rf_channel_set_obs (E : Env) (ch : Nat) (s : State) :
    obs (rf_channel_set E ch s).trace = obs s.trace := by
  unfold rf_channel_set; split <;> simp [rf_if_set_channel_register]

theorem rf_on_d (E : Env) (s : State) :
    (rf_on E s).d =
      { s.d with rf_flags :=
          if s.d.rf_flags &&& RFF_ON = 0 then u8 (s.d.rf_flags ||| RFF_ON)
          else s.d.rf_flags } := by
  unfold rf_on
  split
  · rename_i h
    simp only [rf_flags_check_def] at h
    simp only [h, if_true]
    split <;> simp [rf_if_enable_ant_div]
  · rename_i h
    simp only [rf_flags_check_def] at h
    simp [h]

theorem rf_on_p (E : Env) (s : State) :
    (rf_on E s).p =
      if s.d.rf_flags &&& RFF_ON = 0 then { s.p with SLP_TR := 0 } else s.p := by
  unfold rf_on
  split
  · rename_i h
    simp only [rf_flags_check_def] at h
    simp only [h, if_true]
    split <;> simp [rf_if_enable_ant_div]
  · rename_i h
    simp only [rf_flags_check_def] at h
    simp [h]

@[simp] theorem rf_on_obs (E : Env) (s : State) : obs (rf_on E s).trace = obs s.trace := by
  unfold rf_on
  split
  · split <;> simp [rf_if_enable_ant_div]
  · rfl

/-! ## The receiver restart `rf_receive` -/

theorem rf_receive_rx_state_d (E : Env) (s : State) :
    (rf_receive_rx_state E s).d =
      { s.d with rf_rx_mode :=
          if s.d.rf_mode = rf_mode_t.RF_MODE_SNIFFER ∨ s.d.rf_mode = rf_mode_t.RF_MODE_ED
          then s.d.rf_rx_mode else 0 } := by
  unfold rf_receive_rx_state
  split
  · simp
  · by_cases h : s.d.rf_rx_mode = 0
    · simp [h, rf_if_disable_promiscuous_mode]
      rw [← h]
    · simp [h, rf_if_enable_promiscuous_mode]

@[simp] theorem rf_receive_rx_state_p (E : Env) (s : State) :
    (rf_receive_rx_state E s).p = s.p := by
  unfold rf_receive_rx_state
  split
  · simp
  · split <;> simp [rf_if_disable_promiscuous_mode, rf_if_enable_promiscuous_mode]

@[simp] theorem rf_receive_rx_state_obs (E : Env) (s : State) :
    obs (rf_receive_rx_state E s).trace = obs s.trace := by
  unfold rf_receive_rx_state
  split
  · simp
  · split <;> simp [rf_if_disable_promiscuous_mode, rf_if_enable_promiscuous_mode]

theorem rf_receive_finish_d (E : Env) (s : State) :
    (rf_receive_finish E s).d = { s.d with rf_flags := u8 (s.d.rf_flags ||| RFF_RX) } := by
  unfold rf_receive_finish
  split <;> simp [rf_if_enable_rx_end_interrupt]

theorem rf_receive_finish_p (E : Env) (s : State) :
    (rf_receive_finish E s).p = { s.p with lock_depth := s.p.lock_depth - 1 } := by
  unfold rf_receive_finish
  split <;> simp [rf_if_enable_rx_end_interrupt]

@[simp] theorem rf_receive_finish_obs (E : Env) (s : State) :
    obs (rf_receive_finish E s).trace = obs s.trace := by
  unfold rf_receive_finish
  split <;> simp [rf_if_enable_rx_end_interrupt]

theorem rf_if_calibration_wait_frame (E : Env) (fuel : Nat) (s s2 : State)
    (h : rf_if_calibration_wait E fuel s = some s2) :
    s2.d = s.d ∧ s2.p = s.p ∧ obs s2.trace = obs s.trace := by
  induction fuel generalizing s with
  | zero => simp [rf_if_calibration_wait] at h
  | succ n ih =>
    unfold rf_if_calibration_wait at h
    split at h
    · have := ih _ h
      simpa using this
    · cases h
      simp

theorem rf_if_calibration_frame (E : Env) (fuel : Nat) (s s2 : State)
    (h : rf_if_calibration E fuel s = some s2) :
    s2.d = s.d ∧ s2.p = s.p ∧ obs s2.trace = obs s.trace := by
  have := rf_if_calibration_wait_frame E fuel _ s2 h
  simpa using this

/-! ## Flag arithmetic -/

theorem u8_eq_and (x : Nat) : u8 x = x &&& 255 := by
  have := Nat.and_pow_two_sub_one_eq_mod x 8
  simpa [u8] using this.symm

theorem flag_set_other (x m k : Nat) (h : m &&& k = 0) (hk : k &&& 255 = k) :
    u8 (x ||| m) &&& k = x &&& k := by
  rw [u8_eq_and, Nat.and_assoc, Nat.and_comm 255 k, hk, Nat.and_distrib_right, h, Nat.or_zero]

theorem flag_set_same (x m : Nat) (hm : m &&& 255 = m) :
    u8 (x ||| m) &&& m = m := by
  rw [u8_eq_and, Nat.and_assoc, Nat.and_comm 255 m, hm, Nat.and_distrib_right, Nat.and_self]
  apply Nat.eq_of_testBit_eq; intro i; simp [Nat.testBit_or, Nat.testBit_and]

theorem flag_clear_other (x m k : Nat) (h : (255 ^^^ u8 m) &&& k = k) :
    (x &&& (255 ^^^ u8 m)) &&& k = x &&& k := by
  rw [Nat.and_assoc, h]

theorem flag_clear_same (x m k : Nat) (h : (255 ^^^ u8 m) &&& k = 0) :
    (x &&& (255 ^^^ u8 m)) &&& k = 0 := by
  rw [Nat.and_assoc, h, Nat.and_zero]

theorem prot_enable_other (f k : Nat) (h : RFF_PROT &&& k = 0) (hk : k &&& 255 = k) :
    (if f &&& RFF_PROT = 0 then u8 (f ||| RFF_PROT) else f) &&& k = f &&& k := by
  split
  · exact flag_set_other f RFF_PROT k h hk
  · rfl

theorem prot_enable_same (f : Nat) :
    (if f &&& RFF_PROT = 0 then u8 (f ||| RFF_PROT) else f) &&& RFF_PROT ≠ 0 := by
  split
  · rw [flag_set_same f RFF_PROT (by decide)]; decide
  · assumption

theorem prot_disable_other (f k : Nat) (h : (255 ^^^ u8 RFF_PROT) &&& k = k) :
    (if f &&& RFF_PROT ≠ 0 then f &&& (0xFF ^^^ u8 RFF_PROT) else f) &&& k = f &&& k := by
  split
  · exact flag_clear_other f RFF_PROT k h
  · rfl

theorem prot_disable_same (f : Nat) :
    (if f &&& RFF_PROT ≠ 0 then f &&& (0xFF ^^^ u8 RFF_PROT) else f) &&& RFF_PROT = 0 := by
  split
  · exact flag_clear_same f RFF_PROT RFF_PROT (by decide)
  · rename_i h; simpa using h

/-! ## The receiver restart `rf_receive` (whole function) -/

theorem rf_receive_body_spec (E : Env) (fuel : Nat) (s s2 : State)
    (h : rf_receive_body E fuel s = some s2) :
    s2.d = { s.d with
        rf_flags := u8 (s.d.rf_flags ||| RFF_RX)
        rf_rx_mode :=
          if s.d.rf_mode = rf_mode_t.RF_MODE_SNIFFER ∨ s.d.rf_mode = rf_mode_t.RF_MODE_ED
          then s.d.rf_rx_mode else 0
        rf_tuned := if s.d.rf_tuned = 0 then 1 else s.d.rf_tuned } ∧
      s2.p = s.p ∧ obs s2.trace = obs s.trace := by
  unfold rf_receive_body at h
  simp only [rf_receive_rx_state_d, rf_if_change_trx_state_d, rf_busy_wait_d, rf_if_lock_d] at h
  by_cases ht : s.d.rf_tuned = 0
  · simp only [ht, if_true, Option.map_eq_some'] at h
    obtain ⟨s1, h1, rfl⟩ := h
    obtain ⟨hd, hp, ho⟩ := rf_if_calibration_frame E fuel _ _ h1
    simp [rf_receive_finish_d, rf_receive_finish_p, hd, hp, ho, rf_receive_rx_state_d, ht]
  · simp only [ht, if_false, Option.some.injEq] at h
    subst h
    simp [rf_receive_finish_d, rf_receive_finish_p, rf_receive_rx_state_d, ht]

theorem rf_receive_body_tuned (E : Env) (fuel : Nat) (s : State) (ht : s.d.rf_tuned ≠ 0) :
    ∃ s2, rf_receive_body E fuel s = some s2 := by
  unfold rf_receive_body
  simp [rf_receive_rx_state_d, ht]

theorem rf_receive_noop (E : Env) (fuel : Nat) (s : State)
    (hon : s.d.rf_flags &&& RFF_ON ≠ 0) (hrx : s.d.rf_flags &&& RFF_RX ≠ 0) :
    rf_receive E fuel s = some s := by
  simp [rf_receive, hon, hrx]

theorem rf_receive_run (E : Env) (fuel : Nat) (s : State)
    (hon : s.d.rf_flags &&& RFF_ON ≠ 0) (hrx : s.d.rf_flags &&& RFF_RX = 0) :
    rf_receive E fuel s = rf_receive_body E fuel s := by
  simp [rf_receive, hon, hrx]

/-- What `rf_receive` leaves alone: every driver variable other than
`rf_flags`, `rf_rx_mode` and `rf_tuned`, the timers, the lock depth, and the
timer and callback events. -/
theorem rf_receive_frame (E : Env) (fuel : Nat) (s s2 : State)
    (h : rf_receive E fuel s = some s2) :
    s2.d = { s.d with rf_flags := s2.d.rf_flags, rf_rx_mode := s2.d.rf_rx_mode,
                      rf_tuned := s2.d.rf_tuned } ∧
      s2.p = { s.p with SLP_TR := s2.p.SLP_TR } ∧ obs s2.trace = obs s.trace := by
  unfold rf_receive at h
  simp only [rf_flags_check_def] at h
  by_cases hon : s.d.rf_flags &&& RFF_ON = 0
  · simp only [hon, if_true] at h
    split at h
    · obtain ⟨hd, hp, ho⟩ := rf_receive_body_spec E fuel _ _ h
      simp [hd, hp, ho, rf_on_d, rf_on_p, hon]
    · cases h
      simp [rf_on_d, rf_on_p, hon]
  · simp only [hon, if_false] at h
    split at h
    · obtain ⟨hd, hp, ho⟩ := rf_receive_body_spec E fuel _ _ h
      simp [hd, hp, ho]
    · cases h
      simp

/-- The receiving flag is set whenever `rf_receive` returns. -/
theorem rf_receive_rx_set (E : Env) (fuel : Nat) (s s2 : State)
    (h : rf_receive E fuel s = some s2) : s2.d.rf_flags &&& RFF_RX ≠ 0 := by
  unfold rf_receive at h
  simp only at h
  generalize (if rf_flags_check RFF_ON s = 0 then rf_on E s else s) = s0 at h
  split at h
  · rw [(rf_receive_body_spec E fuel _ _ h).1]
    simp +decide [flag_set_same]
  · rename_i h0
    cases h
    simpa using h0

/-- With a tuned receiver `rf_receive` always returns. -/
theorem rf_receive_tuned (E : Env) (fuel : Nat) (s : State) (ht : s.d.rf_tuned ≠ 0) :
    ∃ s2, rf_receive E fuel s = some s2 := by
  have h0 : (if rf_flags_check RFF_ON s = 0 then rf_on E s else s).d.rf_tuned ≠ 0 := by
    split <;> simp [rf_on_d, ht]
  unfold rf_receive
  simp only
  generalize (if rf_flags_check RFF_ON s = 0 then rf_on E s else s) = s0 at h0
  split
  · exact rf_receive_body_tuned E fuel s0 h0
  · exact ⟨_, rfl⟩

/-! ## C1: rejection by `rf_start_cca` -/

/-- The state read at the start of `rf_start_cca` does not depend on the lock. -/
theorem rf_if_read_trx_state_lock (E : Env) (s : State) :
    (rf_if_read_trx_state E (rf_if_lock s)).1 = (rf_if_read_trx_state E s).1 := rfl

/-- The effect of a rejected `rf_start_cca`. -/
theorem rf_start_cca_reject (E : Env) (rnd : Nat) (data_ptr : List Nat)
    (data_length tx_handle : Nat) (s : State)
    (h : (rf_if_read_trx_state E s).1 = BUSY_RX_AACK ∨ data_length > 125) :
    (rf_start_cca E rnd data_ptr data_length tx_handle s).1 = -1 ∧
      (rf_start_cca E rnd data_ptr data_length tx_handle s).2.d = s.d ∧
      (rf_start_cca E rnd data_ptr data_length tx_handle s).2.p = s.p ∧
      obs (rf_start_cca E rnd data_ptr data_length tx_handle s).2.trace = obs s.trace := by
  have h2 : (rf_if_read_trx_state E (rf_if_lock s)).1 = BUSY_RX_AACK ∨
      data_length > RF_MTU - 2 := by
    rw [rf_if_read_trx_state_lock]; exact h
  unfold rf_start_cca
  rw [if_pos h2]
  refine ⟨rfl, by simp, ?_, by simp⟩
  simp

/-- The value `rf_start_cca` returns. -/
theorem rf_start_cca_ret (E : Env) (rnd : Nat) (data_ptr : List Nat)
    (data_length tx_handle : Nat) (s : State) :
    (rf_start_cca E rnd data_ptr data_length tx_handle s).1 =
      if (rf_if_read_trx_state E s).1 = BUSY_RX_AACK ∨ data_length > 125 then -1 else 0 := by
  by_cases h : (rf_if_read_trx_state E s).1 = BUSY_RX_AACK ∨ data_length > 125
  · rw [if_pos h]
    exact (rf_start_cca_reject E rnd data_ptr data_length tx_handle s h).1
  · rw [if_neg h]
    have h2 : ¬ ((rf_if_read_trx_state E (rf_if_lock s)).1 = BUSY_RX_AACK ∨
        data_length > RF_MTU - 2) := by
      rw [rf_if_read_trx_state_lock]; exact h
    unfold rf_start_cca
    rw [if_neg h2]

/-- C1. `rf_start_cca` returns -1 when the transceiver state read from
TRX_STATUS is BUSY_RX_AACK or the length exceeds 125 = RF_MTU - 2, and then
leaves every driver variable (among them `expected_ack_sequence`,
`rf_tx_data`, `rf_tx_length`, `mac_tx_handle`, `rf_flags`), every timer and
pin and the lock depth unchanged, with no timer or callback event; in every
other case it returns 0. -/
theorem C1_rf_start_cca_busy (E : Env) (rnd : Nat) (data_ptr : List Nat)
    (data_length tx_handle : Nat) (s : State) :
    ((rf_if_read_trx_state E s).1 = BUSY_RX_AACK ∨ data_length > 125 →
      (rf_start_cca E rnd data_ptr data_length tx_handle s).1 = -1 ∧
      (rf_start_cca E rnd data_ptr data_length tx_handle s).2.d = s.d ∧
      (rf_start_cca E rnd data_ptr data_length tx_handle s).2.p = s.p ∧
      obs (rf_start_cca E rnd data_ptr data_length tx_handle s).2.trace = obs s.trace) ∧
    (¬ ((rf_if_read_trx_state E s).1 = BUSY_RX_AACK ∨ data_length > 125) →
      (rf_start_cca E rnd data_ptr data_length tx_handle s).1 = 0) := by
  refine ⟨rf_start_cca_reject E rnd data_ptr data_length tx_handle s, fun h => ?_⟩
  rw [rf_start_cca_ret, if_neg h]

/-- C1 at a transceiver reporting BUSY_RX_AACK, and at an over-long frame. -/
theorem C1_rf_start_cca_busy_witness :
    (rf_start_cca (env_const 0x11) 7 frame_no_ack 20 7 st_receiving).1 = -1 ∧
    (rf_start_cca (env_const 0x16) 7 frame_no_ack 126 7 st_receiving).2.d = st_receiving.d ∧
    (rf_start_cca (env_const 0x16) 7 frame_no_ack 20 7 st_receiving).1 = 0 :=
  ⟨((C1_rf_start_cca_busy (env_const 0x11) 7 frame_no_ack 20 7 st_receiving).1
      (Or.inl (by decide))).1,
   ((C1_rf_start_cca_busy (env_const 0x16) 7 frame_no_ack 126 7 st_receiving).1
      (Or.inr (by decide))).2.1,
   (C1_rf_start_cca_busy (env_const 0x16) 7 frame_no_ack 20 7 st_receiving).2
      (by decide)⟩

/-! ## C2, C3: an accepted `rf_start_cca` -/

@[simp] theorem rf_cca_timer_start_d (n : Nat) (s : State) :
    (rf_cca_timer_start n s).d = s.d := rfl
@[simp] theorem rf_cca_timer_start_p (n : Nat) (s : State) :
    (rf_cca_timer_start n s).p = { s.p with cca_timer := some (u32 (u32 n * 50)) } := rfl
@[simp] theorem rf_cca_timer_start_trace (n : Nat) (s : State) :
    (rf_cca_timer_start n s).trace =
      (s.p.lock_depth, Event.cca_timer_start (u32 (u32 n * 50))) :: s.trace := rfl

/-- The effect of an accepted `rf_start_cca`. -/
theorem rf_start_cca_accept (E : Env) (rnd : Nat) (data_ptr : List Nat)
    (data_length tx_handle : Nat) (s : State)
    (h : ¬ ((rf_if_read_trx_state E s).1 = BUSY_RX_AACK ∨ data_length > 125)) :
    (rf_start_cca E rnd data_ptr data_length tx_handle s).2.d =
        { s.d with expected_ack_sequence := -1, rf_tx_data := data_ptr,
                   rf_tx_length := u8 data_length, mac_tx_handle := u8 tx_handle } ∧
      (rf_start_cca E rnd data_ptr data_length tx_handle s).2.p =
        { s.p with cca_timer := some (u32 (u32 (RF_CCA_BASE_BACKOFF + rnd) * 50)) } ∧
      obs (rf_start_cca E rnd data_ptr data_length tx_handle s).2.trace =
        Event.cca_timer_start (u32 (u32 (RF_CCA_BASE_BACKOFF + rnd) * 50)) :: obs s.trace := by
  have h2 : ¬ ((rf_if_read_trx_state E (rf_if_lock s)).1 = BUSY_RX_AACK ∨
      data_length > RF_MTU - 2) := by
    rw [rf_if_read_trx_state_lock]; exact h
  unfold rf_start_cca
  rw [if_neg h2]
  refine ⟨by simp, by simp, ?_⟩
  simp [Event.isObs]

/-- C2, refuted as stated: with the transceiver reporting RX_AACK_ON, a
second `rf_start_cca` issued right after an accepted one, before any
completion callback, is accepted as well (it returns 0, not -1) and replaces
the recorded frame and handle of the first. -/
theorem C2_second_call_accepted :
    (rf_start_cca (env_const 0x16) 7 frame_no_ack 20 7 st_receiving).1 = 0 ∧
    tx_done_calls
      (rf_start_cca (env_const 0x16) 3 frame_ack 20 8
        (rf_start_cca (env_const 0x16) 7 frame_no_ack 20 7 st_receiving).2).2.trace = [] ∧
    (rf_start_cca (env_const 0x16) 3 frame_ack 20 8
        (rf_start_cca (env_const 0x16) 7 frame_no_ack 20 7 st_receiving).2).1 = 0 ∧
    (rf_start_cca (env_const 0x16) 3 frame_ack 20 8
        (rf_start_cca (env_const 0x16) 7 frame_no_ack 20 7 st_receiving).2).2.d.rf_tx_data
      = frame_ack ∧
    (rf_start_cca (env_const 0x16) 3 frame_ack 20 8
        (rf_start_cca (env_const 0x16) 7 frame_no_ack 20 7 st_receiving).2).2.d.mac_tx_handle
      = 8 ∧
    frame_ack ≠ frame_no_ack := by
  decide

/-- C2, amended. The driver keeps no record of an outstanding request: a
second `rf_start_cca` after an accepted one is decided like any other call.
It returns -1 exactly when the transceiver state read is BUSY_RX_AACK or the
length exceeds 125, and then the recorded frame, length and handle are still
those of the first call; otherwise it returns 0 and the record is replaced by
the frame, length and handle of the second call. -/
theorem C2_second_call (E : Env) (rnd1 rnd2 : Nat) (data1 data2 : List Nat)
    (len1 len2 handle1 handle2 : Nat) (s : State)
    (h1 : (rf_start_cca E rnd1 data1 len1 handle1 s).1 = 0) :
    ((rf_start_cca E rnd2 data2 len2 handle2
        (rf_start_cca E rnd1 data1 len1 handle1 s).2).1 = -1 ↔
      ((rf_if_read_trx_state E (rf_start_cca E rnd1 data1 len1 handle1 s).2).1 = BUSY_RX_AACK
        ∨ len2 > 125)) ∧
    ((rf_start_cca E rnd2 data2 len2 handle2
        (rf_start_cca E rnd1 data1 len1 handle1 s).2).1 = -1 →
      (rf_start_cca E rnd2 data2 len2 handle2
        (rf_start_cca E rnd1 data1 len1 handle1 s).2).2.d.rf_tx_data = data1 ∧
      (rf_start_cca E rnd2 data2 len2 handle2
        (rf_start_cca E rnd1 data1 len1 handle1 s).2).2.d.rf_tx_length = u8 len1 ∧
      (rf_start_cca E rnd2 data2 len2 handle2
        (rf_start_cca E rnd1 data1 len1 handle1 s).2).2.d.mac_tx_handle = u8 handle1) ∧
    ((rf_start_cca E rnd2 data2 len2 handle2
        (rf_start_cca E rnd1 data1 len1 handle1 s).2).1 ≠ -1 →
      (rf_start_cca E rnd2 data2 len2 handle2
        (rf_start_cca E rnd1 data1 len1 handle1 s).2).1 = 0 ∧
      (rf_start_cca E rnd2 data2 len2 handle2
        (rf_start_cca E rnd1 data1 len1 handle1 s).2).2.d.rf_tx_data = data2 ∧
      (rf_start_cca E rnd2 data2 len2 handle2
        (rf_start_cca E rnd1 data1 len1 handle1 s).2).2.d.rf_tx_length = u8 len2 ∧
      (rf_start_cca E rnd2 data2 len2 handle2
        (rf_start_cca E rnd1 data1 len1 handle1 s).2).2.d.mac_tx_handle = u8 handle2) := by
  have hacc1 : ¬ ((rf_if_read_trx_state E s).1 = BUSY_RX_AACK ∨ len1 > 125) := by
    intro hc
    rw [rf_start_cca_ret, if_pos hc] at h1
    exact absurd h1 (by decide)
  have hd1 := (rf_start_cca_accept E rnd1 data1 len1 handle1 s hacc1).1
  generalize rf_start_cca E rnd1 data1 len1 handle1 s = a at hd1 ⊢
  by_cases hc : (rf_if_read_trx_state E a.2).1 = BUSY_RX_AACK ∨ len2 > 125
  · have hr : (rf_start_cca E rnd2 data2 len2 handle2 a.2).1 = -1 := by
      rw [rf_start_cca_ret, if_pos hc]
    have hd := (rf_start_cca_reject E rnd2 data2 len2 handle2 a.2 hc).2.1
    refine ⟨⟨fun _ => hc, fun _ => hr⟩, fun _ => ?_, fun hn => absurd hr hn⟩
    rw [hd, hd1]
    exact ⟨rfl, rfl, rfl⟩
  · have hr : (rf_start_cca E rnd2 data2 len2 handle2 a.2).1 = 0 := by
      rw [rf_start_cca_ret, if_neg hc]
    have hd := (rf_start_cca_accept E rnd2 data2 len2 handle2 a.2 hc).1
    refine ⟨⟨fun h => ?_, fun h => absurd h hc⟩, fun h => ?_, fun _ => ?_⟩
    · rw [hr] at h; exact absurd h (by decide)
    · rw [hr] at h; exact absurd h (by decide)
    · rw [hd]
      exact ⟨hr, rfl, rfl, rfl⟩

/-- C2 (amended) at two concrete calls, the second over-long and so
rejected: the record is still that of the first call. -/
theorem C2_second_call_witness :
    (rf_start_cca (env_const 0x16) 7 frame_no_ack 20 7 st_receiving).1 = 0 ∧
    (rf_start_cca (env_const 0x16) 3 frame_ack 126 8
        (rf_start_cca (env_const 0x16) 7 frame_no_ack 20 7 st_receiving).2).1 = -1 ∧
    (rf_start_cca (env_const 0x16) 3 frame_ack 126 8
        (rf_start_cca (env_const 0x16) 7 frame_no_ack 20 7 st_receiving).2).2.d.rf_tx_data
      = frame_no_ack ∧
    (rf_start_cca (env_const 0x16) 3 frame_ack 126 8
        (rf_start_cca (env_const 0x16) 7 frame_no_ack 20 7 st_receiving).2).2.d.rf_tx_length
      = u8 20 ∧
    (rf_start_cca (env_const 0x16) 3 frame_ack 126 8
        (rf_start_cca (env_const 0x16) 7 frame_no_ack 20 7 st_receiving).2).2.d.mac_tx_handle
      = u8 7 :=
  ⟨by decide, by decide,
   (C2_second_call (env_const 0x16) 7 3 frame_no_ack frame_ack 20 126 7 8 st_receiving
    (by decide)).2.1 (by decide)⟩

/-- C3. When `rf_start_cca` is accepted and randLIB returned `rnd` in
[0, 51], the CCA-backoff timer is armed with `13 + rnd` slots, a count in
[13, 64] = [RF_CCA_BASE_BACKOFF, RF_CCA_BASE_BACKOFF + RF_CCA_RANDOM_BACKOFF];
the delay handed to the timer is exactly `slots * 50` microseconds, in
[650, 3200], the 32-bit product not wrapping. -/
theorem C3_cca_backoff_range (E : Env) (rnd : Nat) (data_ptr : List Nat)
    (data_length tx_handle : Nat) (s : State)
    (hr : rnd ≤ RF_CCA_RANDOM_BACKOFF)
    (hacc : (rf_start_cca E rnd data_ptr data_length tx_handle s).1 = 0) :
    RF_CCA_BASE_BACKOFF ≤ RF_CCA_BASE_BACKOFF + rnd ∧
    RF_CCA_BASE_BACKOFF + rnd ≤ RF_CCA_BASE_BACKOFF + RF_CCA_RANDOM_BACKOFF ∧
    13 ≤ RF_CCA_BASE_BACKOFF + rnd ∧ RF_CCA_BASE_BACKOFF + rnd ≤ 64 ∧
    (rf_start_cca E rnd data_ptr data_length tx_handle s).2.p.cca_timer =
      some ((RF_CCA_BASE_BACKOFF + rnd) * 50) ∧
    obs (rf_start_cca E rnd data_ptr data_length tx_handle s).2.trace =
      Event.cca_timer_start ((RF_CCA_BASE_BACKOFF + rnd) * 50) :: obs s.trace ∧
    650 ≤ (RF_CCA_BASE_BACKOFF + rnd) * 50 ∧ (RF_CCA_BASE_BACKOFF + rnd) * 50 ≤ 3200 ∧
    (RF_CCA_BASE_BACKOFF + rnd) * 50 < 2 ^ 32 := by
  have hacc1 : ¬ ((rf_if_read_trx_state E s).1 = BUSY_RX_AACK ∨ data_length > 125) := by
    intro hc
    rw [rf_start_cca_ret, if_pos hc] at hacc
    exact absurd hacc (by decide)
  obtain ⟨_, hp, ho⟩ := rf_start_cca_accept E rnd data_ptr data_length tx_handle s hacc1
  have hr2 : rnd ≤ 51 := hr
  have hu : u32 (u32 (RF_CCA_BASE_BACKOFF + rnd) * 50) = (RF_CCA_BASE_BACKOFF + rnd) * 50 := by
    simp only [u32, RF_CCA_BASE_BACKOFF]
    omega
  rw [hu] at hp ho
  refine ⟨by omega, by simp only [RF_CCA_BASE_BACKOFF, RF_CCA_RANDOM_BACKOFF]; omega,
    by simp only [RF_CCA_BASE_BACKOFF]; omega, by simp only [RF_CCA_BASE_BACKOFF]; omega,
    by rw [hp], ho, by simp only [RF_CCA_BASE_BACKOFF]; omega,
    by simp only [RF_CCA_BASE_BACKOFF]; omega, by simp only [RF_CCA_BASE_BACKOFF]; omega⟩

/-- C3 at the largest random value, 51: 64 slots, 3200 microseconds. -/
theorem C3_cca_backoff_range_witness :
    (rf_start_cca (env_const 0x16) 51 frame_no_ack 20 7 st_receiving).2.p.cca_timer =
      some ((RF_CCA_BASE_BACKOFF + 51) * 50) :=
  (C3_cca_backoff_range (env_const 0x16) 51 frame_no_ack 20 7 st_receiving
    (by decide) (by decide)).2.2.2.2.1

/-! ## Reads under an assumed hardware behaviour -/

theorem rf_if_read_trx_state_val (E : Env) (s : State) :
    (rf_if_read_trx_state E s).1 = trx_status_byte E s.mosi &&& 0x1F := rfl

theorem rf_if_check_cca_val (E : Env) (s : State) :
    (rf_if_check_cca E s).1 =
      if trx_status_byte E s.mosi &&& E.CCA_STATUS ≠ 0 then 1 else 0 := rfl

theorem rf_if_read_trx_state_of_hw (E : Env) (st : Nat) (hw : hw_reports_state E st)
    (s : State) : (rf_if_read_trx_state E s).1 = st := hw s.mosi

theorem rf_if_check_cca_of_clear (E : Env) (hw : hw_channel_clear E) (s : State) :
    (rf_if_check_cca E s).1 = 1 := by
  rw [rf_if_check_cca_val, if_pos (hw s.mosi)]

theorem rf_if_check_cca_of_busy (E : Env) (hw : hw_channel_busy E) (s : State) :
    (rf_if_check_cca E s).1 = 0 := by
  rw [rf_if_check_cca_val, if_neg (by simpa using hw s.mosi)]

theorem env_const_reports (v : Nat) (hv : v < 256) :
    hw_reports_state (env_const v) (v &&& 0x1F) := by
  intro h
  simp [trx_status_byte, env_const, u8, Nat.mod_eq_of_lt hv]

/-! ## Frame lemmas: frame buffer and callbacks -/

@[simp] theorem rf_if_write_frame_bytes_d (E : Env) (ptr : List Nat) (n i : Nat) (s : State) :
    (rf_if_write_frame_bytes E ptr n i s).d = s.d := by
  induction n generalizing i s with
  | zero => rfl
  | succ n ih => unfold rf_if_write_frame_bytes; simp [ih]

@[simp] theorem rf_if_write_frame_bytes_p (E : Env) (ptr : List Nat) (n i : Nat) (s : State) :
    (rf_if_write_frame_bytes E ptr n i s).p = s.p := by
  induction n generalizing i s with
  | zero => rfl
  | succ n ih => unfold rf_if_write_frame_bytes; simp [ih]

@[simp] theorem rf_if_write_frame_bytes_obs (E : Env) (ptr : List Nat) (n i : Nat)
    (s : State) : obs (rf_if_write_frame_bytes E ptr n i s).trace = obs s.trace := by
  induction n generalizing i s with
  | zero => rfl
  | succ n ih => unfold rf_if_write_frame_bytes; simp [ih]

@[simp] theorem CS_RELEASE_d (s : State) : (CS_RELEASE s).d = s.d := rfl
@[simp] theorem CS_RELEASE_p (s : State) : (CS_RELEASE s).p = s.p := rfl
@[simp] theorem CS_RELEASE_obs (s : State) : obs (CS_RELEASE s).trace = obs s.trace := rfl
@[simp] theorem CS_SELECT_d (s : State) : (CS_SELECT s).d = s.d := rfl
@[simp] theorem CS_SELECT_p (s : State) : (CS_SELECT s).p = s.p := rfl
@[simp] theorem CS_SELECT_obs (s : State) : obs (CS_SELECT s).trace = obs s.trace := rfl

@[simp] theorem rf_if_write_frame_buffer_d (E : Env) (ptr : List Nat) (n : Nat) (s : State) :
    (rf_if_write_frame_buffer E ptr n s).d = s.d := by
  simp [rf_if_write_frame_buffer]

@[simp] theorem rf_if_write_frame_buffer_p (E : Env) (ptr : List Nat) (n : Nat) (s : State) :
    (rf_if_write_frame_buffer E ptr n s).p = s.p := by
  simp [rf_if_write_frame_buffer]

@[simp] theorem rf_if_write_frame_buffer_obs (E : Env) (ptr : List Nat) (n : Nat)
    (s : State) : obs (rf_if_write_frame_buffer E ptr n s).trace = obs s.trace := by
  simp [rf_if_write_frame_buffer]

@[simp] theorem phy_tx_done_cb_d (st : phy_link_tx_status_e) (s : State) :
    (phy_tx_done_cb st s).d = s.d := by
  unfold phy_tx_done_cb; split <;> rfl

@[simp] theorem phy_tx_done_cb_p (st : phy_link_tx_status_e) (s : State) :
    (phy_tx_done_cb st s).p = s.p := by
  unfold phy_tx_done_cb; split <;> rfl

theorem phy_tx_done_cb_obs (st : phy_link_tx_status_e) (s : State) :
    obs (phy_tx_done_cb st s).trace =
      if s.d.phy_tx_done_cb then
        Event.tx_done s.d.rf_radio_driver_id s.d.mac_tx_handle st 0 0 :: obs s.trace
      else obs s.trace := by
  unfold phy_tx_done_cb; split <;> simp [Event.isObs]

@[simp] theorem phy_rx_cb_d (len lqi : Nat) (rssi : Int) (s : State) :
    (phy_rx_cb len lqi rssi s).d = s.d := by
  unfold phy_rx_cb; split <;> rfl

@[simp] theorem phy_rx_cb_p (len lqi : Nat) (rssi : Int) (s : State) :
    (phy_rx_cb len lqi rssi s).p = s.p := by
  unfold phy_rx_cb; split <;> rfl

/-! ## The transmit path: CCA timer, CCA done, transmit start, transmit end -/

/-- `rf_cca_timer_interrupt` on a receiving driver when the state read is
not BUSY_RX_AACK: protection is asserted, the frame is loaded, the CCA is
started; no timer or callback event. -/
theorem rf_cca_timer_interrupt_start (E : Env) (fuel : Nat) (s : State)
    (hon : s.d.rf_flags &&& RFF_ON ≠ 0) (hrx : s.d.rf_flags &&& RFF_RX ≠ 0)
    (hst : (rf_if_read_trx_state E (rf_enable_static_frame_buffer_protection E s)).1
      ≠ BUSY_RX_AACK) :
    ∃ s2, rf_cca_timer_interrupt E fuel s = some s2 ∧
      s2.d = { s.d with
          rf_flags :=
            u8 ((if s.d.rf_flags &&& RFF_PROT = 0 then u8 (s.d.rf_flags ||| RFF_PROT)
            else s.d.rf_flags) ||| RFF_CCA) } ∧
      s2.p = s.p ∧ obs s2.trace = obs s.trace := by
  have hon2 : (rf_enable_static_frame_buffer_protection E s).d.rf_flags &&& RFF_ON ≠ 0 := by
    rw [rf_enable_static_frame_buffer_protection_d]
    by_cases hp : s.d.rf_flags &&& RFF_PROT = 0
    · simp +decide [hp, flag_set_other, hon]
    · simp [hp, hon]
  have hrx2 : (rf_enable_static_frame_buffer_protection E s).d.rf_flags &&& RFF_RX ≠ 0 := by
    rw [rf_enable_static_frame_buffer_protection_d]
    by_cases hp : s.d.rf_flags &&& RFF_PROT = 0
    · simp +decide [hp, flag_set_other, hrx]
    · simp [hp, hrx]
  unfold rf_cca_timer_interrupt
  simp only [if_neg hst]
  rw [rf_receive_noop E fuel _ (by simpa using hon2) (by simpa using hrx2)]
  refine ⟨_, rfl, ?_, ?_, ?_⟩
  · simp [rf_if_start_cca_process, rf_if_enable_cca_ed_done_interrupt,
      rf_enable_static_frame_buffer_protection_d]
  · simp [rf_if_start_cca_process, rf_if_enable_cca_ed_done_interrupt]
  · simp [rf_if_start_cca_process, rf_if_enable_cca_ed_done_interrupt]

/-- `rf_start_tx` when the state read is RX_AACK_ON: the transmission is
started; no timer or callback event. -/
theorem rf_start_tx_go (E : Env) (s : State)
    (hst : (rf_if_read_trx_state E s).1 = RX_AACK_ON) :
    (rf_start_tx E s).d = { s.d with
        rf_flags :=
          u8 ((if (s.d.rf_flags &&& (0xFF ^^^ u8 RFF_RX)) &&& RFF_PROT ≠ 0
          then (s.d.rf_flags &&& (0xFF ^^^ u8 RFF_RX)) &&& (0xFF ^^^ u8 RFF_PROT)
          else s.d.rf_flags &&& (0xFF ^^^ u8 RFF_RX)) ||| RFF_TX) } ∧
      (rf_start_tx E s).p = s.p ∧ obs (rf_start_tx E s).trace = obs s.trace := by
  unfold rf_start_tx
  rw [if_neg (by simpa using hst)]
  refine ⟨?_, ?_, ?_⟩
  · simp [rf_if_enable_tx_end_interrupt, rf_disable_static_frame_buffer_protection_d]
  · simp [rf_if_enable_tx_end_interrupt]
  · simp [rf_if_enable_tx_end_interrupt]

/-- `rf_start_tx` when the state read is not RX_AACK_ON: protection is
released and CCA failure is reported. -/
theorem rf_start_tx_fail (E : Env) (s : State)
    (hst : (rf_if_read_trx_state E s).1 ≠ RX_AACK_ON) :
    (rf_start_tx E s).d = { s.d with
        rf_flags :=
          if s.d.rf_flags &&& RFF_PROT ≠ 0 then s.d.rf_flags &&& (0xFF ^^^ u8 RFF_PROT)
          else s.d.rf_flags } ∧
      (rf_start_tx E s).p = s.p ∧
      obs (rf_start_tx E s).trace =
        if s.d.phy_tx_done_cb then
          Event.tx_done s.d.rf_radio_driver_id s.d.mac_tx_handle
            phy_link_tx_status_e.PHY_LINK_CCA_FAIL 0 0 :: obs s.trace
        else obs s.trace := by
  unfold rf_start_tx
  rw [if_pos hst]
  refine ⟨?_, ?_, ?_⟩
  · simp [rf_disable_static_frame_buffer_protection_d]
  · simp
  · simp [phy_tx_done_cb_obs, rf_disable_static_frame_buffer_protection_d]

/-- `rf_handle_cca_ed_done` when a CCA is in progress and the channel is
busy: protection is released and CCA failure is reported. -/
theorem rf_handle_cca_ed_done_busy (E : Env) (s : State)
    (hcca : s.d.rf_flags &&& RFF_CCA ≠ 0)
    (hbusy : (rf_if_check_cca E (rf_flags_clear RFF_CCA s)).1 = 0) :
    (rf_handle_cca_ed_done E s).d = { s.d with
        rf_flags :=
          if (s.d.rf_flags &&& (0xFF ^^^ u8 RFF_CCA)) &&& RFF_PROT ≠ 0
          then (s.d.rf_flags &&& (0xFF ^^^ u8 RFF_CCA)) &&& (0xFF ^^^ u8 RFF_PROT)
          else s.d.rf_flags &&& (0xFF ^^^ u8 RFF_CCA) } ∧
      (rf_handle_cca_ed_done E s).p = s.p ∧
      obs (rf_handle_cca_ed_done E s).trace =
        if s.d.phy_tx_done_cb then
          Event.tx_done s.d.rf_radio_driver_id s.d.mac_tx_handle
            phy_link_tx_status_e.PHY_LINK_CCA_FAIL 0 0 :: obs s.trace
        else obs s.trace := by
  unfold rf_handle_cca_ed_done
  rw [if_neg (by simpa using hcca), if_neg (by simpa using hbusy)]
  refine ⟨?_, ?_, ?_⟩
  · simp [rf_disable_static_frame_buffer_protection_d]
  · simp
  · simp [phy_tx_done_cb_obs, rf_disable_static_frame_buffer_protection_d]

/-- `rf_handle_cca_ed_done` when a CCA is in progress and the channel is
clear: it is `rf_start_tx` after the CCA flag has been cleared. -/
theorem rf_handle_cca_ed_done_clear (E : Env) (s : State)
    (hcca : s.d.rf_flags &&& RFF_CCA ≠ 0)
    (hclear : (rf_if_check_cca E (rf_flags_clear RFF_CCA s)).1 ≠ 0) :
    rf_handle_cca_ed_done E s =
      rf_start_tx E (rf_if_check_cca E (rf_flags_clear RFF_CCA s)).2 := by
  unfold rf_handle_cca_ed_done
  rw [if_neg (by simpa using hcca), if_pos hclear]

@[simp] theorem rf_ack_wait_timer_start_d (n : Nat) (s : State) :
    (rf_ack_wait_timer_start n s).d = s.d := rfl
@[simp] theorem rf_ack_wait_timer_start_p (n : Nat) (s : State) :
    (rf_ack_wait_timer_start n s).p = { s.p with ack_timer := some (u16 n * 50) } := rfl
@[simp] theorem rf_ack_wait_timer_start_trace (n : Nat) (s : State) :
    (rf_ack_wait_timer_start n s).trace =
      (s.p.lock_depth, Event.ack_timer_start (u16 n * 50)) :: s.trace := rfl
@[simp] theorem rf_ack_wait_timer_stop_d (s : State) :
    (rf_ack_wait_timer_stop s).d = s.d := rfl
@[simp] theorem rf_ack_wait_timer_stop_p (s : State) :
    (rf_ack_wait_timer_stop s).p = { s.p with ack_timer := none } := rfl
@[simp] theorem rf_ack_wait_timer_stop_trace (s : State) :
    (rf_ack_wait_timer_stop s).trace = (s.p.lock_depth, Event.ack_timer_stop) :: s.trace := rfl

/-- The first half of `rf_handle_tx_end` when an ACK is awaited. -/
theorem rf_handle_tx_end_ack_yes (s : State)
    (h : u8 (s.d.rf_tx_data.getD 0 0) &&& 0x20 ≠ 0 ∧ s.d.rf_flags &&& RFF_TX ≠ 0) :
    (rf_handle_tx_end_ack s).d = { s.d with
        rf_rx_mode := 1, expected_ack_sequence := (u8 (s.d.rf_tx_data.getD 2 0) : Int) } ∧
      (rf_handle_tx_end_ack s).p =
        { s.p with ack_timer := some (u16 s.d.rf_ack_wait_duration * 50) } ∧
      obs (rf_handle_tx_end_ack s).trace =
        Event.ack_timer_start (u16 s.d.rf_ack_wait_duration * 50) :: obs s.trace := by
  unfold rf_handle_tx_end_ack
  rw [if_pos (by simpa using h)]
  refine ⟨by simp, by simp, by simp [Event.isObs]⟩

/-- The first half of `rf_handle_tx_end` when no ACK is awaited. -/
theorem rf_handle_tx_end_ack_no (s : State)
    (h : ¬ (u8 (s.d.rf_tx_data.getD 0 0) &&& 0x20 ≠ 0 ∧ s.d.rf_flags &&& RFF_TX ≠ 0)) :
    rf_handle_tx_end_ack s = { s with d := { s.d with rf_rx_mode := 0 } } := by
  unfold rf_handle_tx_end_ack
  rw [if_neg (by simpa using h)]

theorem env_const_clear (v : Nat) (h : u8 v &&& at86rf.CCA_STATUS ≠ 0) :
    hw_channel_clear (env_const v) := fun _ => h

theorem env_const_busy (v : Nat) (h : u8 v &&& at86rf.CCA_STATUS = 0) :
    hw_channel_busy (env_const v) := fun _ => h

/-- What `rf_handle_tx_end` does after its first half: the receiver is
restarted and success is reported. -/
theorem rf_handle_tx_end_frame (E : Env) (fuel : Nat) (s s2 : State)
    (h : rf_handle_tx_end E fuel s = some s2) :
    s2.d = { (rf_handle_tx_end_ack s).d with
        rf_flags := s2.d.rf_flags, rf_rx_mode := s2.d.rf_rx_mode,
        rf_tuned := s2.d.rf_tuned } ∧
      s2.p = { (rf_handle_tx_end_ack s).p with SLP_TR := s2.p.SLP_TR } ∧
      obs s2.trace =
        (if (rf_handle_tx_end_ack s).d.phy_tx_done_cb then
          Event.tx_done (rf_handle_tx_end_ack s).d.rf_radio_driver_id
            (rf_handle_tx_end_ack s).d.mac_tx_handle
            phy_link_tx_status_e.PHY_LINK_TX_SUCCESS 0 0 :: obs (rf_handle_tx_end_ack s).trace
         else obs (rf_handle_tx_end_ack s).trace) ∧
      s2.d.rf_flags &&& RFF_RX ≠ 0 := by
  unfold rf_handle_tx_end at h
  simp only [Option.map_eq_some'] at h
  obtain ⟨s1, h1, rfl⟩ := h
  obtain ⟨hd, hp, ho⟩ := rf_receive_frame E fuel _ _ h1
  have hrx := rf_receive_rx_set E fuel _ _ h1
  simp only [rf_flags_clear_d, rf_flags_clear_p] at hd hp
  refine ⟨?_, ?_, ?_, by simpa using hrx⟩
  · simp only [phy_tx_done_cb_d]
    rw [hd]
  · simp only [phy_tx_done_cb_p]
    rw [hp]
  · rw [phy_tx_done_cb_obs, ho, hd]
    simp

/-- With a tuned receiver `rf_handle_tx_end` always returns. -/
theorem rf_handle_tx_end_tuned (E : Env) (fuel : Nat) (s : State) (ht : s.d.rf_tuned ≠ 0) :
    ∃ s2, rf_handle_tx_end E fuel s = some s2 := by
  have h2 : (rf_flags_clear RFF_RX (rf_handle_tx_end_ack s)).d.rf_tuned ≠ 0 := by
    unfold rf_handle_tx_end_ack
    split <;> simpa using ht
  obtain ⟨s1, h1⟩ := rf_receive_tuned E fuel _ h2
  exact ⟨phy_tx_done_cb phy_link_tx_status_e.PHY_LINK_TX_SUCCESS s1,
    by simp [rf_handle_tx_end, h1]⟩

/-! ## C4: scenario, clear channel -/

/-- A transmission started by `rf_start_tx` has RFF_TX set. -/
theorem rf_start_tx_sets_tx (E : Env) (s : State)
    (hst : (rf_if_read_trx_state E s).1 = RX_AACK_ON) :
    (rf_start_tx E s).d.rf_flags &&& RFF_TX ≠ 0 := by
  rw [(rf_start_tx_go E s hst).1]
  simp +decide [flag_set_same]

/-- C6. Let `rf_handle_tx_end` run for a transmission started by
`rf_start_tx` (RFF_TX set, see `rf_start_tx_sets_tx`). If the first byte of
the pending frame has the ACK-request bit 0x20, then on return
`expected_ack_sequence` is the frame's sequence number (byte 2) and the
ACK-wait timer is armed with `rf_ack_wait_duration` slots of 50 microseconds,
by a single timer start. If the bit is clear, `expected_ack_sequence` and
the ACK-wait timer are as before and no timer is started. The handler
returns whenever the receiver is tuned. -/
theorem C6_tx_end_ack_wait (E : Env) (fuel : Nat) (s : State)
    (htx : s.d.rf_flags &&& RFF_TX ≠ 0) :
    (∀ s2, rf_handle_tx_end E fuel s = some s2 →
      (u8 (s.d.rf_tx_data.getD 0 0) &&& 0x20 ≠ 0 →
        s2.d.expected_ack_sequence = (u8 (s.d.rf_tx_data.getD 2 0) : Int) ∧
        s2.p.ack_timer = some (u16 s.d.rf_ack_wait_duration * 50) ∧
        (obs s2.trace).filter (fun e => !e.isTxDone) =
          Event.ack_timer_start (u16 s.d.rf_ack_wait_duration * 50) ::
            (obs s.trace).filter (fun e => !e.isTxDone)) ∧
      (u8 (s.d.rf_tx_data.getD 0 0) &&& 0x20 = 0 →
        s2.d.expected_ack_sequence = s.d.expected_ack_sequence ∧
        s2.p.ack_timer = s.p.ack_timer ∧
        (obs s2.trace).filter (fun e => !e.isTxDone) =
          (obs s.trace).filter (fun e => !e.isTxDone))) ∧
    (s.d.rf_tuned ≠ 0 → ∃ s2, rf_handle_tx_end E fuel s = some s2) := by
  refine ⟨fun s2 h => ?_, rf_handle_tx_end_tuned E fuel s⟩
  obtain ⟨hd, hp, ho, _⟩ := rf_handle_tx_end_frame E fuel s s2 h
  constructor
  · intro hbit
    obtain ⟨hd1, hp1, ho1⟩ := rf_handle_tx_end_ack_yes s ⟨hbit, htx⟩
    refine ⟨by rw [hd, hd1], by rw [hp, hp1], ?_⟩
    rw [ho, ho1]
    split <;> simp [Event.isTxDone]
  · intro hbit
    have hno : ¬ (u8 (s.d.rf_tx_data.getD 0 0) &&& 0x20 ≠ 0 ∧ s.d.rf_flags &&& RFF_TX ≠ 0) :=
      fun hc => hc.1 hbit
    rw [rf_handle_tx_end_ack_no s hno] at hd hp ho
    refine ⟨by rw [hd], by rw [hp], ?_⟩
    rw [ho]
    split <;> simp [Event.isTxDone]

/-- C6 at the ACK-requesting frame `frame_ack` (sequence number 9) with the
default ACK wait of 50 slots. -/
theorem C6_tx_end_ack_wait_witness :
    (∀ s2, rf_handle_tx_end (env_const 0x16) 1 st_transmitting = some s2 →
      (u8 (st_transmitting.d.rf_tx_data.getD 0 0) &&& 0x20 ≠ 0 →
        s2.d.expected_ack_sequence = (u8 (st_transmitting.d.rf_tx_data.getD 2 0) : Int) ∧
        s2.p.ack_timer = some (u16 st_transmitting.d.rf_ack_wait_duration * 50) ∧
        (obs s2.trace).filter (fun e => !e.isTxDone) =
          Event.ack_timer_start (u16 st_transmitting.d.rf_ack_wait_duration * 50) ::
            (obs st_transmitting.trace).filter (fun e => !e.isTxDone)) ∧
      (u8 (st_transmitting.d.rf_tx_data.getD 0 0) &&& 0x20 = 0 →
        s2.d.expected_ack_sequence = st_transmitting.d.expected_ack_sequence ∧
        s2.p.ack_timer = st_transmitting.p.ack_timer ∧
        (obs s2.trace).filter (fun e => !e.isTxDone) =
          (obs st_transmitting.trace).filter (fun e => !e.isTxDone))) ∧
    (st_transmitting.d.rf_tuned ≠ 0 →
      ∃ s2, rf_handle_tx_end (env_const 0x16) 1 st_transmitting = some s2) :=
  C6_tx_end_ack_wait (env_const 0x16) 1 st_transmitting (by decide)

/-! ## C7: `rf_handle_ack` -/

theorem rf_if_unlock_lock (s : State) : rf_if_unlock (rf_if_lock s) = s := by
  cases s with
  | mk d p c m t => cases p; simp [rf_if_unlock, rf_if_lock]

/-- `rf_handle_ack` with a sequence number other than the expected one
leaves the whole state as it is. -/
theorem rf_handle_ack_mismatch (seq_number data_pending : Nat) (s : State)
    (h : s.d.expected_ack_sequence ≠ (seq_number : Int)) :
    rf_handle_ack seq_number data_pending s = s := by
  unfold rf_handle_ack
  rw [if_neg (by simpa using h)]
  exact rf_if_unlock_lock s

/-- `rf_handle_ack` with the expected sequence number. -/
theorem rf_handle_ack_match (seq_number data_pending : Nat) (s : State)
    (h : s.d.expected_ack_sequence = (seq_number : Int)) :
    (rf_handle_ack seq_number data_pending s).d = { s.d with expected_ack_sequence := -1 } ∧
      (rf_handle_ack seq_number data_pending s).p = { s.p with ack_timer := none } ∧
      obs (rf_handle_ack seq_number data_pending s).trace =
        if s.d.phy_tx_done_cb then
          Event.tx_done s.d.rf_radio_driver_id s.d.mac_tx_handle
            (if data_pending ≠ 0 then phy_link_tx_status_e.PHY_LINK_TX_DONE_PENDING
             else phy_link_tx_status_e.PHY_LINK_TX_DONE) 0 0 ::
          Event.ack_timer_stop :: obs s.trace
        else Event.ack_timer_stop :: obs s.trace := by
  unfold rf_handle_ack
  rw [if_pos (by simpa using h)]
  refine ⟨by simp, ?_, ?_⟩
  · cases hs : s with
    | mk d p c m t => cases p; simp [rf_if_lock]
  · simp [phy_tx_done_cb_obs, Event.isObs]

/-- `rf_ack_wait_timer_interrupt` resets `expected_ack_sequence` and
restarts the receiver; it starts no timer and invokes no callback. -/
theorem rf_ack_wait_timer_interrupt_frame (E : Env) (fuel : Nat) (s s2 : State)
    (h : rf_ack_wait_timer_interrupt E fuel s = some s2) :
    s2.d = { s.d with expected_ack_sequence := -1, rf_flags := s2.d.rf_flags,
                      rf_rx_mode := s2.d.rf_rx_mode, rf_tuned := s2.d.rf_tuned } ∧
      s2.p = { s.p with SLP_TR := s2.p.SLP_TR } ∧
      obs s2.trace = obs s.trace := by
  unfold rf_ack_wait_timer_interrupt at h
  simp only [Option.map_eq_some'] at h
  obtain ⟨s1, h1, rfl⟩ := h
  obtain ⟨hd, hp, ho⟩ := rf_receive_frame E fuel _ _ h1
  simp only [rf_flags_clear_d, rf_flags_clear_p, rf_flags_clear_obs,
    rf_poll_trx_state_change_d, rf_poll_trx_state_change_p, rf_poll_trx_state_change_obs,
    rf_if_change_trx_state_d, rf_if_change_trx_state_p, rf_if_change_trx_state_obs,
    rf_if_lock_d, rf_if_lock_p, rf_if_lock_trace] at hd hp ho
  refine ⟨?_, ?_, ?_⟩
  · rw [rf_if_unlock_d, hd]
  · rw [rf_if_unlock_p, hp]
    cases hsp : s.p
    simp
  · rw [rf_if_unlock_trace, ho]

/-- C7. `rf_handle_ack(seq, pending)`: when `expected_ack_sequence = seq` it
stops the ACK-wait timer, sets `expected_ack_sequence` to -1 and invokes the
tx-done callback (when one is set) exactly once, with
PHY_LINK_TX_DONE_PENDING if `pending` is non-zero and PHY_LINK_TX_DONE
otherwise; when `expected_ack_sequence` differs from `seq`, in particular
when it is -1, the state is left exactly as it was. Consequently a second ACK
with any sequence number changes nothing after a match, and a later
`rf_ack_wait_timer_interrupt` adds no callback. -/
theorem C7_rf_handle_ack (E : Env) (seq_number data_pending : Nat) (s : State) :
    (s.d.expected_ack_sequence = (seq_number : Int) →
      (rf_handle_ack seq_number data_pending s).p.ack_timer = none ∧
      (rf_handle_ack seq_number data_pending s).d.expected_ack_sequence = -1 ∧
      obs (rf_handle_ack seq_number data_pending s).trace =
        (if s.d.phy_tx_done_cb then
          Event.tx_done s.d.rf_radio_driver_id s.d.mac_tx_handle
            (if data_pending ≠ 0 then phy_link_tx_status_e.PHY_LINK_TX_DONE_PENDING
             else phy_link_tx_status_e.PHY_LINK_TX_DONE) 0 0 ::
          Event.ack_timer_stop :: obs s.trace
         else Event.ack_timer_stop :: obs s.trace) ∧
      (∀ seq2 pending2,
        rf_handle_ack seq2 pending2 (rf_handle_ack seq_number data_pending s) =
          rf_handle_ack seq_number data_pending s) ∧
      (∀ fuel s3,
        rf_ack_wait_timer_interrupt E fuel (rf_handle_ack seq_number data_pending s)
          = some s3 →
        obs s3.trace = obs (rf_handle_ack seq_number data_pending s).trace)) ∧
    (s.d.expected_ack_sequence ≠ (seq_number : Int) →
      rf_handle_ack seq_number data_pending s = s) := by
  refine ⟨fun h => ?_, rf_handle_ack_mismatch seq_number data_pending s⟩
  obtain ⟨hd, hp, ho⟩ := rf_handle_ack_match seq_number data_pending s h
  refine ⟨by rw [hp], by rw [hd], ho, fun seq2 pending2 => ?_, fun fuel s3 h3 => ?_⟩
  · apply rf_handle_ack_mismatch
    rw [hd]
    show (-1 : Int) ≠ (seq2 : Int)
    omega
  · exact (rf_ack_wait_timer_interrupt_frame E fuel _ s3 h3).2.2

/-- C7 at a driver waiting for the ACK of sequence number 9. -/
theorem C7_rf_handle_ack_witness :
    (rf_handle_ack 9 0 { d := { expected_ack_sequence := 9 } }).d.expected_ack_sequence = -1 ∧
    rf_handle_ack 3 0 { d := { expected_ack_sequence := 9 } }
      = { d := { expected_ack_sequence := 9 } } :=
  ⟨((C7_rf_handle_ack env_chip 9 0 { d := { expected_ack_sequence := 9 } }).1
      (by decide)).2.1,
   (C7_rf_handle_ack env_chip 3 0 { d := { expected_ack_sequence := 9 } }).2 (by decide)⟩

/-! ## C8: callbacks over a whole acknowledged transmission -/

/-- A tuned receiver is still tuned after `rf_receive`. -/
theorem rf_receive_keeps_tuned (E : Env) (fuel : Nat) (s s2 : State)
    (h : rf_receive E fuel s = some s2) (ht : s.d.rf_tuned ≠ 0) : s2.d.rf_tuned ≠ 0 := by
  have h0 : (if rf_flags_check RFF_ON s = 0 then rf_on E s else s).d.rf_tuned ≠ 0 := by
    split <;> simp [rf_on_d, ht]
  unfold rf_receive at h
  simp only at h
  generalize (if rf_flags_check RFF_ON s = 0 then rf_on E s else s) = s0 at h h0
  split at h
  · rw [(rf_receive_body_spec E fuel _ _ h).1]
    simp [h0]
  · cases h
    exact h0

/-- With a tuned receiver `rf_ack_wait_timer_interrupt` always returns. -/
theorem rf_ack_wait_timer_interrupt_tuned (E : Env) (fuel : Nat) (s : State)
    (ht : s.d.rf_tuned ≠ 0) : ∃ s2, rf_ack_wait_timer_interrupt E fuel s = some s2 := by
  unfold rf_ack_wait_timer_interrupt
  obtain ⟨s1, h1⟩ := rf_receive_tuned E fuel
    (rf_flags_clear RFF_RX
      { rf_poll_trx_state_change E PLL_ON
          (rf_if_change_trx_state E FORCE_PLL_ON
            { rf_if_lock s with d := { s.d with expected_ack_sequence := -1 } }) with
        d := { (rf_poll_trx_state_change E PLL_ON
          (rf_if_change_trx_state E FORCE_PLL_ON
            { rf_if_lock s with d := { s.d with expected_ack_sequence := -1 } })).d with
          rf_rx_mode := 0 } }) (by simpa using ht)
  exact ⟨rf_if_unlock s1, by rw [h1]; rfl⟩

/-- A tuned receiver is still tuned after `rf_handle_tx_end`. -/
theorem rf_handle_tx_end_keeps_tuned (E : Env) (fuel : Nat) (s s2 : State)
    (h : rf_handle_tx_end E fuel s = some s2) (ht : s.d.rf_tuned ≠ 0) :
    s2.d.rf_tuned ≠ 0 := by
  unfold rf_handle_tx_end at h
  simp only [Option.map_eq_some'] at h
  obtain ⟨s1, h1, rfl⟩ := h
  have h2 : (rf_flags_clear RFF_RX (rf_handle_tx_end_ack s)).d.rf_tuned ≠ 0 := by
    unfold rf_handle_tx_end_ack
    split <;> simpa using ht
  simpa using rf_receive_keeps_tuned E fuel _ _ h1 h2

/-- C8, refuted as stated: with a well-behaved transceiver, the events
transmit end, ACK with the matching sequence number 9 and ACK-timer expiry
invoke the tx-done callback twice for handle 7, first with
PHY_LINK_TX_SUCCESS and then with PHY_LINK_TX_DONE. -/
theorem C8_two_callbacks :
    ((rf_handle_tx_end env_chip 1 st_transmitting).bind
      (fun s1 => rf_ack_wait_timer_interrupt env_chip 1 (rf_handle_ack 9 0 s1))).map
      (fun s3 => tx_done_calls s3.trace) =
    some [Event.tx_done 0 7 phy_link_tx_status_e.PHY_LINK_TX_DONE 0 0,
          Event.tx_done 0 7 phy_link_tx_status_e.PHY_LINK_TX_SUCCESS 0 0] := by
  decide

/-- C8, amended. For a transmission of an ACK-requesting frame started by
`rf_start_tx`, with a tx-done callback registered: `rf_handle_tx_end` invokes
the callback once, with PHY_LINK_TX_SUCCESS; the ACK with the matching
sequence number invokes it a second time, with PHY_LINK_TX_DONE, or
PHY_LINK_TX_DONE_PENDING when the pending bit is set; a later ACK-timer
expiry invokes no callback. In total the callback is invoked exactly twice
for the handle. With a tuned receiver both handlers return. -/
theorem C8_callbacks_per_transmission (E : Env) (fuel1 fuel2 data_pending : Nat) (s : State)
    (hcb : s.d.phy_tx_done_cb = true)
    (htx : s.d.rf_flags &&& RFF_TX ≠ 0)
    (hbit : u8 (s.d.rf_tx_data.getD 0 0) &&& 0x20 ≠ 0) :
    (∀ s1, rf_handle_tx_end E fuel1 s = some s1 →
      tx_done_calls s1.trace =
        Event.tx_done s.d.rf_radio_driver_id s.d.mac_tx_handle
          phy_link_tx_status_e.PHY_LINK_TX_SUCCESS 0 0 :: tx_done_calls s.trace ∧
      tx_done_calls (rf_handle_ack (u8 (s.d.rf_tx_data.getD 2 0)) data_pending s1).trace =
        Event.tx_done s.d.rf_radio_driver_id s.d.mac_tx_handle
          (if data_pending ≠ 0 then phy_link_tx_status_e.PHY_LINK_TX_DONE_PENDING
           else phy_link_tx_status_e.PHY_LINK_TX_DONE) 0 0 ::
        Event.tx_done s.d.rf_radio_driver_id s.d.mac_tx_handle
          phy_link_tx_status_e.PHY_LINK_TX_SUCCESS 0 0 :: tx_done_calls s.trace ∧
      (∀ s3, rf_ack_wait_timer_interrupt E fuel2
          (rf_handle_ack (u8 (s.d.rf_tx_data.getD 2 0)) data_pending s1) = some s3 →
        tx_done_calls s3.trace =
          tx_done_calls (rf_handle_ack (u8 (s.d.rf_tx_data.getD 2 0)) data_pending s1).trace) ∧
      (s.d.rf_tuned ≠ 0 →
        ∃ s3, rf_ack_wait_timer_interrupt E fuel2
          (rf_handle_ack (u8 (s.d.rf_tx_data.getD 2 0)) data_pending s1) = some s3)) ∧
    (s.d.rf_tuned ≠ 0 → ∃ s1, rf_handle_tx_end E fuel1 s = some s1) := by
  refine ⟨fun s1 h1 => ?_, rf_handle_tx_end_tuned E fuel1 s⟩
  obtain ⟨hd, hp, ho, _⟩ := rf_handle_tx_end_frame E fuel1 s s1 h1
  obtain ⟨hd1, hp1, ho1⟩ := rf_handle_tx_end_ack_yes s ⟨hbit, htx⟩
  have hexp : s1.d.expected_ack_sequence = ((u8 (s.d.rf_tx_data.getD 2 0) : Nat) : Int) := by
    rw [hd, hd1]
  have hcb1 : s1.d.phy_tx_done_cb = true := by rw [hd, hd1]; exact hcb
  have hid1 : s1.d.rf_radio_driver_id = s.d.rf_radio_driver_id := by rw [hd, hd1]
  have hh1 : s1.d.mac_tx_handle = s.d.mac_tx_handle := by rw [hd, hd1]
  have hcb0 : (rf_handle_tx_end_ack s).d.phy_tx_done_cb = true := by rw [hd1]; exact hcb
  have hid0 : (rf_handle_tx_end_ack s).d.rf_radio_driver_id = s.d.rf_radio_driver_id := by
    rw [hd1]
  have hh0 : (rf_handle_tx_end_ack s).d.mac_tx_handle = s.d.mac_tx_handle := by rw [hd1]
  rw [hcb0, hid0, hh0, ho1] at ho
  simp only [if_true] at ho
  obtain ⟨hd2, hp2, ho2⟩ := rf_handle_ack_match _ data_pending s1 hexp
  rw [hcb1, hid1, hh1, ho] at ho2
  simp only [if_true] at ho2
  refine ⟨?_, ?_, fun s3 h3 => ?_, fun ht => ?_⟩
  · simp [tx_done_calls, ho, Event.isTxDone]
  · rw [tx_done_calls, ho2]
    simp [tx_done_calls, Event.isTxDone]
  · simp only [tx_done_calls]
    rw [(rf_ack_wait_timer_interrupt_frame E fuel2 _ s3 h3).2.2]
  · apply rf_ack_wait_timer_interrupt_tuned
    rw [hd2]
    exact rf_handle_tx_end_keeps_tuned E fuel1 s s1 h1 ht

/-- C8 (amended) at the transmission of `frame_ack` with handle 7. -/
theorem C8_callbacks_per_transmission_witness :
    ∃ s1, rf_handle_tx_end env_chip 1 st_transmitting = some s1 :=
  (C8_callbacks_per_transmission env_chip 1 1 0 st_transmitting
    (by decide) (by decide) (by decide)).2 (by decide)

/-! ## C9: the ACK-wait timer and `expected_ack_sequence` -/

/-- `rf_cca_timer_interrupt` leaves the ACK bookkeeping alone. -/
theorem rf_cca_timer_interrupt_ack (E : Env) (fuel : Nat) (s s2 : State)
    (h : rf_cca_timer_interrupt E fuel s = some s2) :
    s2.d.expected_ack_sequence = s.d.expected_ack_sequence ∧
      s2.p.ack_timer = s.p.ack_timer := by
  unfold rf_cca_timer_interrupt at h
  simp only at h
  split at h
  · cases h
    simp [rf_disable_static_frame_buffer_protection_d,
      rf_enable_static_frame_buffer_protection_d]
  · simp only [Option.map_eq_some'] at h
    obtain ⟨s1, h1, rfl⟩ := h
    obtain ⟨hd, hp, _⟩ := rf_receive_frame E fuel _ _ h1
    simp only [rf_if_write_frame_buffer_d, rf_if_write_frame_buffer_p,
      rf_if_read_trx_state_d, rf_if_read_trx_state_p,
      rf_enable_static_frame_buffer_protection_p] at hd hp
    constructor
    · simp [rf_if_start_cca_process, rf_if_enable_cca_ed_done_interrupt]
      rw [hd]
      simp [rf_enable_static_frame_buffer_protection_d]
    · simp [rf_if_start_cca_process, rf_if_enable_cca_ed_done_interrupt]
      rw [hp]

/-- `rf_start_tx` leaves the ACK bookkeeping alone. -/
theorem rf_start_tx_ack (E : Env) (s : State) :
    (rf_start_tx E s).d.expected_ack_sequence = s.d.expected_ack_sequence ∧
      (rf_start_tx E s).p.ack_timer = s.p.ack_timer := by
  by_cases hst : (rf_if_read_trx_state E s).1 = RX_AACK_ON
  · obtain ⟨hd, hp, _⟩ := rf_start_tx_go E s hst
    exact ⟨by rw [hd], by rw [hp]⟩
  · obtain ⟨hd, hp, _⟩ := rf_start_tx_fail E s hst
    exact ⟨by rw [hd], by rw [hp]⟩

/-- `rf_handle_cca_ed_done` leaves the ACK bookkeeping alone. -/
theorem rf_handle_cca_ed_done_ack (E : Env) (s : State) :
    (rf_handle_cca_ed_done E s).d.expected_ack_sequence = s.d.expected_ack_sequence ∧
      (rf_handle_cca_ed_done E s).p.ack_timer = s.p.ack_timer := by
  unfold rf_handle_cca_ed_done
  split
  · exact ⟨rfl, rfl⟩
  · split
    · obtain ⟨h1, h2⟩ := rf_start_tx_ack E (rf_if_check_cca E (rf_flags_clear RFF_CCA s)).2
      exact ⟨by rw [h1]; rfl, by rw [h2]; rfl⟩
    · simp [rf_disable_static_frame_buffer_protection_d]

theorem rf_if_read_bytes_frame (E : Env) (n i : Nat) (s : State) :
    (∃ b, (rf_if_read_bytes E n i s).d = { s.d with rf_buffer := b }) ∧
      (rf_if_read_bytes E n i s).p = s.p ∧
      obs (rf_if_read_bytes E n i s).trace = obs s.trace := by
  induction n generalizing i s with
  | zero => exact ⟨⟨s.d.rf_buffer, rfl⟩, rfl, rfl⟩
  | succ n ih =>
    unfold rf_if_read_bytes
    obtain ⟨⟨b, hd⟩, hp, ho⟩ := ih (i + 1)
      { (rf_if_spi_exchange E 0 s).2 with
        d := { (rf_if_spi_exchange E 0 s).2.d with
          rf_buffer := (rf_if_spi_exchange E 0 s).2.d.rf_buffer.set i
            (rf_if_spi_exchange E 0 s).1 } }
    refine ⟨⟨b, ?_⟩, ?_, ?_⟩
    · rw [hd]; rfl
    · rw [hp]; rfl
    · rw [ho]; rfl

/-- Reading a packet changes `rf_buffer` only, and logs bus traffic only. -/
theorem rf_if_read_packet_frame (E : Env) (s : State) :
    (∃ b, (rf_if_read_packet E s).2.d = { s.d with rf_buffer := b }) ∧
      (rf_if_read_packet E s).2.p = s.p ∧
      obs (rf_if_read_packet E s).2.trace = obs s.trace := by
  obtain ⟨⟨b, hd⟩, hp, ho⟩ := rf_if_read_bytes_frame E (rf_if_read_packet_len E s).1 0
    (rf_if_read_packet_len E s).2
  unfold rf_if_read_packet
  simp only [CS_RELEASE_d, CS_RELEASE_p, CS_RELEASE_obs, rf_if_spi_exchange_d,
    rf_if_spi_exchange_p, rf_if_spi_exchange_obs]
  refine ⟨⟨b, ?_⟩, ?_, ?_⟩
  · rw [hd]; rfl
  · rw [hp]; rfl
  · rw [ho]; rfl

/-- The effect of `rf_handle_ack` on the ACK bookkeeping: nothing, or both
the expected sequence number and the timer are cleared. -/
theorem rf_handle_ack_ack (seq_number data_pending : Nat) (s : State) :
    ((rf_handle_ack seq_number data_pending s).d.expected_ack_sequence
        = s.d.expected_ack_sequence ∧
      (rf_handle_ack seq_number data_pending s).p.ack_timer = s.p.ack_timer) ∨
    ((rf_handle_ack seq_number data_pending s).d.expected_ack_sequence = -1 ∧
      (rf_handle_ack seq_number data_pending s).p.ack_timer = none) := by
  by_cases h : s.d.expected_ack_sequence = (seq_number : Int)
  · obtain ⟨hd, hp, _⟩ := rf_handle_ack_match seq_number data_pending s h
    exact Or.inr ⟨by rw [hd], by rw [hp]⟩
  · rw [rf_handle_ack_mismatch seq_number data_pending s h]
    exact Or.inl ⟨rfl, rfl⟩

/-- The effect of `rf_handle_rx_end` on the ACK bookkeeping. -/
theorem rf_handle_rx_end_ack (E : Env) (fuel : Nat) (s s2 : State)
    (h : rf_handle_rx_end E fuel s = some s2) :
    (s2.d.expected_ack_sequence = s.d.expected_ack_sequence ∧
      s2.p.ack_timer = s.p.ack_timer) ∨
    (s2.d.expected_ack_sequence = -1 ∧ s2.p.ack_timer = none) := by
  unfold rf_handle_rx_end at h
  simp only [Option.map_eq_some'] at h
  obtain ⟨s1, h1, rfl⟩ := h
  obtain ⟨hd, hp, _⟩ := rf_receive_frame E fuel _ _ h1
  simp only [rf_flags_clear_d, rf_flags_clear_p] at hd hp
  have he1 : s1.d.expected_ack_sequence = s.d.expected_ack_sequence := by rw [hd]
  have ht1 : s1.p.ack_timer = s.p.ack_timer := by rw [hp]
  split
  · exact Or.inl ⟨he1, ht1⟩
  · obtain ⟨⟨b, hd2⟩, hp2, _⟩ := rf_if_read_packet_frame E s1
    have he2 : (rf_if_read_packet E s1).2.d.expected_ack_sequence
        = s.d.expected_ack_sequence := by rw [hd2]; exact he1
    have ht2 : (rf_if_read_packet E s1).2.p.ack_timer = s.p.ack_timer := by
      rw [hp2]; exact ht1
    unfold rf_handle_rx_frame
    split
    · exact Or.inl ⟨he2, ht2⟩
    · split
      · rcases rf_handle_ack_ack
          ((rf_if_read_packet E s1).2.d.rf_buffer.getD 2 0)
          (if (rf_if_read_packet E s1).2.d.rf_buffer.getD 0 0 &&& 0x10 ≠ 0 then 1 else 0)
          (rf_if_read_packet E s1).2 with h | h
        · exact Or.inl ⟨by rw [h.1]; exact he2, by rw [h.2]; exact ht2⟩
        · exact Or.inr h
      · exact Or.inl ⟨by simpa using he2, by simpa using ht2⟩

/-- `rf_cca_abort` leaves the ACK bookkeeping alone. -/
theorem rf_cca_abort_ack (E : Env) (s : State) :
    (rf_cca_abort E s).d.expected_ack_sequence = s.d.expected_ack_sequence ∧
      (rf_cca_abort E s).p.ack_timer = s.p.ack_timer := by
  unfold rf_cca_abort
  simp [rf_disable_static_frame_buffer_protection_d, rf_if_cca_timer_stop]

/-- `rf_off` leaves the ACK bookkeeping alone: it stops the CCA-backoff
timer only. -/
theorem rf_off_ack (E : Env) (s : State) :
    (rf_off E s).d.expected_ack_sequence = s.d.expected_ack_sequence ∧
      (rf_off E s).p.ack_timer = s.p.ack_timer := by
  obtain ⟨ha1, ha2⟩ := rf_cca_abort_ack E (rf_if_lock s)
  simp only [rf_if_lock_d, rf_if_lock_p] at ha1 ha2
  unfold rf_off
  by_cases hon : rf_flags_check RFF_ON s ≠ 0
  · rw [if_pos hon]
    constructor
    · simp only [rf_flags_reset_d]
      split <;> split <;> simp [rf_if_disable_ant_div, ha1]
    · simp only [rf_flags_reset_p]
      split <;> split <;> simp [rf_if_disable_ant_div, ha2]
  · rw [if_neg hon]
    exact ⟨rfl, rfl⟩

/-- `rf_interface_state_control` leaves the ACK bookkeeping alone. -/
theorem rf_interface_state_control_ack (E : Env) (fuel : Nat)
    (new_state : phy_interface_state_e) (rf_channel : Nat) (s : State) (r : Int × State)
    (h : rf_interface_state_control E fuel new_state rf_channel s = some r) :
    r.2.d.expected_ack_sequence = s.d.expected_ack_sequence ∧
      r.2.p.ack_timer = s.p.ack_timer := by
  cases new_state <;> simp only [rf_interface_state_control, Option.map_eq_some',
    Option.some.injEq] at h
  · subst h; exact ⟨rfl, rfl⟩
  · subst h; exact rf_off_ack E s
  · obtain ⟨s1, h1, rfl⟩ := h
    obtain ⟨hd, hp, _⟩ := rf_receive_frame E fuel _ _ h1
    simp only [rf_channel_set_d, rf_channel_set_p] at hd hp
    exact ⟨by simp only [rf_if_enable_irq_d]; rw [hd],
      by simp only [rf_if_enable_irq_p]; rw [hp]⟩
  · obtain ⟨s1, h1, rfl⟩ := h
    obtain ⟨hd, hp, _⟩ := rf_receive_frame E fuel _ _ h1
    simp only [rf_channel_set_d, rf_channel_set_p] at hd hp
    exact ⟨by simp [rf_if_enable_cca_ed_done_interrupt]; rw [hd],
      by simp [rf_if_enable_cca_ed_done_interrupt]; rw [hp]⟩
  · obtain ⟨s1, h1, rfl⟩ := h
    obtain ⟨hd, hp, _⟩ := rf_receive_frame E fuel _ _ h1
    simp only [rf_channel_set_d, rf_channel_set_p, rf_flags_clear_d, rf_flags_clear_p] at hd hp
    exact ⟨by simp only [rf_if_enable_irq_d]; rw [hd],
      by simp only [rf_if_enable_irq_p]; rw [hp]⟩

/-- What one operation can do to the ACK bookkeeping: nothing; clear both
the expected sequence number and the timer; set a sequence number and arm the
timer; or, for an accepted `rf_start_cca` only, reset the expected sequence
number and leave the timer as it is. -/
theorem step_ack (E : Env) (fuel : Nat) (op : Op) (s s2 : State)
    (h : step E fuel op s = some s2) :
    (s2.d.expected_ack_sequence = s.d.expected_ack_sequence ∧
      s2.p.ack_timer = s.p.ack_timer) ∨
    (s2.d.expected_ack_sequence = -1 ∧ s2.p.ack_timer = none) ∨
    (0 ≤ s2.d.expected_ack_sequence ∧ s2.p.ack_timer ≠ none) ∨
    (s2.d.expected_ack_sequence = -1 ∧ s2.p.ack_timer = s.p.ack_timer ∧
      ∃ rnd data_ptr data_length tx_handle,
        op = Op.start_cca rnd data_ptr data_length tx_handle ∧
        (rf_start_cca E rnd data_ptr data_length tx_handle s).1 = 0) := by
  cases op with
  | start_cca rnd data_ptr data_length tx_handle =>
    simp only [step, Option.some.injEq] at h
    subst h
    by_cases hc : (rf_if_read_trx_state E s).1 = BUSY_RX_AACK ∨ data_length > 125
    · obtain ⟨_, hd, hp, _⟩ := rf_start_cca_reject E rnd data_ptr data_length tx_handle s hc
      exact Or.inl ⟨by rw [hd], by rw [hp]⟩
    · obtain ⟨hd, hp, _⟩ := rf_start_cca_accept E rnd data_ptr data_length tx_handle s hc
      refine Or.inr (Or.inr (Or.inr ⟨by rw [hd], by rw [hp], rnd, data_ptr, data_length,
        tx_handle, rfl, ?_⟩))
      rw [rf_start_cca_ret, if_neg hc]
  | cca_timer =>
    exact Or.inl (rf_cca_timer_interrupt_ack E fuel s s2 h)
  | cca_ed_done =>
    simp only [step, Option.some.injEq] at h
    subst h
    exact Or.inl (rf_handle_cca_ed_done_ack E s)
  | tx_end =>
    simp only [step] at h
    obtain ⟨hd, hp, _, _⟩ := rf_handle_tx_end_frame E fuel s s2 h
    by_cases hc : u8 (s.d.rf_tx_data.getD 0 0) &&& 0x20 ≠ 0 ∧ s.d.rf_flags &&& RFF_TX ≠ 0
    · obtain ⟨hd1, hp1, _⟩ := rf_handle_tx_end_ack_yes s hc
      refine Or.inr (Or.inr (Or.inl ⟨?_, ?_⟩))
      · rw [hd, hd1]
        exact Int.ofNat_nonneg _
      · rw [hp, hp1]
        simp
    · rw [rf_handle_tx_end_ack_no s hc] at hd hp
      exact Or.inl ⟨by rw [hd], by rw [hp]⟩
  | rx_end =>
    simp only [step] at h
    rcases rf_handle_rx_end_ack E fuel s s2 h with h1 | h1
    · exact Or.inl h1
    · exact Or.inr (Or.inl h1)
  | ack_timeout =>
    simp only [step] at h
    split at h
    · obtain ⟨hd, hp, _⟩ := rf_ack_wait_timer_interrupt_frame E fuel _ s2 h
      exact Or.inr (Or.inl ⟨by rw [hd], by rw [hp]⟩)
    · cases h
  | state_control new_state rf_channel =>
    simp only [step, Option.map_eq_some'] at h
    obtain ⟨r, hr, rfl⟩ := h
    exact Or.inl (rf_interface_state_control_ack E fuel new_state rf_channel s r hr)

/-- A run from a reachable state ends in a reachable state. -/
theorem Reachable_run (E : Env) (fuel : Nat) (ops : List Op) (s s2 : State)
    (hs : Reachable E s) (h : run E fuel ops s = some s2) : Reachable E s2 := by
  induction ops generalizing s with
  | nil =>
    simp only [run, Option.some.injEq] at h
    subst h
    exact hs
  | cons op ops ih =>
    simp only [run, Option.bind_eq_some] at h
    obtain ⟨s1, h1, h2⟩ := h
    exact ih s1 (Reachable.step s s1 fuel op hs h1) h2

/-- C9, refuted as stated: the state after a transmission of an
ACK-requesting frame up to its transmit-end interrupt, followed by a second
accepted `rf_start_cca`, is reachable from a post-initialisation state, and
in it the ACK-wait timer is armed (with 50 slots, 2500 microseconds) while
`expected_ack_sequence` is -1. -/
theorem C9_stale_ack_timer :
    ∃ s, Reachable env_chip s ∧ s.p.ack_timer = some 2500 ∧
      s.d.expected_ack_sequence = -1 ∧
      ¬ (s.p.ack_timer ≠ none ↔ 0 ≤ s.d.expected_ack_sequence) := by
  have hrun : (run env_chip 1 ops_stale_ack_timer st_receiving).map
      (fun s => (s.p.ack_timer, s.d.expected_ack_sequence)) = some (some 2500, -1) := by
    decide
  have hinit : Reachable env_chip st_receiving := Reachable.init _ ⟨rfl, rfl⟩
  cases hs : run env_chip 1 ops_stale_ack_timer st_receiving with
  | none => rw [hs] at hrun; exact absurd hrun (by simp)
  | some s =>
    rw [hs] at hrun
    simp only [Option.map_some', Option.some.injEq, Prod.mk.injEq] at hrun
    refine ⟨s, Reachable_run env_chip 1 _ _ _ hinit hs, hrun.1, hrun.2, ?_⟩
    rw [hrun.1, hrun.2]
    decide

/-- C9, amended. In every state reachable from a post-initialisation state
by the driver operations, the ACK-wait timer is armed whenever
`expected_ack_sequence >= 0`. The converse is kept by every operation except
an `rf_start_cca` that is accepted while the ACK-wait timer is armed: that
call resets `expected_ack_sequence` to -1 and does not stop the timer. -/
theorem C9_ack_timer_invariant (E : Env) :
    (∀ s, Reachable E s → 0 ≤ s.d.expected_ack_sequence → s.p.ack_timer ≠ none) ∧
    (∀ fuel op s s2, step E fuel op s = some s2 →
      (∀ rnd data_ptr data_length tx_handle,
        op = Op.start_cca rnd data_ptr data_length tx_handle →
        (rf_start_cca E rnd data_ptr data_length tx_handle s).1 = 0 →
        s.p.ack_timer = none) →
      (s.p.ack_timer ≠ none → 0 ≤ s.d.expected_ack_sequence) →
      (s2.p.ack_timer ≠ none → 0 ≤ s2.d.expected_ack_sequence)) := by
  constructor
  · intro s hs
    induction hs with
    | init s h =>
      intro h0
      rw [h.1] at h0
      exact absurd h0 (by decide)
    | step s s2 fuel op _ hstep ih =>
      intro h0
      rcases step_ack E fuel op s s2 hstep with h | h | h | h
      · rw [h.2]; exact ih (by rw [← h.1]; exact h0)
      · rw [h.1] at h0; exact absurd h0 (by decide)
      · exact h.2
      · rw [h.1] at h0; exact absurd h0 (by decide)
  · intro fuel op s s2 hstep hquiet hconv h2
    rcases step_ack E fuel op s s2 hstep with h | h | h | h
    · rw [h.1]; exact hconv (by rw [← h.2]; exact h2)
    · exact absurd h.2 h2
    · exact h.1
    · obtain ⟨_, ht, rnd, data_ptr, data_length, tx_handle, hop, hacc⟩ := h
      have := hquiet rnd data_ptr data_length tx_handle hop hacc
      rw [ht] at h2
      exact absurd this h2

/-! ## C10: the RSSI to LQI table -/

/-- A property of both branches of a conditional holds of the conditional. -/
theorem ite_pred {α : Type} (P : α → Prop) (c : Prop) [Decidable c] (a b : α)
    (ha : P a) (hb : P b) : P (if c then a else b) := by
  split <;> assumption

/-- The sensitivity after the decision chain of `rf_init_phy_mode` is one of
`rf_sensitivities`, or the previous one when the PHY mode read from an
AT86RF212 is none of the listed modes. -/
theorem rf_init_phy_mode_select_sensitivity (E : Env) (part tmp : Nat) (s : State) :
    (rf_init_phy_mode_select E part tmp s).d.rf_sensitivity ∈ rf_sensitivities ∨
      (rf_init_phy_mode_select E part tmp s).d.rf_sensitivity = s.d.rf_sensitivity := by
  unfold rf_init_phy_mode_select
  repeat'
    (refine ite_pred
      (fun st : State =>
        st.d.rf_sensitivity ∈ rf_sensitivities ∨ st.d.rf_sensitivity = s.d.rf_sensitivity)
      _ _ _ ?_ ?_)
  all_goals first
    | exact Or.inr rfl
    | exact Or.inl (by simp only [rf_set_phy_mode]; decide)

/-- The sensitivity after `rf_init_phy_mode` is one of `rf_sensitivities`, or
the previous one. -/
theorem rf_init_phy_mode_sensitivity (E : Env) (s : State) :
    (rf_init_phy_mode E s).d.rf_sensitivity ∈ rf_sensitivities ∨
      (rf_init_phy_mode E s).d.rf_sensitivity = s.d.rf_sensitivity :=
  rf_init_phy_mode_select_sensitivity E _ _ _

/-- Below saturation the table of `rf_scale_lqi` has four steps. -/
theorem rf_scale_lqi_below (s : State) (r : Int) (h : r ≤ s.d.rf_sensitivity + 80) :
    rf_scale_lqi r s =
      if r < s.d.rf_sensitivity then 0
      else if r < s.d.rf_sensitivity + 10 then 31
      else if r < s.d.rf_sensitivity + 20 then 207
      else 255 := by
  unfold rf_scale_lqi
  split_ifs <;> first | rfl | omega

/-- Above saturation `rf_scale_lqi` returns 111. -/
theorem rf_scale_lqi_above (s : State) (r : Int) (h : r > s.d.rf_sensitivity + 80) :
    rf_scale_lqi r s = 111 := by
  unfold rf_scale_lqi
  split_ifs <;> first | rfl | omega

/-- C10, refuted as stated: with the default sensitivity -88 the link
quality falls from 255 at -8 dBm to 111 at -7 dBm, both values of an
`int8_t`; and for every sensitivity `rf_init_phy_mode` can set, and the
default, it falls from 255 at `rf_sensitivity + 80` to 111 at
`rf_sensitivity + 81`, both within the `int8_t` range. -/
theorem C10_lqi_drops_above_saturation :
    ((-8 : Int) ≤ -7 ∧
      rf_scale_lqi (-8) { d := { rf_sensitivity := RF_DEFAULT_SENSITIVITY } } = 255 ∧
      rf_scale_lqi (-7) { d := { rf_sensitivity := RF_DEFAULT_SENSITIVITY } } = 111 ∧
      ¬ (rf_scale_lqi (-8) { d := { rf_sensitivity := RF_DEFAULT_SENSITIVITY } } ≤
          rf_scale_lqi (-7) { d := { rf_sensitivity := RF_DEFAULT_SENSITIVITY } })) ∧
    (∀ sens ∈ rf_sensitivities,
      -128 ≤ sens + 80 ∧ sens + 81 ≤ 127 ∧
      rf_scale_lqi (sens + 80) { d := { rf_sensitivity := sens } } = 255 ∧
      rf_scale_lqi (sens + 81) { d := { rf_sensitivity := sens } } = 111) := by
  decide

/-- C10, amended. For every receiver sensitivity, in particular every value
`rf_init_phy_mode` can set and the default -88, `rf_scale_lqi` is monotonic
non-decreasing on signal strengths up to `rf_sensitivity + 80`; every signal
strength above `rf_sensitivity + 80` (receiver saturation) is mapped to
111. -/
theorem C10_lqi_monotone_below_saturation (s : State) (r1 r2 : Int)
    (h12 : r1 ≤ r2) (hsat : r2 ≤ s.d.rf_sensitivity + 80) :
    rf_scale_lqi r1 s ≤ rf_scale_lqi r2 s ∧
    (∀ r : Int, r > s.d.rf_sensitivity + 80 → rf_scale_lqi r s = 111) := by
  refine ⟨?_, fun r hr => rf_scale_lqi_above s r hr⟩
  rw [rf_scale_lqi_below s r1 (by omega), rf_scale_lqi_below s r2 hsat]
  split_ifs <;> omega

/-- C10 (amended) at the default sensitivity, from -100 dBm to -8 dBm. -/
theorem C10_lqi_monotone_below_saturation_witness :
    rf_scale_lqi (-100) { d := { rf_sensitivity := RF_DEFAULT_SENSITIVITY } } ≤
      rf_scale_lqi (-8) { d := { rf_sensitivity := RF_DEFAULT_SENSITIVITY } } :=
  (C10_lqi_monotone_below_saturation { d := { rf_sensitivity := RF_DEFAULT_SENSITIVITY } }
    (-100) (-8) (by decide) (by decide)).1

/-! ## C11: the low steps of the RSSI to LQI table -/

/-- C11. For every sensitivity and every signal strength, `rf_scale_lqi` is 0
exactly when `rssi < rf_sensitivity`; it is 31 for
`rf_sensitivity <= rssi < rf_sensitivity + 10` and 207 for
`rf_sensitivity + 10 <= rssi < rf_sensitivity + 20`. The bounds
`rf_sensitivity + 10k` are sums of integers, not of 8-bit values: they do not
wrap. -/
theorem C11_lqi_low_steps (s : State) (rssi : Int) :
    (rf_scale_lqi rssi s = 0 ↔ rssi < s.d.rf_sensitivity) ∧
    (s.d.rf_sensitivity ≤ rssi → rssi < s.d.rf_sensitivity + 10 →
      rf_scale_lqi rssi s = 31) ∧
    (s.d.rf_sensitivity + 10 ≤ rssi → rssi < s.d.rf_sensitivity + 20 →
      rf_scale_lqi rssi s = 207) := by
  refine ⟨⟨fun h => ?_, fun h => ?_⟩, fun h1 h2 => ?_, fun h1 h2 => ?_⟩
  · by_contra hc
    unfold rf_scale_lqi at h
    rw [if_neg hc] at h
    split_ifs at h
  · unfold rf_scale_lqi
    rw [if_pos h]
  · unfold rf_scale_lqi
    rw [if_neg (by omega), if_pos h2]
  · unfold rf_scale_lqi
    rw [if_neg (by omega), if_neg (by omega), if_pos h2]

/-- C11 at sensitivity 120, where `rf_sensitivity + 10 = 130` is outside the
8-bit range: 125 dBm is in the first step, and a wrapped bound would not put
it there. -/
theorem C11_lqi_low_steps_witness :
    rf_scale_lqi 125 { d := { rf_sensitivity := 120 } } = 31 ∧
    (rf_scale_lqi 119 { d := { rf_sensitivity := 120 } } = 0 ↔
      (119 : Int) < ({ d := { rf_sensitivity := 120 } } : State).d.rf_sensitivity) :=
  ⟨(C11_lqi_low_steps { d := { rf_sensitivity := 120 } } 125).2.1 (by decide) (by decide),
   (C11_lqi_low_steps { d := { rf_sensitivity := 120 } } 119).1⟩

/-! ## C19, C20: the received frame -/

/-- Once the receiver restart has returned, `rf_handle_rx_end` reads a
packet and handles it. -/
theorem rf_handle_rx_end_eq (E : Env) (fuel : Nat) (s s1 : State)
    (h1 : rf_receive E fuel (rf_flags_clear RFF_RX s) = some s1) :
    rf_handle_rx_end E fuel s =
      some (rf_handle_rx_frame E (rf_if_read_packet E s1).1 (rf_if_read_packet E s1).2) := by
  have hrx := rf_receive_rx_set E fuel _ _ h1
  unfold rf_handle_rx_end
  rw [h1]
  simp only [Option.map_some', rf_flags_check_def]
  rw [if_neg hrx]

/-- The packet is read in a state that differs from the one at the handler's
entry in `rf_flags`, `rf_rx_mode`, `rf_tuned` and `rf_buffer` only. -/
theorem rf_handle_rx_end_packet_state (E : Env) (fuel : Nat) (s s1 : State)
    (h1 : rf_receive E fuel (rf_flags_clear RFF_RX s) = some s1) :
    (∃ f m t b, (rf_if_read_packet E s1).2.d =
        { s.d with rf_flags := f, rf_rx_mode := m, rf_tuned := t, rf_buffer := b }) ∧
      (rf_if_read_packet E s1).2.p = { s.p with SLP_TR := s1.p.SLP_TR } ∧
      obs (rf_if_read_packet E s1).2.trace = obs s.trace := by
  obtain ⟨hd, hp, ho⟩ := rf_receive_frame E fuel _ _ h1
  simp only [rf_flags_clear_d, rf_flags_clear_p, rf_flags_clear_obs] at hd hp ho
  obtain ⟨⟨b, hd2⟩, hp2, ho2⟩ := rf_if_read_packet_frame E s1
  refine ⟨⟨s1.d.rf_flags, s1.d.rf_rx_mode, s1.d.rf_tuned, b, ?_⟩, ?_, ?_⟩
  · rw [hd2, hd]
  · rw [hp2, hp]
  · rw [ho2, ho]

/-- C19. When the frame read in `rf_handle_rx_end` has a PSDU length below 5
or a failed CRC, the handler returns right after the read: no timer or
callback event (neither the rx nor the tx-done callback is invoked), and
`expected_ack_sequence` and the ACK-wait timer are unchanged, whatever the
bytes of the frame are. The frame is read once the receiver restart has
returned (`h1`). -/
theorem C19_rx_end_discard (E : Env) (fuel : Nat) (s s1 : State)
    (h1 : rf_receive E fuel (rf_flags_clear RFF_RX s) = some s1)
    (hbad : (rf_if_read_packet E s1).1.len < 5 ∨ (rf_if_read_packet E s1).1.crc_good = false) :
    rf_handle_rx_end E fuel s = some (rf_if_read_packet E s1).2 ∧
    obs (rf_if_read_packet E s1).2.trace = obs s.trace ∧
    (rf_if_read_packet E s1).2.d.expected_ack_sequence = s.d.expected_ack_sequence ∧
    (rf_if_read_packet E s1).2.p.ack_timer = s.p.ack_timer := by
  obtain ⟨⟨f, m, t, b, hd⟩, hp, ho⟩ := rf_handle_rx_end_packet_state E fuel s s1 h1
  refine ⟨?_, ho, by rw [hd], by rw [hp]⟩
  rw [rf_handle_rx_end_eq E fuel s s1 h1]
  unfold rf_handle_rx_frame
  rw [if_pos hbad]

/-- C19 at a transceiver that delivers an empty frame (length 0). -/
theorem C19_rx_end_discard_witness :
    rf_handle_rx_end env_chip 1 st_receiving = some (rf_if_read_packet env_chip st_restarted).2 ∧
    obs (rf_if_read_packet env_chip st_restarted).2.trace = obs st_receiving.trace ∧
    (rf_if_read_packet env_chip st_restarted).2.d.expected_ack_sequence
      = st_receiving.d.expected_ack_sequence ∧
    (rf_if_read_packet env_chip st_restarted).2.p.ack_timer = st_receiving.p.ack_timer :=
  C19_rx_end_discard env_chip 1 st_receiving st_restarted (by decide) (by decide)

/-- The rx callback is not among the events of `rf_handle_ack`. -/
theorem rf_handle_ack_no_rx (seq_number data_pending : Nat) (s : State) :
    (obs (rf_handle_ack seq_number data_pending s).trace).filter Event.isRx =
      (obs s.trace).filter Event.isRx := by
  by_cases h : s.d.expected_ack_sequence = (seq_number : Int)
  · rw [(rf_handle_ack_match seq_number data_pending s h).2.2]
    split <;> simp [Event.isRx]
  · rw [rf_handle_ack_mismatch seq_number data_pending s h]

theorem phy_rx_cb_obs (len lqi : Nat) (rssi : Int) (s : State) :
    obs (phy_rx_cb len lqi rssi s).trace =
      if s.d.phy_rx_cb then
        Event.rx (s.d.rf_buffer.take len) len lqi rssi s.d.rf_radio_driver_id :: obs s.trace
      else obs s.trace := by
  unfold phy_rx_cb; split <;> simp [Event.isObs]

/-- C20. Let the frame read in `rf_handle_rx_end` have PSDU length
`len >= 5` and a valid CRC, and let `byte0`, `byte2` be bytes 0 and 2 of
`rf_buffer` after the read. If `(byte0 & 0x07) = 2` and `rf_mode` is not
RF_MODE_SNIFFER, the handler ends as `rf_handle_ack(byte2, pending)` with
`pending = 1` when `byte0 & 0x10` is set and 0 otherwise, and the rx callback
is not invoked. Otherwise (also for an ACK frame in sniffer mode) the handler
ends as one invocation of the rx callback (when one is set) with the buffer,
length `len - 2`, link quality `rf_scale_lqi(rssi)`,
`rssi = rf_if_scale_rssi(ed)` and the driver id, and there is no other timer
or callback event, so the tx-done callback is not invoked. The frame is read
once the receiver restart has returned (`h1`). -/
theorem C20_rx_end_dispatch (E : Env) (fuel : Nat) (s s1 : State)
    (h1 : rf_receive E fuel (rf_flags_clear RFF_RX s) = some s1)
    (hlen : 5 ≤ (rf_if_read_packet E s1).1.len)
    (hcrc : (rf_if_read_packet E s1).1.crc_good = true) :
    (((rf_if_read_packet E s1).2.d.rf_buffer.getD 0 0 &&& 0x07) = 0x02 ∧
        s.d.rf_mode ≠ rf_mode_t.RF_MODE_SNIFFER →
      rf_handle_rx_end E fuel s =
        some (rf_handle_ack ((rf_if_read_packet E s1).2.d.rf_buffer.getD 2 0)
          (if (rf_if_read_packet E s1).2.d.rf_buffer.getD 0 0 &&& 0x10 ≠ 0 then 1 else 0)
          (rf_if_read_packet E s1).2) ∧
      (obs (rf_handle_ack ((rf_if_read_packet E s1).2.d.rf_buffer.getD 2 0)
          (if (rf_if_read_packet E s1).2.d.rf_buffer.getD 0 0 &&& 0x10 ≠ 0 then 1 else 0)
          (rf_if_read_packet E s1).2).trace).filter Event.isRx =
        (obs s.trace).filter Event.isRx) ∧
    (¬ (((rf_if_read_packet E s1).2.d.rf_buffer.getD 0 0 &&& 0x07) = 0x02 ∧
        s.d.rf_mode ≠ rf_mode_t.RF_MODE_SNIFFER) →
      ∃ s2, rf_handle_rx_end E fuel s = some s2 ∧
        obs s2.trace =
          if s.d.phy_rx_cb then
            Event.rx
              ((rf_if_read_packet E s1).2.d.rf_buffer.take ((rf_if_read_packet E s1).1.len - 2))
              ((rf_if_read_packet E s1).1.len - 2)
              (rf_scale_lqi
                (rf_if_scale_rssi E (rf_if_read_packet E s1).1.ed (rf_if_read_packet E s1).2)
                (rf_if_read_packet E s1).2)
              (rf_if_scale_rssi E (rf_if_read_packet E s1).1.ed (rf_if_read_packet E s1).2)
              s.d.rf_radio_driver_id :: obs s.trace
          else obs s.trace) := by
  obtain ⟨⟨f, m, t, b, hd⟩, hp, ho⟩ := rf_handle_rx_end_packet_state E fuel s s1 h1
  have hmode : (rf_if_read_packet E s1).2.d.rf_mode = s.d.rf_mode := by rw [hd]
  have hcb : (rf_if_read_packet E s1).2.d.phy_rx_cb = s.d.phy_rx_cb := by rw [hd]
  have hid : (rf_if_read_packet E s1).2.d.rf_radio_driver_id = s.d.rf_radio_driver_id := by
    rw [hd]
  have hgood : ¬ ((rf_if_read_packet E s1).1.len < 5 ∨
      (rf_if_read_packet E s1).1.crc_good = false) := by
    rw [hcrc]; simp; omega
  constructor
  · intro hack
    constructor
    · rw [rf_handle_rx_end_eq E fuel s s1 h1]
      unfold rf_handle_rx_frame
      rw [if_neg hgood, if_pos (by rw [hmode]; exact hack)]
    · rw [rf_handle_ack_no_rx, ho]
  · intro hno
    refine ⟨_, rf_handle_rx_end_eq E fuel s s1 h1, ?_⟩
    unfold rf_handle_rx_frame
    rw [if_neg hgood, if_neg (by rw [hmode]; exact hno), phy_rx_cb_obs, hcb, hid, ho]

/-- C20 at a transceiver that delivers a 5-byte frame of bytes 0x85 with a
valid CRC. -/
theorem C20_rx_end_dispatch_witness :
    ∃ s2, rf_handle_rx_end (env_frame 0x85) 1 st_receiving = some s2 ∧
      obs s2.trace =
        if st_receiving.d.phy_rx_cb then
          Event.rx
            ((rf_if_read_packet (env_frame 0x85) st_restarted_frame).2.d.rf_buffer.take
              ((rf_if_read_packet (env_frame 0x85) st_restarted_frame).1.len - 2))
            ((rf_if_read_packet (env_frame 0x85) st_restarted_frame).1.len - 2)
            (rf_scale_lqi
              (rf_if_scale_rssi (env_frame 0x85)
                (rf_if_read_packet (env_frame 0x85) st_restarted_frame).1.ed
                (rf_if_read_packet (env_frame 0x85) st_restarted_frame).2)
              (rf_if_read_packet (env_frame 0x85) st_restarted_frame).2)
            (rf_if_scale_rssi (env_frame 0x85)
              (rf_if_read_packet (env_frame 0x85) st_restarted_frame).1.ed
              (rf_if_read_packet (env_frame 0x85) st_restarted_frame).2)
            st_receiving.d.rf_radio_driver_id :: obs st_receiving.trace
        else obs st_receiving.trace :=
  (C20_rx_end_dispatch (env_frame 0x85) 1 st_receiving st_restarted_frame
    (by decide) (by decide) (by decide)).2 (by decide)

/-! ## The trace only grows -/

theorem log_suffix (e : Event) (s : State) : s.trace <:+ (log e s).trace :=
  List.suffix_cons _ _

theorem rf_if_spi_exchange_suffix (E : Env) (o : Nat) (s : State) :
    s.trace <:+ (rf_if_spi_exchange E o s).2.trace :=
  List.suffix_cons _ _

/-- The four events of a register write. -/
theorem rf_if_write_register_trace (E : Env) (a v : Nat) (s : State) :
    (rf_if_write_register E a v s).trace =
      (s.p.lock_depth, Event.cs 1) ::
      (s.p.lock_depth, Event.spi (u8 v) (u8 (E.miso (u8 v :: u8 (0xC0 ||| a) :: s.mosi)))) ::
      (s.p.lock_depth,
        Event.spi (u8 (0xC0 ||| a)) (u8 (E.miso (u8 (0xC0 ||| a) :: s.mosi)))) ::
      (s.p.lock_depth, Event.cs 0) :: s.trace := rfl

/-- The four events of a register read. -/
theorem rf_if_read_register_trace (E : Env) (a : Nat) (s : State) :
    (rf_if_read_register E a s).2.trace =
      (s.p.lock_depth, Event.cs 1) ::
      (s.p.lock_depth, Event.spi (u8 0) (u8 (E.miso (u8 0 :: u8 (0x80 ||| a) :: s.mosi)))) ::
      (s.p.lock_depth,
        Event.spi (u8 (0x80 ||| a)) (u8 (E.miso (u8 (0x80 ||| a) :: s.mosi)))) ::
      (s.p.lock_depth, Event.cs 0) :: s.trace := rfl

theorem rf_if_write_register_suffix (E : Env) (a v : Nat) (s : State) :
    s.trace <:+ (rf_if_write_register E a v s).trace := by
  rw [rf_if_write_register_trace]
  exact ⟨[_, _, _, _], rfl⟩

theorem rf_if_read_register_suffix (E : Env) (a : Nat) (s : State) :
    s.trace <:+ (rf_if_read_register E a s).2.trace := by
  rw [rf_if_read_register_trace]
  exact ⟨[_, _, _, _], rfl⟩

theorem rf_if_set_bit_suffix (E : Env) (a b m : Nat) (s : State) :
    s.trace <:+ (rf_if_set_bit E a b m s).trace :=
  (rf_if_read_register_suffix E a s).trans (rf_if_write_register_suffix E a _ _)

theorem rf_if_clear_bit_suffix (E : Env) (a b : Nat) (s : State) :
    s.trace <:+ (rf_if_clear_bit E a b s).trace :=
  rf_if_set_bit_suffix E a 0 b s

theorem rf_if_read_trx_state_suffix (E : Env) (s : State) :
    s.trace <:+ (rf_if_read_trx_state E s).2.trace :=
  rf_if_read_register_suffix E E.TRX_STATUS s

theorem rf_poll_loop_suffix (E : Env) (t n : Nat) (s : State) :
    s.trace <:+ (rf_poll_loop E t n s).trace := by
  induction n generalizing s with
  | zero => exact List.suffix_refl _
  | succ n ih =>
    unfold rf_poll_loop
    split
    · exact (rf_if_read_trx_state_suffix E s).trans (ih _)
    · exact rf_if_read_trx_state_suffix E s

theorem rf_busy_wait_suffix (E : Env) (n : Nat) (s : State) :
    s.trace <:+ (rf_busy_wait E n s).trace := by
  induction n generalizing s with
  | zero => exact List.suffix_refl _
  | succ n ih =>
    unfold rf_busy_wait
    split
    · exact (rf_if_read_trx_state_suffix E s).trans (ih _)
    · exact rf_if_read_trx_state_suffix E s

theorem rf_poll_trx_state_change_suffix (E : Env) (t : Nat) (s : State) :
    s.trace <:+ (rf_poll_trx_state_change E t s).trace := by
  unfold rf_poll_trx_state_change
  split
  · exact rf_poll_loop_suffix E _ _ (rf_if_lock s)
  · exact List.suffix_refl _

theorem rf_if_change_trx_state_suffix (E : Env) (t : Nat) (s : State) :
    s.trace <:+ (rf_if_change_trx_state E t s).trace :=
  (rf_if_write_register_suffix E E.TRX_STATE t (rf_if_lock s)).trans
    (rf_poll_trx_state_change_suffix E t _)

theorem rf_flags_set_suffix (x : Nat) (s : State) : s.trace <:+ (rf_flags_set x s).trace :=
  List.suffix_cons _ _

theorem rf_flags_clear_suffix (x : Nat) (s : State) :
    s.trace <:+ (rf_flags_clear x s).trace :=
  List.suffix_cons _ _

theorem rf_channel_set_suffix (E : Env) (ch : Nat) (s : State) :
    s.trace <:+ (rf_channel_set E ch s).trace := by
  unfold rf_channel_set
  rw [rf_if_unlock_trace]
  split
  · unfold rf_if_set_channel_register
    exact rf_if_set_bit_suffix E E.PHY_CC_CCA ch 0x1f
      { rf_if_lock s with d := { s.d with rf_phy_channel := ch } }
  · exact List.suffix_refl _

theorem rf_on_suffix (E : Env) (s : State) : s.trace <:+ (rf_on E s).trace := by
  unfold rf_on
  split
  · rw [rf_if_unlock_trace]
    refine List.IsSuffix.trans ?_ (rf_poll_trx_state_change_suffix E TRX_OFF _)
    unfold rf_if_disable_slptr
    rw [log_trace]
    refine List.IsSuffix.trans ?_ (List.suffix_cons _ _)
    show s.trace <:+ (if (rf_flags_set RFF_ON (rf_if_lock s)).d.rf_use_antenna_diversity ≠ 0
      then rf_if_enable_ant_div E (rf_flags_set RFF_ON (rf_if_lock s))
      else rf_flags_set RFF_ON (rf_if_lock s)).trace
    split
    · unfold rf_if_enable_ant_div
      exact (rf_flags_set_suffix RFF_ON (rf_if_lock s)).trans
        (rf_if_set_bit_suffix E E.ANT_DIV E.ANT_EXT_SW_EN E.ANT_EXT_SW_EN _)
    · exact rf_flags_set_suffix RFF_ON (rf_if_lock s)
  · exact List.suffix_refl _

theorem rf_receive_rx_state_suffix (E : Env) (s : State) :
    s.trace <:+ (rf_receive_rx_state E s).trace := by
  unfold rf_receive_rx_state
  split
  · exact rf_if_change_trx_state_suffix E RX_ON s
  · refine List.IsSuffix.trans ?_ (rf_if_change_trx_state_suffix E RX_AACK_ON _)
    split
    · unfold rf_if_enable_promiscuous_mode
      exact rf_if_set_bit_suffix E E.XAH_CTRL_1 E.AACK_PROM_MODE E.AACK_PROM_MODE
        { s with d := { s.d with rf_rx_mode := 0 } }
    · unfold rf_if_disable_promiscuous_mode
      exact rf_if_clear_bit_suffix E E.XAH_CTRL_1 E.AACK_PROM_MODE s

theorem rf_receive_finish_suffix (E : Env) (s : State) :
    s.trace <:+ (rf_receive_finish E s).trace := by
  have h0 : s.trace <:+ (rf_flags_set RFF_RX (rf_channel_set E s.d.rf_phy_channel s)).trace :=
    (rf_channel_set_suffix E s.d.rf_phy_channel s).trans (rf_flags_set_suffix RFF_RX _)
  unfold rf_receive_finish
  rw [rf_if_unlock_trace]
  split
  · unfold rf_if_enable_rx_end_interrupt
    exact h0.trans (rf_if_set_bit_suffix E E.IRQ_MASK E.TRX_END E.TRX_END _)
  · exact h0

theorem rf_if_calibration_wait_suffix (E : Env) (fuel : Nat) (s s2 : State)
    (h : rf_if_calibration_wait E fuel s = some s2) : s.trace <:+ s2.trace := by
  induction fuel generalizing s with
  | zero => simp [rf_if_calibration_wait] at h
  | succ n ih =>
    unfold rf_if_calibration_wait at h
    split at h
    · exact (rf_if_read_register_suffix E E.FTN_CTRL s).trans (ih _ h)
    · cases h
      exact rf_if_read_register_suffix E E.FTN_CTRL s

theorem rf_if_calibration_suffix (E : Env) (fuel : Nat) (s s2 : State)
    (h : rf_if_calibration E fuel s = some s2) : s.trace <:+ s2.trace :=
  (rf_if_set_bit_suffix E E.FTN_CTRL E.FTN_START E.FTN_START s).trans
    (rf_if_calibration_wait_suffix E fuel _ s2 h)

theorem rf_receive_body_suffix (E : Env) (fuel : Nat) (s s2 : State)
    (h : rf_receive_body E fuel s = some s2) : s.trace <:+ s2.trace := by
  have h0 : s.trace <:+ (rf_receive_rx_state E
      (rf_if_change_trx_state E PLL_ON (rf_busy_wait E 0xffff (rf_if_lock s)))).trace :=
    ((rf_busy_wait_suffix E 0xffff (rf_if_lock s)).trans
      (rf_if_change_trx_state_suffix E PLL_ON _)).trans (rf_receive_rx_state_suffix E _)
  unfold rf_receive_body at h
  simp only at h
  generalize rf_receive_rx_state E
      (rf_if_change_trx_state E PLL_ON (rf_busy_wait E 0xffff (rf_if_lock s))) = s1 at h h0
  split at h
  · simp only [Option.map_eq_some'] at h
    obtain ⟨s3, hc, rfl⟩ := h
    exact (h0.trans (rf_if_calibration_suffix E fuel s1 s3 hc)).trans
      (rf_receive_finish_suffix E { s3 with d := { s3.d with rf_tuned := 1 } })
  · cases h
    exact h0.trans (rf_receive_finish_suffix E _)

theorem rf_receive_suffix (E : Env) (fuel : Nat) (s s2 : State)
    (h : rf_receive E fuel s = some s2) : s.trace <:+ s2.trace := by
  have h0 : s.trace <:+ (if rf_flags_check RFF_ON s = 0 then rf_on E s else s).trace := by
    split
    · exact rf_on_suffix E s
    · exact List.suffix_refl _
  unfold rf_receive at h
  simp only at h
  generalize (if rf_flags_check RFF_ON s = 0 then rf_on E s else s) = s0 at h h0
  split at h
  · exact h0.trans (rf_receive_body_suffix E fuel s0 s2 h)
  · cases h
    exact h0

/-- With the receiving flag clear `rf_receive` runs its body. -/
theorem rf_receive_rx_clear (E : Env) (fuel : Nat) (s : State)
    (hrx : s.d.rf_flags &&& RFF_RX = 0) :
    rf_receive E fuel s =
      rf_receive_body E fuel (if rf_flags_check RFF_ON s = 0 then rf_on E s else s) := by
  have h0 : rf_flags_check RFF_RX (if rf_flags_check RFF_ON s = 0 then rf_on E s else s) = 0 := by
    split
    · rename_i hon
      rw [rf_flags_check_def] at hon
      simp only [rf_flags_check_def, rf_on_d, hon, if_true]
      rw [flag_set_other _ _ _ (by decide) (by decide)]
      exact hrx
    · exact hrx
  unfold rf_receive
  simp only
  rw [if_pos h0]

/-- The trace of the ACK-wait timeout handler starts with the register write
`TRX_STATE := FORCE_PLL_ON`. -/
theorem rf_ack_wait_timer_interrupt_trace (E : Env) (fuel : Nat) (s s2 : State)
    (h : rf_ack_wait_timer_interrupt E fuel s = some s2) :
    (rf_if_write_register E E.TRX_STATE FORCE_PLL_ON (rf_if_lock (rf_if_lock s))).trace
      <:+ s2.trace := by
  unfold rf_ack_wait_timer_interrupt at h
  simp only [Option.map_eq_some'] at h
  obtain ⟨s1, h1, rfl⟩ := h
  have hr := rf_receive_suffix E fuel _ s1 h1
  rw [rf_if_unlock_trace]
  refine List.IsSuffix.trans ?_ hr
  refine List.IsSuffix.trans ?_ (rf_flags_clear_suffix RFF_RX _)
  show _ <:+ (rf_poll_trx_state_change E PLL_ON
          (rf_if_change_trx_state E FORCE_PLL_ON
            { rf_if_lock s with d := { s.d with expected_ack_sequence := -1 } })).trace
  refine List.IsSuffix.trans ?_ (rf_poll_trx_state_change_suffix E PLL_ON _)
  unfold rf_if_change_trx_state
  rw [rf_if_unlock_trace]
  refine List.IsSuffix.trans ?_ (rf_poll_trx_state_change_suffix E FORCE_PLL_ON _)
  exact List.suffix_refl _

/-- Entered with the receiving flag clear and `rf_rx_mode` zero, `rf_receive`
returns with `rf_rx_mode` zero. -/
theorem rf_receive_rx_mode (E : Env) (fuel : Nat) (s s2 : State)
    (h : rf_receive E fuel s = some s2) (hrx : s.d.rf_flags &&& RFF_RX = 0)
    (hm : s.d.rf_rx_mode = 0) : s2.d.rf_rx_mode = 0 := by
  have h0 : (if rf_flags_check RFF_ON s = 0 then rf_on E s else s).d.rf_rx_mode = 0 := by
    split <;> simp [rf_on_d, hm]
  rw [rf_receive_rx_clear E fuel s hrx] at h
  generalize (if rf_flags_check RFF_ON s = 0 then rf_on E s else s) = s0 at h h0
  rw [(rf_receive_body_spec E fuel s0 s2 h).1]
  simp only [h0, ite_self]

theorem rf_ack_wait_timer_interrupt_rx (E : Env) (fuel : Nat) (s s2 : State)
    (h : rf_ack_wait_timer_interrupt E fuel s = some s2) :
    s2.d.rf_rx_mode = 0 ∧ s2.d.rf_flags &&& RFF_RX ≠ 0 := by
  unfold rf_ack_wait_timer_interrupt at h
  simp only [Option.map_eq_some'] at h
  obtain ⟨s1, h1, rfl⟩ := h
  refine ⟨?_, by simpa using rf_receive_rx_set E fuel _ s1 h1⟩
  rw [rf_if_unlock_d]
  refine rf_receive_rx_mode E fuel _ s1 h1 ?_ rfl
  simp only [rf_flags_clear_d]
  exact flag_clear_same _ _ _ (by decide)

/-- The loop of `rf_poll_trx_state_change` with a budget of `n + 1` reads
makes `k` reads, `1 ≤ k ≤ n + 1`: the first `k - 1` reads differ from the
target and, unless the budget is exhausted, read `k` equals it. -/
theorem rf_poll_loop_reads (E : Env) (t n : Nat) (s : State) :
    ∃ k, 1 ≤ k ∧ k ≤ n + 1 ∧ rf_poll_loop E t (n + 1) s = status_reads E k s ∧
      (∀ j, j + 1 < k → (rf_if_read_trx_state E (status_reads E j s)).1 ≠ t) ∧
      (k < n + 1 → (rf_if_read_trx_state E (status_reads E (k - 1) s)).1 = t) := by
  induction n generalizing s with
  | zero =>
    refine ⟨1, le_refl _, le_refl _, ?_, fun j hj => by omega, fun h => by omega⟩
    simp only [rf_poll_loop, status_reads]
    split <;> rfl
  | succ n ih =>
    by_cases h : (rf_if_read_trx_state E s).1 ≠ t
    · obtain ⟨k, hk1, hk2, heq, hne, hlast⟩ := ih (rf_if_read_trx_state E s).2
      refine ⟨k + 1, by omega, by omega, ?_, ?_, ?_⟩
      · rw [rf_poll_loop, if_pos h, heq]
        rfl
      · intro j hj
        cases j with
        | zero => exact h
        | succ j => exact hne j (by omega)
      · intro hlt
        obtain ⟨k0, rfl⟩ : ∃ k0, k = k0 + 1 := ⟨k - 1, by omega⟩
        exact hlast (by omega)
    · refine ⟨1, le_refl _, by omega, ?_, fun j hj => by omega, fun _ => ?_⟩
      · rw [rf_poll_loop, if_neg h]
        rfl
      · exact not_not.mp h

/-- C23. `rf_poll_trx_state_change(t)` is a total function of the state (it
returns for every hardware behaviour). For `t = RF_TX_START` it only takes
and releases the lock, reading nothing. Otherwise it makes `k` reads of
TRX_STATUS with `1 ≤ k ≤ 511`, comparing the low five bits of each with the
target (PLL_ON for FORCE_PLL_ON, TRX_OFF for FORCE_TRX_OFF, else `t`): none
of the first `k - 1` reads equals the target and, when `k < 511`, read `k`
does, so the function returns after the first matching read, and after 511
reads when none matched. -/
theorem C23_poll_trx_state_change (E : Env) (t : Nat) (s : State) :
    (∀ s1, (rf_if_read_trx_state E s1).1 =
        (rf_if_read_register E E.TRX_STATUS s1).1 &&& 0x1F) ∧
    (t = RF_TX_START → rf_poll_trx_state_change E t s = rf_if_unlock (rf_if_lock s)) ∧
    (t ≠ RF_TX_START →
      ∃ k, 1 ≤ k ∧ k ≤ 511 ∧
        rf_poll_trx_state_change E t s = rf_if_unlock (status_reads E k (rf_if_lock s)) ∧
        (∀ j, j + 1 < k →
          (rf_if_read_trx_state E (status_reads E j (rf_if_lock s))).1 ≠ poll_target t) ∧
        (k < 511 →
          (rf_if_read_trx_state E (status_reads E (k - 1) (rf_if_lock s))).1 =
            poll_target t)) := by
  refine ⟨fun _ => rfl, fun h => ?_, fun h => ?_⟩
  · rw [rf_poll_trx_state_change, if_neg (not_not.mpr h)]
  · obtain ⟨k, hk1, hk2, heq, hne, hlast⟩ := rf_poll_loop_reads E (poll_target t) 510 (rf_if_lock s)
    refine ⟨k, hk1, hk2, ?_, hne, hlast⟩
    rw [rf_poll_trx_state_change, if_pos h]
    exact congrArg rf_if_unlock heq

/-- C23 at a transceiver that never reports the target: TRX_OFF is polled
511 times and the function returns. -/
theorem C23_poll_trx_state_change_witness :
    (∃ k, 1 ≤ k ∧ k ≤ 511 ∧
      rf_poll_trx_state_change (env_const 0) TRX_OFF st_receiving =
        rf_if_unlock (status_reads (env_const 0) k (rf_if_lock st_receiving))) ∧
    rf_poll_trx_state_change (env_const 0) RF_TX_START st_receiving =
      rf_if_unlock (rf_if_lock st_receiving) :=
  ⟨(((C23_poll_trx_state_change (env_const 0) TRX_OFF st_receiving).2.2 (by decide)).imp
      (fun _ h => ⟨h.1, h.2.1, h.2.2.1⟩)),
   (C23_poll_trx_state_change (env_const 0) RF_TX_START st_receiving).2.1 rfl⟩

/-! ## The register a trace leaves written -/

theorem write_cmd_val (a : Nat) (h : a < 64) : u8 (0xC0 ||| a) = 192 + a := by
  have h2 : (0xC0 ||| a) = 2 ^ 6 * 3 + a := (Nat.mul_add_lt_is_or (show a < 2 ^ 6 from h) 3).symm
  rw [h2, u8]
  omega

theorem read_cmd_val (a : Nat) (h : a < 64) : u8 (0x80 ||| a) = 128 + a := by
  have h2 : (0x80 ||| a) = 2 ^ 6 * 2 + a := (Nat.mul_add_lt_is_or (show a < 2 ^ 6 from h) 2).symm
  rw [h2, u8]
  omega

/-- A read command never equals a write command. -/
theorem read_cmd_ne_write_cmd (a b : Nat) (ha : a < 64) (hb : b < 64) :
    u8 (0x80 ||| a) ≠ u8 (0xC0 ||| b) := by
  rw [read_cmd_val a ha, write_cmd_val b hb]
  omega

theorem write_cmd_ne (a b : Nat) (ha : a < 64) (hb : b < 64) (hne : a ≠ b) :
    u8 (0xC0 ||| a) ≠ u8 (0xC0 ||| b) := by
  rw [write_cmd_val a ha, write_cmd_val b hb]
  omega

theorem write_at_of_ne (cmd d : Nat) (e : Event) (t : List (Nat × Event))
    (h : e ≠ Event.cs 1) : write_at cmd ((d, e) :: t) = none := by
  unfold write_at
  split
  · rename_i heq
    simp only [List.cons.injEq, Prod.mk.injEq] at heq
    exact absurd heq.1.2 h
  · rfl

theorem last_write_cons_of_ne (addr d : Nat) (e : Event) (t : List (Nat × Event))
    (h : e ≠ Event.cs 1) : last_write addr ((d, e) :: t) = last_write addr t := by
  rw [last_write, write_at_of_ne _ _ _ _ h]

theorem last_write_log (addr : Nat) (e : Event) (s : State) (h : e ≠ Event.cs 1) :
    last_write addr (log e s).trace = last_write addr s.trace :=
  last_write_cons_of_ne addr _ e _ h

theorem last_write_write (E : Env) (addr a v : Nat) (s : State) :
    last_write addr (rf_if_write_register E a v s).trace =
      if u8 (0xC0 ||| a) = u8 (0xC0 ||| addr) then some (u8 v)
      else last_write addr s.trace := by
  rw [rf_if_write_register_trace, last_write]
  simp only [write_at]
  by_cases hc : u8 (0xC0 ||| a) = u8 (0xC0 ||| addr)
  · simp only [if_pos hc]
  · simp only [if_neg hc]
    rw [last_write_cons_of_ne _ _ _ _ (by simp), last_write_cons_of_ne _ _ _ _ (by simp),
      last_write_cons_of_ne _ _ _ _ (by simp)]

theorem last_write_read (E : Env) (addr a : Nat) (s : State)
    (h : u8 (0x80 ||| a) ≠ u8 (0xC0 ||| addr)) :
    last_write addr (rf_if_read_register E a s).2.trace = last_write addr s.trace := by
  rw [rf_if_read_register_trace, last_write]
  simp only [write_at, if_neg h]
  rw [last_write_cons_of_ne _ _ _ _ (by simp), last_write_cons_of_ne _ _ _ _ (by simp),
    last_write_cons_of_ne _ _ _ _ (by simp)]

theorem last_write_set_bit (E : Env) (addr a b m : Nat) (s : State)
    (ha : a < 64) (haddr : addr < 64) (hne : a ≠ addr) :
    last_write addr (rf_if_set_bit E a b m s).trace = last_write addr s.trace := by
  unfold rf_if_set_bit
  rw [last_write_write, if_neg (write_cmd_ne a addr ha haddr hne),
    last_write_read E addr a s (read_cmd_ne_write_cmd a addr ha haddr)]

theorem last_write_read_trx_state (E : Env) (addr : Nat) (s : State)
    (hst : E.TRX_STATUS < 64) (haddr : addr < 64) :
    last_write addr (rf_if_read_trx_state E s).2.trace = last_write addr s.trace :=
  last_write_read E addr E.TRX_STATUS s (read_cmd_ne_write_cmd _ _ hst haddr)

theorem last_write_poll_loop (E : Env) (addr t n : Nat) (s : State)
    (hst : E.TRX_STATUS < 64) (haddr : addr < 64) :
    last_write addr (rf_poll_loop E t n s).trace = last_write addr s.trace := by
  induction n generalizing s with
  | zero => rfl
  | succ n ih =>
    unfold rf_poll_loop
    split
    · rw [ih, last_write_read_trx_state E addr s hst haddr]
    · exact last_write_read_trx_state E addr s hst haddr

theorem last_write_busy_wait (E : Env) (addr n : Nat) (s : State)
    (hst : E.TRX_STATUS < 64) (haddr : addr < 64) :
    last_write addr (rf_busy_wait E n s).trace = last_write addr s.trace := by
  induction n generalizing s with
  | zero => rfl
  | succ n ih =>
    unfold rf_busy_wait
    split
    · rw [ih, last_write_read_trx_state E addr s hst haddr]
    · exact last_write_read_trx_state E addr s hst haddr

theorem last_write_poll_trx_state_change (E : Env) (addr t : Nat) (s : State)
    (hst : E.TRX_STATUS < 64) (haddr : addr < 64) :
    last_write addr (rf_poll_trx_state_change E t s).trace = last_write addr s.trace := by
  unfold rf_poll_trx_state_change
  rw [rf_if_unlock_trace]
  split
  · exact last_write_poll_loop E addr _ _ (rf_if_lock s) hst haddr
  · rfl

/-- After `rf_if_change_trx_state(t)` the register TRX_STATE holds `t`. -/
theorem last_write_change_trx_state (E : Env) (t : Nat) (s : State)
    (hst : E.TRX_STATUS < 64) (hstate : E.TRX_STATE < 64) :
    last_write E.TRX_STATE (rf_if_change_trx_state E t s).trace = some (u8 t) := by
  unfold rf_if_change_trx_state
  rw [rf_if_unlock_trace, last_write_poll_trx_state_change E _ _ _ hst hstate,
    last_write_write, if_pos rfl]

/-- `rf_off` on a powered-off driver only clears the flags. -/
theorem rf_off_powered_off (E : Env) (s : State) (hoff : s.d.rf_flags &&& RFF_ON = 0) :
    rf_off E s = rf_flags_reset s := by
  unfold rf_off
  rw [if_neg (by simpa using hoff)]

/-- `rf_off` on a powered-on driver: the state before the final
`rf_flags_reset` has the CCA-backoff timer stopped and the sleep line
asserted, and differs from the entry state in `rf_flags` only. -/
theorem rf_off_powered_on (E : Env) (s : State) (hon : s.d.rf_flags &&& RFF_ON ≠ 0) :
    (rf_off E s).d = { s.d with rf_flags := 0 } ∧
    (rf_off E s).p = { s.p with cca_timer := none, SLP_TR := 1 } ∧
    obs (rf_off E s).trace = Event.cca_timer_stop :: obs s.trace := by
  unfold rf_off
  rw [if_pos (by simpa using hon)]
  simp only [rf_flags_reset_d, rf_flags_reset_p, rf_flags_reset_obs]
  refine ⟨?_, ?_, ?_⟩
  · split <;> split <;>
      simp [rf_if_disable_ant_div, rf_cca_abort, rf_disable_static_frame_buffer_protection_d,
        rf_if_cca_timer_stop]
  · split <;> split <;>
      simp [rf_if_disable_ant_div, rf_cca_abort, rf_if_cca_timer_stop]
  · split <;> split <;>
      simp [rf_if_disable_ant_div, rf_cca_abort, rf_if_cca_timer_stop, Event.isObs]

/-- After `rf_off` on a powered-on driver, TRX_STATE holds TRX_OFF. -/
theorem rf_off_last_state (E : Env) (s : State) (hon : s.d.rf_flags &&& RFF_ON ≠ 0)
    (hst : E.TRX_STATUS < 64) (hstate : E.TRX_STATE < 64) (hant : E.ANT_DIV < 64)
    (hne : E.ANT_DIV ≠ E.TRX_STATE) :
    last_write E.TRX_STATE (rf_off E s).trace = some TRX_OFF := by
  unfold rf_off
  rw [if_pos (by simpa using hon)]
  unfold rf_flags_reset
  rw [last_write_log _ _ _ (by simp)]
  simp only [rf_if_unlock_trace]
  have key : ∀ x, last_write E.TRX_STATE
      (rf_if_enable_slptr (rf_if_change_trx_state E TRX_OFF x)).trace = some TRX_OFF := by
    intro x
    unfold rf_if_enable_slptr
    rw [last_write_log _ _ _ (by simp)]
    exact last_write_change_trx_state E TRX_OFF x hst hstate
  have key2 : ∀ x, last_write E.TRX_STATE
      (if (rf_if_enable_slptr (rf_if_change_trx_state E TRX_OFF x)).d.rf_use_antenna_diversity
            ≠ 0 then
          rf_if_disable_ant_div E (rf_if_enable_slptr (rf_if_change_trx_state E TRX_OFF x))
        else rf_if_enable_slptr (rf_if_change_trx_state E TRX_OFF x)).trace = some TRX_OFF := by
    intro x
    split
    · unfold rf_if_disable_ant_div rf_if_clear_bit
      rw [last_write_set_bit E _ _ _ _ _ hant hstate hne]
      exact key x
    · exact key x
  split
  · exact key2 _
  · exact key2 _

/-! ## C16, C17: `rf_interface_state_control(PHY_INTERFACE_DOWN)` -/

/-- C16. `rf_interface_state_control(PHY_INTERFACE_DOWN, ch)` returns 0 with
`rf_flags = 0`. If RFF_ON was set on entry, the sleep line is asserted on
return and, for six-bit register addresses with ANT_DIV other than
TRX_STATE, the last value written to TRX_STATE is TRX_OFF. If RFF_ON was
clear on entry the call only clears `rf_flags`: nothing is sent on the bus
and the trace grows by the flag change alone. -/
theorem C16_interface_down (E : Env) (fuel ch : Nat) (s : State) :
    ∃ s2, rf_interface_state_control E fuel phy_interface_state_e.PHY_INTERFACE_DOWN ch s
        = some (0, s2) ∧
      s2.d.rf_flags = 0 ∧
      (s.d.rf_flags &&& RFF_ON ≠ 0 →
        s2.p.SLP_TR = 1 ∧
        (E.TRX_STATUS < 64 ∧ E.TRX_STATE < 64 ∧ E.ANT_DIV < 64 ∧ E.ANT_DIV ≠ E.TRX_STATE →
          last_write E.TRX_STATE s2.trace = some TRX_OFF)) ∧
      (s.d.rf_flags &&& RFF_ON = 0 →
        s2.mosi = s.mosi ∧ s2.trace = (s.p.lock_depth, Event.flags 0) :: s.trace) := by
  refine ⟨rf_off E s, rfl, ?_, fun hon => ⟨?_, fun hr => ?_⟩, fun hoff => ?_⟩
  · by_cases hon : s.d.rf_flags &&& RFF_ON = 0
    · rw [rf_off_powered_off E s hon]; rfl
    · rw [(rf_off_powered_on E s hon).1]
  · rw [(rf_off_powered_on E s hon).2.1]
  · exact rf_off_last_state E s hon hr.1 hr.2.1 hr.2.2.1 hr.2.2.2
  · rw [rf_off_powered_off E s hoff]
    exact ⟨rfl, rfl⟩

/-- C16 at the receiving driver with the transceiver `env_chip`. -/
theorem C16_interface_down_witness :
    ∃ s2, rf_interface_state_control env_chip 1 phy_interface_state_e.PHY_INTERFACE_DOWN 11
        st_receiving = some (0, s2) ∧
      s2.d.rf_flags = 0 ∧ s2.p.SLP_TR = 1 ∧
      last_write env_chip.TRX_STATE s2.trace = some TRX_OFF :=
  (C16_interface_down env_chip 1 11 st_receiving).imp
    (fun _ h => ⟨h.1, h.2.1, (h.2.2.1 (by decide)).1,
      (h.2.2.1 (by decide)).2 (by decide)⟩)

/-- C17, counterexample. With the radio powered off (RFF_ON clear) and a
transmit request accepted (`rf_start_cca` returned 0 and armed the
CCA-backoff timer), `rf_interface_state_control(PHY_INTERFACE_DOWN)` leaves
the CCA-backoff timer armed. -/
theorem C17_cca_timer_left_armed :
    (rf_start_cca env_chip 0 frame_no_ack 20 7 (rf_off env_chip st_receiving)).1 = 0 ∧
    st_cca_pending_off.p.cca_timer ≠ none ∧
    ∃ s2, rf_interface_state_control env_chip 1 phy_interface_state_e.PHY_INTERFACE_DOWN 11
        st_cca_pending_off = some (0, s2) ∧
      s2.p.cca_timer ≠ none :=
  ⟨by decide, by decide, rf_off env_chip st_cca_pending_off, rfl, by decide⟩

/-- C17, amended. For every driver state with RFF_ON set,
`rf_interface_state_control(PHY_INTERFACE_DOWN, ch)` leaves the CCA-backoff
timer disarmed and RFF_CCA and RFF_PROT clear, and invokes no tx-done
callback; a CCA-done interrupt arriving afterwards does nothing, so no
completion is reported for the aborted attempt. -/
theorem C17_down_aborts_cca (E : Env) (fuel ch : Nat) (s : State)
    (hon : s.d.rf_flags &&& RFF_ON ≠ 0) :
    ∃ s2, rf_interface_state_control E fuel phy_interface_state_e.PHY_INTERFACE_DOWN ch s
        = some (0, s2) ∧
      s2.p.cca_timer = none ∧
      s2.d.rf_flags &&& RFF_CCA = 0 ∧ s2.d.rf_flags &&& RFF_PROT = 0 ∧
      tx_done_calls s2.trace = tx_done_calls s.trace ∧
      rf_handle_cca_ed_done E s2 = s2 := by
  obtain ⟨hd, hp, ho⟩ := rf_off_powered_on E s hon
  have hf : (rf_off E s).d.rf_flags = 0 := by rw [hd]
  refine ⟨rf_off E s, rfl, by rw [hp], by rw [hf]; exact Nat.zero_and _,
    by rw [hf]; exact Nat.zero_and _, ?_, ?_⟩
  · rw [tx_done_calls, ho]
    rfl
  · unfold rf_handle_cca_ed_done
    rw [if_pos (by rw [rf_flags_check_def, hf]; exact Nat.zero_and _)]

/-- C17 amended, at the receiving driver with the transceiver `env_chip`. -/
theorem C17_down_aborts_cca_witness :
    st_receiving.d.rf_flags &&& RFF_ON ≠ 0 ∧
    ∃ s2, rf_interface_state_control env_chip 1 phy_interface_state_e.PHY_INTERFACE_DOWN 11
        st_receiving = some (0, s2) ∧
      s2.p.cca_timer = none ∧
      s2.d.rf_flags &&& RFF_CCA = 0 ∧ s2.d.rf_flags &&& RFF_PROT = 0 ∧
      tx_done_calls s2.trace = tx_done_calls st_receiving.trace ∧
      rf_handle_cca_ed_done env_chip s2 = s2 :=
  ⟨by decide, C17_down_aborts_cca env_chip 1 11 st_receiving (by decide)⟩

/-! ## C12: address filters written while the transceiver sleeps -/

@[simp] theorem rf_if_write_ieee_addr_loop_d (E : Env) (a : Nat → Nat) (n i : Nat) (s : State) :
    (rf_if_write_ieee_addr_loop E a n i s).d = s.d := by
  induction n generalizing i s with
  | zero => rfl
  | succ n ih => rw [rf_if_write_ieee_addr_loop, ih]; rfl

@[simp] theorem rf_if_write_ieee_addr_loop_p (E : Env) (a : Nat → Nat) (n i : Nat) (s : State) :
    (rf_if_write_ieee_addr_loop E a n i s).p = s.p := by
  induction n generalizing i s with
  | zero => rfl
  | succ n ih => rw [rf_if_write_ieee_addr_loop, ih]; rfl

/-- The loop of `rf_if_write_ieee_addr_registers` leaves the registers below
its counter alone. -/
theorem last_write_ieee_loop_below (E : Env) (a : Nat → Nat) (n i j : Nat) (s : State)
    (hj : j < i) (hi : E.IEEE_ADDR_0 + i + n ≤ 64) :
    last_write (E.IEEE_ADDR_0 + j) (rf_if_write_ieee_addr_loop E a n i s).trace =
      last_write (E.IEEE_ADDR_0 + j) s.trace := by
  induction n generalizing i s with
  | zero => rfl
  | succ n ih =>
    rw [rf_if_write_ieee_addr_loop, ih (i + 1) _ (by omega) (by omega), last_write_write,
      if_neg]
    have h1 : u8 (E.IEEE_ADDR_0 + i) = E.IEEE_ADDR_0 + i := by rw [u8]; omega
    rw [h1]
    exact write_cmd_ne _ _ (by omega) (by omega) (by omega)

/-- The loop of `rf_if_write_ieee_addr_registers` leaves byte `7 - j` of the
address in register `IEEE_ADDR_0 + j`, for every `j` it runs through. -/
theorem last_write_ieee_loop (E : Env) (a : Nat → Nat) (n i j : Nat) (s : State)
    (hij : i ≤ j) (hjn : j < i + n) (hi : E.IEEE_ADDR_0 + i + n ≤ 64) :
    last_write (E.IEEE_ADDR_0 + j) (rf_if_write_ieee_addr_loop E a n i s).trace =
      some (u8 (a (7 - j))) := by
  induction n generalizing i s with
  | zero => omega
  | succ n ih =>
    rw [rf_if_write_ieee_addr_loop]
    by_cases h : j = i
    · subst h
      rw [last_write_ieee_loop_below E a n (j + 1) j _ (by omega) (by omega), last_write_write,
        if_pos]
      have h1 : u8 (E.IEEE_ADDR_0 + j) = E.IEEE_ADDR_0 + j := by rw [u8]; omega
      rw [h1]
    · exact ih (i + 1) _ (by omega) (by omega) (by omega)

/-- The three address setters on a sleeping driver: wake, write, sleep. -/
theorem rf_set_filter_sleeping (E : Env) (write : State → State) (s : State)
    (hoff : s.d.rf_flags &&& RFF_ON = 0) (hw : ∀ x, (write x).d = x.d) :
    rf_set_filter E write s =
      rf_if_unlock (rf_if_enable_slptr (write
        (rf_poll_trx_state_change E TRX_OFF (rf_if_disable_slptr (rf_if_lock s))))) := by
  have h1 : rf_flags_check RFF_ON (rf_if_lock s) = 0 := by simpa using hoff
  have h2 : rf_flags_check RFF_ON (write
      (rf_poll_trx_state_change E TRX_OFF (rf_if_disable_slptr (rf_if_lock s)))) = 0 := by
    simpa [hw] using hoff
  unfold rf_set_filter
  simp only
  rw [if_pos h1, if_pos h2]

/-- What every address setter leaves alone on a sleeping driver. -/
theorem rf_set_filter_frame (E : Env) (write : State → State) (s : State)
    (hoff : s.d.rf_flags &&& RFF_ON = 0) (hw : ∀ x, (write x).d = x.d)
    (hwp : ∀ x, (write x).p = x.p) :
    (rf_set_filter E write s).d = s.d ∧
    (rf_set_filter E write s).p = { s.p with SLP_TR := 1 } ∧
    ∀ addr, last_write addr (rf_set_filter E write s).trace =
      last_write addr (write
        (rf_poll_trx_state_change E TRX_OFF (rf_if_disable_slptr (rf_if_lock s)))).trace := by
  rw [rf_set_filter_sleeping E write s hoff hw]
  refine ⟨by simp [hw], ?_, fun addr => ?_⟩
  · simp only [rf_if_unlock_p, rf_if_enable_slptr_p, hwp, rf_poll_trx_state_change_p,
      rf_if_disable_slptr_p, rf_if_lock_p]
    cases s.p
    simp
  · rw [rf_if_unlock_trace]
    exact last_write_log addr _ _ (by simp)

/-- C12. Let the driver sleep (RFF_ON clear, SLP_TR = 1). For every address
kind, `rf_address_write` returns 0 and leaves every driver variable (so
`rf_flags`), the lock depth and the timers as they were, with SLP_TR = 1
again. For six-bit, pairwise different register addresses the filter
registers then hold the bytes written: SHORT_ADDR_1 = a[0] and
SHORT_ADDR_0 = a[1] for PHY_MAC_16BIT, PAN_ID_1 = a[0] and PAN_ID_0 = a[1]
for PHY_MAC_PANID, and IEEE_ADDR_0 + i = a[7 - i] for i = 0..7 for
PHY_MAC_64BIT (bytes taken as `uint8_t`). -/
theorem C12_address_write_sleeping (E : Env) (a : Nat → Nat) (s : State)
    (hoff : s.d.rf_flags &&& RFF_ON = 0) (hslp : s.p.SLP_TR = 1) :
    (∀ kind, (rf_address_write E kind a s).1 = 0 ∧
      (rf_address_write E kind a s).2.d = s.d ∧
      (rf_address_write E kind a s).2.p = s.p) ∧
    (E.SHORT_ADDR_0 < 64 ∧ E.SHORT_ADDR_1 < 64 ∧ E.SHORT_ADDR_1 ≠ E.SHORT_ADDR_0 →
      last_write E.SHORT_ADDR_1
          (rf_address_write E phy_address_type_e.PHY_MAC_16BIT a s).2.trace = some (u8 (a 0)) ∧
      last_write E.SHORT_ADDR_0
          (rf_address_write E phy_address_type_e.PHY_MAC_16BIT a s).2.trace = some (u8 (a 1))) ∧
    (E.PAN_ID_0 < 64 ∧ E.PAN_ID_1 < 64 ∧ E.PAN_ID_1 ≠ E.PAN_ID_0 →
      last_write E.PAN_ID_1
          (rf_address_write E phy_address_type_e.PHY_MAC_PANID a s).2.trace = some (u8 (a 0)) ∧
      last_write E.PAN_ID_0
          (rf_address_write E phy_address_type_e.PHY_MAC_PANID a s).2.trace = some (u8 (a 1))) ∧
    (E.IEEE_ADDR_0 + 8 ≤ 64 → ∀ i, i < 8 →
      last_write (E.IEEE_ADDR_0 + i)
          (rf_address_write E phy_address_type_e.PHY_MAC_64BIT a s).2.trace =
        some (u8 (a (7 - i)))) := by
  have hp1 : ({ s.p with SLP_TR := 1 } : Platform) = s.p := by
    cases hs : s.p
    rw [hs] at hslp
    simp only at hslp
    simp [hslp]
  have h64 := rf_set_filter_frame E (rf_if_write_ieee_addr_registers E a) s hoff
    (fun x => by simp [rf_if_write_ieee_addr_registers])
    (fun x => by simp [rf_if_write_ieee_addr_registers])
  have h16 := rf_set_filter_frame E (rf_if_write_short_addr_registers E a) s hoff
    (fun x => rfl) (fun x => rfl)
  have hpan := rf_set_filter_frame E (rf_if_write_pan_id_registers E a) s hoff
    (fun x => rfl) (fun x => rfl)
  refine ⟨fun kind => ?_, fun hr => ?_, fun hr => ?_, fun hr i hi => ?_⟩
  · cases kind
    · exact ⟨rfl, rfl, rfl⟩
    · exact ⟨rfl, h64.1, by rw [← hp1]; exact h64.2.1⟩
    · exact ⟨rfl, h16.1, by rw [← hp1]; exact h16.2.1⟩
    · exact ⟨rfl, hpan.1, by rw [← hp1]; exact hpan.2.1⟩
  · constructor
    · show last_write _ (rf_set_filter E (rf_if_write_short_addr_registers E a) s).trace = _
      rw [h16.2.2, rf_if_write_short_addr_registers, last_write_write,
        if_neg (write_cmd_ne _ _ hr.1 hr.2.1 (Ne.symm hr.2.2)), last_write_write, if_pos rfl]
    · show last_write _ (rf_set_filter E (rf_if_write_short_addr_registers E a) s).trace = _
      rw [h16.2.2, rf_if_write_short_addr_registers, last_write_write, if_pos rfl]
  · constructor
    · show last_write _ (rf_set_filter E (rf_if_write_pan_id_registers E a) s).trace = _
      rw [hpan.2.2, rf_if_write_pan_id_registers, last_write_write,
        if_neg (write_cmd_ne _ _ hr.1 hr.2.1 (Ne.symm hr.2.2)), last_write_write, if_pos rfl]
    · show last_write _ (rf_set_filter E (rf_if_write_pan_id_registers E a) s).trace = _
      rw [hpan.2.2, rf_if_write_pan_id_registers, last_write_write, if_pos rfl]
  · show last_write _ (rf_set_filter E (rf_if_write_ieee_addr_registers E a) s).trace = _
    rw [h64.2.2, rf_if_write_ieee_addr_registers]
    exact last_write_ieee_loop E a 8 0 i _ (Nat.zero_le _) (by omega) (by omega)

/-- C12 at the sleeping driver, the register map `at86rf` and the address
bytes `0x10, 0x11, ...`. -/
theorem C12_address_write_sleeping_witness :
    (∀ kind, (rf_address_write env_chip kind addr_example st_sleeping).1 = 0 ∧
      (rf_address_write env_chip kind addr_example st_sleeping).2.d = st_sleeping.d ∧
      (rf_address_write env_chip kind addr_example st_sleeping).2.p = st_sleeping.p) ∧
    last_write env_chip.SHORT_ADDR_1
      (rf_address_write env_chip phy_address_type_e.PHY_MAC_16BIT addr_example
        st_sleeping).2.trace = some 0x10 ∧
    last_write env_chip.PAN_ID_0
      (rf_address_write env_chip phy_address_type_e.PHY_MAC_PANID addr_example
        st_sleeping).2.trace = some 0x11 ∧
    last_write (env_chip.IEEE_ADDR_0 + 7)
      (rf_address_write env_chip phy_address_type_e.PHY_MAC_64BIT addr_example
        st_sleeping).2.trace = some 0x10 :=
  ⟨(C12_address_write_sleeping env_chip addr_example st_sleeping (by decide) (by decide)).1,
   ((C12_address_write_sleeping env_chip addr_example st_sleeping (by decide)
      (by decide)).2.1 (by decide)).1,
   ((C12_address_write_sleeping env_chip addr_example st_sleeping (by decide)
      (by decide)).2.2.1 (by decide)).2,
   (C12_address_write_sleeping env_chip addr_example st_sleeping (by decide)
      (by decide)).2.2.2 (by decide) 7 (by decide)⟩

/-! ## C18: `PHY_INTERFACE_UP` after sniffer mode -/

/-- C18, evaluated at the state reached from the receiving driver by
`rf_interface_state_control(PHY_INTERFACE_SNIFFER_STATE, 11)`: the call
`rf_interface_state_control(PHY_INTERFACE_UP, 11)` returns 0 with
`rf_mode = RF_MODE_NORMAL`, channel 11 and RFF_ON and RFF_RX set, but the
last receive state commanded is RX_ON, not RX_AACK_ON: the receiving flag
was still set, so `rf_receive` did nothing. -/
theorem C18_up_after_sniffer :
    st_sniffer.d.rf_mode = rf_mode_t.RF_MODE_SNIFFER ∧
    st_sniffer.d.rf_flags &&& RFF_RX ≠ 0 ∧
    rf_interface_state_control env_chip 1 phy_interface_state_e.PHY_INTERFACE_UP 11 st_sniffer
      = some (0, st_up_after_sniffer) ∧
    st_up_after_sniffer.d.rf_mode = rf_mode_t.RF_MODE_NORMAL ∧
    st_up_after_sniffer.d.rf_phy_channel = 11 ∧
    st_up_after_sniffer.d.rf_flags &&& RFF_ON ≠ 0 ∧
    st_up_after_sniffer.d.rf_flags &&& RFF_RX ≠ 0 ∧
    last_write env_chip.TRX_STATE st_up_after_sniffer.trace = some RX_ON := by
  decide

/-! ## C21: accesses outside the lock -/

/-- C21, evaluated at the receiving driver with the lock released:
`rf_interface_state_control(PHY_INTERFACE_RX_ENERGY_STATE, 11)` returns 0
after bus exchanges made at lock depth 0 (the read of IRQ_STATUS, the update
of IRQ_MASK and the write of PHY_ED_LEVEL), and
`rf_interface_state_control(PHY_INTERFACE_DOWN, 11)` changes `rf_flags` at
lock depth 0. -/
theorem C21_unlocked_accesses :
    st_receiving.p.lock_depth = 0 ∧ unlocked_accesses st_receiving.trace = [] ∧
    rf_interface_state_control env_chip 1
      phy_interface_state_e.PHY_INTERFACE_RX_ENERGY_STATE 11 st_receiving = some (0, st_energy) ∧
    (unlocked_accesses st_energy.trace).length = 8 ∧
    unlocked_accesses (rf_off env_chip st_receiving).trace = [(0, Event.flags 0)] := by
  decide

/-! ## C22: waits without an iteration ceiling -/

theorem rf_if_calibration_wait_stuck (fuel : Nat) (s : State) :
    rf_if_calibration_wait (env_const 0xFF) fuel s = none := by
  induction fuel generalizing s with
  | zero => rfl
  | succ n ih =>
    have h : (rf_if_read_register (env_const 0xFF) (env_const 0xFF).FTN_CTRL s).1 &&&
        (env_const 0xFF).FTN_START ≠ 0 := by
      show (255 : Nat) &&& 0x80 ≠ 0
      decide
    rw [rf_if_calibration_wait, if_pos h]
    exact ih _

theorem rf_ed_wait_stuck (fuel : Nat) (s : State) :
    rf_ed_wait (env_const 0) fuel s = none := by
  induction fuel generalizing s with
  | zero => rfl
  | succ n ih =>
    have h : (rf_if_read_register (env_const 0) (env_const 0).IRQ_STATUS s).1 &&&
        (env_const 0).CCA_ED_DONE = 0 := by
      show (0 : Nat) &&& 0x10 = 0
      decide
    rw [rf_ed_wait, if_pos h]
    exact ih _

/-- C22, evaluated at a transceiver that keeps FTN_START set (it answers
every exchange with 0xFF) and at one that never sets CCA_ED_DONE (it answers
every exchange with 0): the tuning-complete wait of `rf_if_calibration`, and
with it `rf_receive` on an untuned driver, and the energy-detect-done wait of
`rf_extension(PHY_EXTENSION_READ_CHANNEL_ENERGY)` do not return, however many
register reads are allowed. -/
theorem C22_unbounded_waits (fuel : Nat) (s : State) (data : Nat) :
    rf_if_calibration (env_const 0xFF) fuel s = none ∧
    rf_receive (env_const 0xFF) fuel st_untuned = none ∧
    rf_extension (env_const 0) fuel
      phy_extension_type_e.PHY_EXTENSION_READ_CHANNEL_ENERGY data s = none := by
  refine ⟨rf_if_calibration_wait_stuck fuel _, ?_, ?_⟩
  · rw [rf_receive_run _ _ _ (by decide) (by decide), rf_receive_body]
    simp only
    rw [if_pos (by simp [rf_receive_rx_state_d]; rfl)]
    simp only [rf_if_calibration, rf_if_calibration_wait_stuck, Option.map_none']
  · simp only [rf_extension, rf_ed_wait_stuck, Option.map_none']

/-! ## C26: frame-buffer protection when RX_AACK_ON is commanded -/

/-- C26, counterexample. From the receiving driver, the operations
`rf_interface_state_control(PHY_INTERFACE_DOWN)`, an accepted `rf_start_cca`
and `rf_cca_timer_interrupt` command RX_AACK_ON once, inside the
`rf_receive` of the timer handler, at a moment when RFF_PROT is set. -/
theorem C26_aack_on_with_protection :
    run env_chip 1 ops_cca_while_down st_receiving = some st_cca_started_down ∧
    flags_at_aack_on env_chip st_receiving.d.rf_flags st_cca_started_down.trace = [0x11] ∧
    0x11 &&& RFF_PROT ≠ 0 := by
  decide

theorem rf_receive_body_tail (E : Env) (fuel : Nat) (s : State) :
    rf_receive_body E fuel s =
      rf_receive_tail E fuel (rf_receive_rx_state E
        (rf_if_change_trx_state E PLL_ON (rf_busy_wait E 0xffff (rf_if_lock s)))) := rfl

/-- C26, amended. `rf_receive` never changes RFF_PROT. Entered in normal
mode with the receiving flag clear, it commands RX_AACK_ON in a state `x`
in which RFF_PROT is as it was on entry, and RFF_PROT is still the same when
it returns; so RX_AACK_ON is commanded with RFF_PROT clear exactly when
`rf_receive` is entered with RFF_PROT clear. -/
theorem C26_aack_on_keeps_protection (E : Env) (fuel : Nat) (s : State)
    (hrx : s.d.rf_flags &&& RFF_RX = 0)
    (hmode : ¬ (s.d.rf_mode = rf_mode_t.RF_MODE_SNIFFER ∨ s.d.rf_mode = rf_mode_t.RF_MODE_ED)) :
    (∃ x, rf_receive E fuel s =
        rf_receive_tail E fuel (rf_if_change_trx_state E RX_AACK_ON x) ∧
      x.d.rf_flags &&& RFF_PROT = s.d.rf_flags &&& RFF_PROT) ∧
    ∀ s2, rf_receive E fuel s = some s2 →
      s2.d.rf_flags &&& RFF_PROT = s.d.rf_flags &&& RFF_PROT := by
  have h0 : (if rf_flags_check RFF_ON s = 0 then rf_on E s else s).d.rf_flags &&& RFF_PROT =
      s.d.rf_flags &&& RFF_PROT ∧
      (if rf_flags_check RFF_ON s = 0 then rf_on E s else s).d.rf_mode = s.d.rf_mode := by
    split
    · rename_i hon
      rw [rf_flags_check_def] at hon
      simp only [rf_on_d, hon, if_true]
      exact ⟨flag_set_other _ _ _ (by decide) (by decide), trivial⟩
    · exact ⟨rfl, rfl⟩
  rw [rf_receive_rx_clear E fuel s hrx]
  generalize (if rf_flags_check RFF_ON s = 0 then rf_on E s else s) = s0 at h0
  obtain ⟨hf, hm⟩ := h0
  constructor
  · rw [rf_receive_body_tail, rf_receive_rx_state]
    have hm2 : ¬ ((rf_if_change_trx_state E PLL_ON
        (rf_busy_wait E 0xffff (rf_if_lock s0))).d.rf_mode = rf_mode_t.RF_MODE_SNIFFER ∨
        (rf_if_change_trx_state E PLL_ON
        (rf_busy_wait E 0xffff (rf_if_lock s0))).d.rf_mode = rf_mode_t.RF_MODE_ED) := by
      simpa [hm] using hmode
    rw [if_neg hm2]
    refine ⟨_, rfl, ?_⟩
    split
    · simpa [rf_if_enable_promiscuous_mode] using hf
    · simpa [rf_if_disable_promiscuous_mode] using hf
  · intro s2 h
    rw [(rf_receive_body_spec E fuel s0 s2 h).1]
    simp only
    rw [flag_set_other _ _ _ (by decide) (by decide)]
    exact hf

/-- C26 amended, at the powered-off driver with protection asserted, as
`rf_cca_timer_interrupt` calls `rf_receive` after a transmit request made
while the interface is down. -/
theorem C26_aack_on_keeps_protection_witness :
    ∃ x, rf_receive env_chip 1
        (rf_enable_static_frame_buffer_protection env_chip st_cca_pending_off) =
        rf_receive_tail env_chip 1 (rf_if_change_trx_state env_chip RX_AACK_ON x) ∧
      x.d.rf_flags &&& RFF_PROT =
        (rf_enable_static_frame_buffer_protection env_chip st_cca_pending_off).d.rf_flags
          &&& RFF_PROT :=
  (C26_aack_on_keeps_protection env_chip 1
    (rf_enable_static_frame_buffer_protection env_chip st_cca_pending_off)
    (by decide) (by decide)).1

/-! ## C24, C25: the CCA-backoff timer handler -/

/-- `rf_receive` never changes RFF_PROT. -/
theorem rf_receive_prot (E : Env) (fuel : Nat) (s s2 : State)
    (h : rf_receive E fuel s = some s2) :
    s2.d.rf_flags &&& RFF_PROT = s.d.rf_flags &&& RFF_PROT := by
  have h0 : (if rf_flags_check RFF_ON s = 0 then rf_on E s else s).d.rf_flags &&& RFF_PROT =
      s.d.rf_flags &&& RFF_PROT := by
    split
    · rename_i hon
      rw [rf_flags_check_def] at hon
      simp only [rf_on_d, hon, if_true]
      exact flag_set_other _ _ _ (by decide) (by decide)
    · rfl
  unfold rf_receive at h
  simp only at h
  generalize (if rf_flags_check RFF_ON s = 0 then rf_on E s else s) = s0 at h h0
  split at h
  · rw [(rf_receive_body_spec E fuel s0 s2 h).1]
    simp only
    rw [flag_set_other _ _ _ (by decide) (by decide)]
    exact h0
  · cases h
    exact h0

/-- The bytes `rf_if_write_frame_bytes` sends: `n` bytes of `ptr` from index
`i` on, in order (the bus history is newest first). -/
theorem rf_if_write_frame_bytes_mosi (E : Env) (ptr : List Nat) (n i : Nat) (s : State) :
    (rf_if_write_frame_bytes E ptr n i s).mosi =
      ((List.range n).map (fun k => u8 (ptr.getD (i + k) 0))).reverse ++ s.mosi := by
  induction n generalizing i s with
  | zero => rfl
  | succ n ih =>
    rw [rf_if_write_frame_bytes, ih, List.range_succ_eq_map]
    simp only [List.map_cons, List.map_map, List.reverse_cons, List.append_assoc,
      List.singleton_append, Nat.add_zero]
    congr 2
    · apply List.map_congr_left
      intro k _
      simp only [Function.comp, Nat.succ_eq_add_one]
      rw [Nat.add_assoc, Nat.add_comm 1 k]

/-- The bytes `rf_if_write_frame_buffer` sends for a length of at most 125:
the command 0x60, the length plus 2, and the frame bytes in order. -/
theorem rf_if_write_frame_buffer_mosi (E : Env) (ptr : List Nat) (n : Nat) (s : State)
    (hn : n ≤ 125) :
    (rf_if_write_frame_buffer E ptr n s).mosi =
      ((List.range n).map (fun k => u8 (ptr.getD k 0))).reverse ++ (n + 2) :: 0x60 :: s.mosi := by
  have h1 : u8 n = n := by rw [u8]; omega
  have h2 : u8 (n + 2) = n + 2 := by rw [u8]; omega
  unfold rf_if_write_frame_buffer
  show (rf_if_write_frame_bytes E ptr (u8 n) 0 _).mosi = _
  rw [rf_if_write_frame_bytes_mosi, h1]
  simp only [Nat.zero_add]
  show _ ++ u8 (n + 2) :: u8 0x60 :: s.mosi = _
  rw [h2]
  rfl

/-- The state in which `rf_cca_timer_interrupt` decides between its two
paths has RFF_PROT set. -/
theorem rf_cca_timer_prot_set (E : Env) (s : State) :
    (rf_if_read_trx_state E (rf_enable_static_frame_buffer_protection E s)).2.d.rf_flags
      &&& RFF_PROT ≠ 0 := by
  rw [rf_if_read_trx_state_d, rf_enable_static_frame_buffer_protection_d]
  exact prot_enable_same _

/-- C24. When `rf_cca_timer_interrupt` runs with a tx-done callback
registered and the transceiver state read is BUSY_RX_AACK, it returns after
exactly these bus exchanges: the write `RX_SYN := RX_PDT_DIS` (only when
RFF_PROT was clear on entry), the read of TRX_STATUS and the write
`RX_SYN := 0`; so the frame buffer is not written and no CCA measurement is
triggered. The tx-done callback is invoked once, with
(rf_radio_driver_id, mac_tx_handle, PHY_LINK_CCA_FAIL, 0, 0), and there is no
other timer or callback event. RFF_CCA is as on entry, RFF_PROT is clear on
return, and nothing but `rf_flags` changes in the driver variables and the
platform. -/
theorem C24_cca_timer_busy (E : Env) (fuel : Nat) (s : State)
    (hcb : s.d.phy_tx_done_cb = true)
    (hst : (rf_if_read_trx_state E (rf_enable_static_frame_buffer_protection E s)).1
      = BUSY_RX_AACK) :
    ∃ s2, rf_cca_timer_interrupt E fuel s = some s2 ∧
      s2.mosi = u8 0 :: u8 (0xC0 ||| E.RX_SYN) :: u8 0 :: u8 (0x80 ||| E.TRX_STATUS) ::
        ((if s.d.rf_flags &&& RFF_PROT = 0 then [u8 E.RX_PDT_DIS, u8 (0xC0 ||| E.RX_SYN)]
          else []) ++ s.mosi) ∧
      obs s2.trace =
        Event.tx_done s.d.rf_radio_driver_id s.d.mac_tx_handle
          phy_link_tx_status_e.PHY_LINK_CCA_FAIL 0 0 :: obs s.trace ∧
      s2.d.rf_flags &&& RFF_CCA = s.d.rf_flags &&& RFF_CCA ∧
      s2.d.rf_flags &&& RFF_PROT = 0 ∧
      s2.d = { s.d with rf_flags := s2.d.rf_flags } ∧ s2.p = s.p := by
  have hp := rf_cca_timer_prot_set E s
  unfold rf_cca_timer_interrupt
  simp only [if_pos hst]
  refine ⟨_, rfl, ?_, ?_, ?_, ?_, ?_, ?_⟩
  · rw [phy_tx_done_cb]
    have hcb2 : (rf_disable_static_frame_buffer_protection E
        (rf_if_read_trx_state E
          (rf_enable_static_frame_buffer_protection E s)).2).d.phy_tx_done_cb = true := by
      rw [rf_disable_static_frame_buffer_protection_d]
      simpa [rf_enable_static_frame_buffer_protection_d] using hcb
    rw [if_pos hcb2]
    unfold rf_disable_static_frame_buffer_protection
    rw [if_pos (by simpa using hp)]
    unfold rf_enable_static_frame_buffer_protection
    by_cases hc : s.d.rf_flags &&& RFF_PROT = 0
    · rw [if_pos (show rf_flags_check RFF_PROT s = 0 from hc), if_pos hc]
      rfl
    · rw [if_neg (show ¬ rf_flags_check RFF_PROT s = 0 from hc), if_neg hc]
      rfl
  · rw [phy_tx_done_cb_obs]
    simp [rf_disable_static_frame_buffer_protection_d,
      rf_enable_static_frame_buffer_protection_d, hcb]
  · simp only [phy_tx_done_cb_d, rf_disable_static_frame_buffer_protection_d,
      rf_if_read_trx_state_d, rf_enable_static_frame_buffer_protection_d]
    rw [prot_disable_other _ _ (by decide), prot_enable_other _ _ (by decide) (by decide)]
  · simp only [phy_tx_done_cb_d, rf_disable_static_frame_buffer_protection_d]
    exact prot_disable_same _
  · simp [rf_disable_static_frame_buffer_protection_d,
      rf_enable_static_frame_buffer_protection_d]
  · simp

/-- C24 at the receiving driver with a transceiver that reports
BUSY_RX_AACK (it answers every exchange with 0x11). -/
theorem C24_cca_timer_busy_witness :
    ∃ s2, rf_cca_timer_interrupt (env_const 0x11) 1 st_receiving = some s2 ∧
      s2.mosi = [0, 0xD5, 0, 0x81, 0x80, 0xD5] ∧
      obs s2.trace = [Event.tx_done 0 0 phy_link_tx_status_e.PHY_LINK_CCA_FAIL 0 0] ∧
      s2.d.rf_flags &&& RFF_PROT = 0 :=
  (C24_cca_timer_busy (env_const 0x11) 1 st_receiving (by decide) (by decide)).imp
    (fun _ h => ⟨h.1, h.2.1, h.2.2.1, h.2.2.2.2.1⟩)

/-- C25. Let the pending frame have length `L = rf_tx_length ≤ 125`, as
`rf_start_cca` accepts it, and let `rf_cca_timer_interrupt` read a
transceiver state other than BUSY_RX_AACK. In the state `s1` in which the
frame buffer is written RFF_PROT is set, and the last write to RX_SYN is
RX_PDT_DIS when the handler set the flag itself (for six-bit register
addresses; when the flag was set on entry RX_SYN is as it was). The write
sends the command 0x60, the length byte `L + 2` and the `L` frame bytes in
order. The handler then calls `rf_receive`, sets RFF_CCA and starts the CCA;
it returns whenever the receiver is tuned, and on every return RFF_CCA and
RFF_PROT are set. -/
theorem C25_cca_timer_start (E : Env) (fuel : Nat) (s : State)
    (hst : (rf_if_read_trx_state E (rf_enable_static_frame_buffer_protection E s)).1
      ≠ BUSY_RX_AACK)
    (hlen : s.d.rf_tx_length ≤ 125) :
    (rf_if_read_trx_state E (rf_enable_static_frame_buffer_protection E s)).2.d.rf_flags
      &&& RFF_PROT ≠ 0 ∧
    (E.TRX_STATUS < 64 ∧ E.RX_SYN < 64 →
      last_write E.RX_SYN
          (rf_if_read_trx_state E (rf_enable_static_frame_buffer_protection E s)).2.trace =
        if s.d.rf_flags &&& RFF_PROT = 0 then some (u8 E.RX_PDT_DIS)
        else last_write E.RX_SYN s.trace) ∧
    (rf_if_write_frame_buffer E s.d.rf_tx_data s.d.rf_tx_length
        (rf_if_read_trx_state E (rf_enable_static_frame_buffer_protection E s)).2).mosi =
      ((List.range s.d.rf_tx_length).map (fun k => u8 (s.d.rf_tx_data.getD k 0))).reverse ++
        (s.d.rf_tx_length + 2) :: 0x60 ::
        (rf_if_read_trx_state E (rf_enable_static_frame_buffer_protection E s)).2.mosi ∧
    rf_cca_timer_interrupt E fuel s =
      (rf_receive E fuel
        (rf_if_write_frame_buffer E s.d.rf_tx_data s.d.rf_tx_length
          (rf_if_read_trx_state E (rf_enable_static_frame_buffer_protection E s)).2)).map
        (fun s2 =>
          rf_if_start_cca_process E
            (rf_if_enable_cca_ed_done_interrupt E (rf_flags_set RFF_CCA s2))) ∧
    (s.d.rf_tuned ≠ 0 → ∃ s2, rf_cca_timer_interrupt E fuel s = some s2) ∧
    ∀ s2, rf_cca_timer_interrupt E fuel s = some s2 →
      s2.d.rf_flags &&& RFF_CCA ≠ 0 ∧ s2.d.rf_flags &&& RFF_PROT ≠ 0 := by
  have hp := rf_cca_timer_prot_set E s
  have hdata : (rf_if_read_trx_state E
      (rf_enable_static_frame_buffer_protection E s)).2.d.rf_tx_data = s.d.rf_tx_data := by
    simp [rf_enable_static_frame_buffer_protection_d]
  have hlength : (rf_if_read_trx_state E
      (rf_enable_static_frame_buffer_protection E s)).2.d.rf_tx_length = s.d.rf_tx_length := by
    simp [rf_enable_static_frame_buffer_protection_d]
  have heq : rf_cca_timer_interrupt E fuel s =
      (rf_receive E fuel
        (rf_if_write_frame_buffer E s.d.rf_tx_data s.d.rf_tx_length
          (rf_if_read_trx_state E (rf_enable_static_frame_buffer_protection E s)).2)).map
        (fun s2 =>
          rf_if_start_cca_process E
            (rf_if_enable_cca_ed_done_interrupt E (rf_flags_set RFF_CCA s2))) := by
    unfold rf_cca_timer_interrupt
    simp only [if_neg hst, hdata, hlength]
  refine ⟨hp, fun hr => ?_, rf_if_write_frame_buffer_mosi E _ _ _ hlen, heq, fun ht => ?_,
    fun s2 h => ?_⟩
  · rw [last_write_read_trx_state E _ _ hr.1 hr.2]
    unfold rf_enable_static_frame_buffer_protection
    by_cases hc : s.d.rf_flags &&& RFF_PROT = 0
    · rw [if_pos (by simpa using hc), if_pos hc]
      unfold rf_flags_set
      rw [last_write_log _ _ _ (by simp), last_write_write, if_pos rfl]
    · rw [if_neg (by simpa using hc), if_neg hc]
  · rw [heq]
    obtain ⟨s1, h1⟩ := rf_receive_tuned E fuel
      (rf_if_write_frame_buffer E s.d.rf_tx_data s.d.rf_tx_length
        (rf_if_read_trx_state E (rf_enable_static_frame_buffer_protection E s)).2)
      (by simpa [rf_enable_static_frame_buffer_protection_d] using ht)
    exact ⟨_, by rw [h1]; rfl⟩
  · rw [heq] at h
    simp only [Option.map_eq_some'] at h
    obtain ⟨s1, h1, rfl⟩ := h
    have hprot := rf_receive_prot E fuel _ s1 h1
    rw [rf_if_write_frame_buffer_d] at hprot
    simp only [rf_if_start_cca_process, rf_if_enable_cca_ed_done_interrupt, rf_if_set_bit_d,
      rf_flags_set_d]
    constructor
    · rw [flag_set_same _ _ (by decide)]
      decide
    · rw [flag_set_other _ _ _ (by decide) (by decide), hprot]
      exact hp

/-- C25 at the receiving driver with the 20-byte frame `frame_no_ack`
pending and the transceiver `env_chip`. -/
theorem C25_cca_timer_start_witness :
    (rf_if_write_frame_buffer env_chip
        (rf_start_cca env_chip 0 frame_no_ack 20 7 st_receiving).2.d.rf_tx_data
        (rf_start_cca env_chip 0 frame_no_ack 20 7 st_receiving).2.d.rf_tx_length
        (rf_if_read_trx_state env_chip
          (rf_enable_static_frame_buffer_protection env_chip
            (rf_start_cca env_chip 0 frame_no_ack 20 7 st_receiving).2)).2).mosi.take 22 =
      frame_no_ack.reverse ++ [22, 0x60] ∧
    ∃ s2, rf_cca_timer_interrupt env_chip 1
        (rf_start_cca env_chip 0 frame_no_ack 20 7 st_receiving).2 = some s2 ∧
      s2.d.rf_flags &&& RFF_CCA ≠ 0 ∧ s2.d.rf_flags &&& RFF_PROT ≠ 0 :=
  ⟨by
    rw [(C25_cca_timer_start env_chip 1 (rf_start_cca env_chip 0 frame_no_ack 20 7 st_receiving).2
      (by decide) (by decide)).2.2.1]
    decide,
   ((C25_cca_timer_start env_chip 1 (rf_start_cca env_chip 0 frame_no_ack 20 7 st_receiving).2
      (by decide) (by decide)).2.2.2.2.1 (by decide)).imp
    (fun s2 h => ⟨h,
      (C25_cca_timer_start env_chip 1 (rf_start_cca env_chip 0 frame_no_ack 20 7 st_receiving).2
        (by decide) (by decide)).2.2.2.2.2 s2 h⟩)⟩

/-! ## Frame lemmas: initialisation -/

@[simp] theorem rf_if_reset_radio_d (s : State) : (rf_if_reset_radio s).d = s.d := rfl

@[simp] theorem rf_if_reset_radio_p (s : State) :
    (rf_if_reset_radio s).p = { s.p with SLP_TR := 0, RST := 1, irq_handler := true } := rfl

@[simp] theorem rf_if_read_part_num_d (E : Env) (s : State) :
    (rf_if_read_part_num E s).2.d = s.d := rfl

@[simp] theorem rf_if_read_part_num_p (E : Env) (s : State) :
    (rf_if_read_part_num E s).2.p = s.p := rfl

/-- `rf_if_write_rf_settings` leaves `rf_tuned`, the pointer `rf` and the
lock depth alone. -/
theorem rf_if_write_rf_settings_keeps (E : Env) (s : State) :
    (rf_if_write_rf_settings E s).d.rf_tuned = s.d.rf_tuned ∧
    (rf_if_write_rf_settings E s).d.rf = s.d.rf ∧
    (rf_if_write_rf_settings E s).p.lock_depth = s.p.lock_depth := by
  unfold rf_if_write_rf_settings rf_if_write_rf_settings_212
  simp only
  refine ⟨?_, ?_, ?_⟩ <;> split <;> (try split) <;> simp

theorem rf_write_settings_keeps (E : Env) (s : State) :
    (rf_write_settings E s).d.rf_tuned = s.d.rf_tuned ∧
    (rf_write_settings E s).d.rf = s.d.rf ∧
    (rf_write_settings E s).p.lock_depth = s.p.lock_depth := by
  obtain ⟨h1, h2, h3⟩ := rf_if_write_rf_settings_keeps E (rf_if_lock s)
  unfold rf_write_settings
  simp only [rf_if_unlock_d, rf_if_unlock_p, rf_if_write_set_tx_power_register,
    rf_if_write_antenna_diversity_settings]
  refine ⟨?_, ?_, ?_⟩ <;> split <;> simp [h1, h2, h3]

theorem rf_init_phy_mode_select_keeps (E : Env) (part tmp : Nat) (s : State) :
    (rf_init_phy_mode_select E part tmp s).d.rf_tuned = s.d.rf_tuned ∧
    (rf_init_phy_mode_select E part tmp s).d.rf = s.d.rf ∧
    (rf_init_phy_mode_select E part tmp s).d.rf_flags = s.d.rf_flags ∧
    (rf_init_phy_mode_select E part tmp s).p = s.p := by
  unfold rf_init_phy_mode_select
  repeat'
    (refine ite_pred
      (fun st : State =>
        st.d.rf_tuned = s.d.rf_tuned ∧ st.d.rf = s.d.rf ∧ st.d.rf_flags = s.d.rf_flags ∧
          st.p = s.p) _ _ _ ?_ ?_)
  all_goals exact ⟨rfl, rfl, rfl, rfl⟩

theorem rf_init_phy_mode_keeps (E : Env) (s : State) :
    (rf_init_phy_mode E s).d.rf_tuned = s.d.rf_tuned ∧
    (rf_init_phy_mode E s).d.rf = s.d.rf ∧
    (rf_init_phy_mode E s).d.rf_flags = s.d.rf_flags ∧
    (rf_init_phy_mode E s).p = s.p := by
  unfold rf_init_phy_mode
  obtain ⟨h1, h2, h3, h4⟩ := rf_init_phy_mode_select_keeps E (rf_if_read_part_num E s).1
    (rf_if_read_register E E.TRX_CTRL_2 (rf_if_read_part_num E s).2).1
    (rf_if_read_register E E.TRX_CTRL_2 (rf_if_read_part_num E s).2).2
  exact ⟨h1, h2, h3, h4⟩

theorem rf_if_read_rnd_bits_frame (E : Env) (s : State) :
    (rf_if_read_rnd_bits E s).2.d = s.d ∧ (rf_if_read_rnd_bits E s).2.p = s.p ∧
    obs (rf_if_read_rnd_bits E s).2.trace = obs s.trace := by
  unfold rf_if_read_rnd_bits
  simp only [rf_if_read_register_d, rf_if_read_register_p, rf_if_read_register_obs, and_self]

theorem rf_if_read_rnd_frame (E : Env) (s : State) :
    (rf_if_read_rnd E s).2.d = s.d ∧ (rf_if_read_rnd E s).2.p = s.p ∧
    obs (rf_if_read_rnd E s).2.trace = obs s.trace := by
  unfold rf_if_read_rnd
  split
  · simp only [rf_if_write_register_d, rf_if_write_register_p, rf_if_write_register_obs,
      (rf_if_read_rnd_bits_frame E _).1, (rf_if_read_rnd_bits_frame E _).2.1,
      (rf_if_read_rnd_bits_frame E _).2.2, rf_if_read_register_d, rf_if_read_register_p,
      rf_if_read_register_obs, and_self]
  · exact rf_if_read_rnd_bits_frame E s

/-- `rf_init` leaves the pointer `rf` and the lock depth alone. -/
theorem rf_init_keeps (E : Env) (fuel : Nat) (s s2 : State) (h : rf_init E fuel s = some s2) :
    s2.d.rf = s.d.rf ∧ s2.p.lock_depth = s.p.lock_depth := by
  unfold rf_init at h
  simp only [Option.map_eq_some'] at h
  obtain ⟨s1, h1, rfl⟩ := h
  obtain ⟨hd, hp, -⟩ := rf_receive_frame E fuel _ _ h1
  obtain ⟨-, hr1, -, hp1⟩ := rf_init_phy_mode_keeps E
    (rf_write_settings E (rf_if_lock (rf_if_reset_radio s)))
  obtain ⟨-, hr2, hl2⟩ := rf_write_settings_keeps E (rf_if_lock (rf_if_reset_radio s))
  simp only [rf_if_change_trx_state_d, rf_if_change_trx_state_p, rf_flags_reset_d,
    rf_flags_reset_p] at hd hp
  simp only [rf_if_unlock_d, rf_if_unlock_p, rf_calibration_timer_start,
    rf_if_calibration_timer_start, log_d, log_p, (rf_if_read_rnd_frame E s1).1,
    (rf_if_read_rnd_frame E s1).2.1]
  constructor
  · rw [hd]
    simp only
    rw [hr1, hr2]
    rfl
  · rw [hp]
    simp only
    rw [hp1, hl2]
    simp

/-- `rf_init` returns whenever the receiver is tuned. -/
theorem rf_init_returns (E : Env) (fuel : Nat) (s : State) (ht : s.d.rf_tuned ≠ 0) :
    ∃ s2, rf_init E fuel s = some s2 := by
  unfold rf_init
  obtain ⟨hd1, -⟩ := rf_init_phy_mode_keeps E
    (rf_write_settings E (rf_if_lock (rf_if_reset_radio s)))
  obtain ⟨hd2, -⟩ := rf_write_settings_keeps E (rf_if_lock (rf_if_reset_radio s))
  obtain ⟨s1, h1⟩ := rf_receive_tuned E fuel
    (rf_if_change_trx_state E PLL_ON
      (rf_if_change_trx_state E TRX_OFF
        (rf_flags_reset
          (rf_init_phy_mode E
            (rf_write_settings E (rf_if_lock (rf_if_reset_radio s)))))))
    (by
      simp only [rf_if_change_trx_state_d, rf_flags_reset_d]
      rw [hd1, hd2]
      exact ht)
  exact ⟨_, by rw [h1]; rfl⟩

/-! ## C27: `rf_receive` on a receiving driver -/

/-- `rf_receive` returns with RFF_ON and RFF_RX set. -/
theorem rf_receive_on_rx (E : Env) (fuel : Nat) (s s2 : State)
    (h : rf_receive E fuel s = some s2) :
    s2.d.rf_flags &&& RFF_ON ≠ 0 ∧ s2.d.rf_flags &&& RFF_RX ≠ 0 := by
  refine ⟨?_, rf_receive_rx_set E fuel s s2 h⟩
  have h0 : (if rf_flags_check RFF_ON s = 0 then rf_on E s else s).d.rf_flags &&& RFF_ON ≠ 0 := by
    split
    · rename_i hon
      rw [rf_flags_check_def] at hon
      simp only [rf_on_d, hon, if_true]
      rw [flag_set_same _ _ (by decide)]
      decide
    · rename_i hon
      exact hon
  unfold rf_receive at h
  simp only at h
  generalize (if rf_flags_check RFF_ON s = 0 then rf_on E s else s) = s0 at h h0
  split at h
  · rw [(rf_receive_body_spec E fuel s0 s2 h).1]
    simp only
    rw [flag_set_other _ _ _ (by decide) (by decide)]
    exact h0
  · cases h
    exact h0

theorem rf_start_cca_flags (E : Env) (rnd : Nat) (data_ptr : List Nat)
    (data_length tx_handle : Nat) (s : State) :
    (rf_start_cca E rnd data_ptr data_length tx_handle s).2.d.rf_flags = s.d.rf_flags := by
  by_cases h : (rf_if_read_trx_state E s).1 = BUSY_RX_AACK ∨ data_length > 125
  · rw [(rf_start_cca_reject E rnd data_ptr data_length tx_handle s h).2.1]
  · rw [(rf_start_cca_accept E rnd data_ptr data_length tx_handle s h).1]

theorem rf_handle_ack_flags (seq_number data_pending : Nat) (s : State) :
    (rf_handle_ack seq_number data_pending s).d.rf_flags = s.d.rf_flags := by
  by_cases h : s.d.expected_ack_sequence = (seq_number : Int)
  · rw [(rf_handle_ack_match seq_number data_pending s h).1]
  · rw [rf_handle_ack_mismatch seq_number data_pending s h]

theorem rf_handle_rx_frame_flags (E : Env) (pk : Packet) (s : State) :
    (rf_handle_rx_frame E pk s).d.rf_flags = s.d.rf_flags := by
  unfold rf_handle_rx_frame
  split
  · rfl
  · split
    · exact rf_handle_ack_flags _ _ s
    · rw [phy_rx_cb_d]

theorem rf_if_read_packet_flags (E : Env) (s : State) :
    (rf_if_read_packet E s).2.d.rf_flags = s.d.rf_flags := by
  obtain ⟨⟨b, hd⟩, -, -⟩ := rf_if_read_packet_frame E s
  rw [hd]

/-- The bits RFF_ON and RFF_RX after `rf_start_tx`: either both as before,
or RFF_RX clear. -/
theorem rf_start_tx_on_rx (E : Env) (s : State) :
    ((rf_start_tx E s).d.rf_flags &&& RFF_ON = s.d.rf_flags &&& RFF_ON ∧
      (rf_start_tx E s).d.rf_flags &&& RFF_RX = s.d.rf_flags &&& RFF_RX) ∨
    (rf_start_tx E s).d.rf_flags &&& RFF_RX = 0 := by
  by_cases hst : (rf_if_read_trx_state E s).1 = RX_AACK_ON
  · right
    rw [(rf_start_tx_go E s hst).1]
    simp only
    rw [flag_set_other _ _ _ (by decide) (by decide),
      prot_disable_other _ _ (by decide)]
    exact flag_clear_same _ _ _ (by decide)
  · left
    rw [(rf_start_tx_fail E s hst).1]
    simp only
    exact ⟨prot_disable_other _ _ (by decide), prot_disable_other _ _ (by decide)⟩

/-- Every driver operation keeps the receiving flag within the powered-on
flag: if RFF_RX implies RFF_ON before, it does so afterwards. -/
theorem step_rx_implies_on (E : Env) (fuel : Nat) (op : Op) (s s2 : State)
    (h : step E fuel op s = some s2)
    (hinv : s.d.rf_flags &&& RFF_RX ≠ 0 → s.d.rf_flags &&& RFF_ON ≠ 0) :
    s2.d.rf_flags &&& RFF_RX ≠ 0 → s2.d.rf_flags &&& RFF_ON ≠ 0 := by
  cases op with
  | start_cca rnd data_ptr data_length tx_handle =>
    simp only [step, Option.some.injEq] at h
    subst h
    rw [rf_start_cca_flags]
    exact hinv
  | cca_timer =>
    simp only [step] at h
    unfold rf_cca_timer_interrupt at h
    simp only at h
    split at h
    · simp only [Option.some.injEq] at h
      subst h
      simp only [phy_tx_done_cb_d, rf_disable_static_frame_buffer_protection_d,
        rf_if_read_trx_state_d, rf_enable_static_frame_buffer_protection_d]
      rw [prot_disable_other _ _ (by decide), prot_disable_other _ _ (by decide),
        prot_enable_other _ _ (by decide) (by decide),
        prot_enable_other _ _ (by decide) (by decide)]
      exact hinv
    · simp only [Option.map_eq_some'] at h
      obtain ⟨s1, h1, rfl⟩ := h
      intro _
      simp only [rf_if_start_cca_process, rf_if_enable_cca_ed_done_interrupt, rf_if_set_bit_d,
        rf_flags_set_d]
      rw [flag_set_other _ _ _ (by decide) (by decide)]
      exact (rf_receive_on_rx E fuel _ s1 h1).1
  | cca_ed_done =>
    simp only [step, Option.some.injEq] at h
    subst h
    unfold rf_handle_cca_ed_done
    split
    · exact hinv
    · have hc : ∀ k, (255 ^^^ u8 RFF_CCA) &&& k = k →
          (rf_if_check_cca E (rf_flags_clear RFF_CCA s)).2.d.rf_flags &&& k =
            s.d.rf_flags &&& k := by
        intro k hk
        simp only [rf_if_check_cca_d, rf_flags_clear_d]
        exact flag_clear_other _ _ _ hk
      split
      · rcases rf_start_tx_on_rx E (rf_if_check_cca E (rf_flags_clear RFF_CCA s)).2 with h1 | h1
        · rw [h1.1, h1.2, hc _ (by decide), hc _ (by decide)]
          exact hinv
        · intro h2
          exact absurd h1 h2
      · simp only [phy_tx_done_cb_d, rf_disable_static_frame_buffer_protection_d]
        rw [prot_disable_other _ _ (by decide), prot_disable_other _ _ (by decide),
          hc _ (by decide), hc _ (by decide)]
        exact hinv
  | tx_end =>
    simp only [step] at h
    unfold rf_handle_tx_end at h
    simp only [Option.map_eq_some'] at h
    obtain ⟨s1, h1, rfl⟩ := h
    intro _
    rw [phy_tx_done_cb_d]
    exact (rf_receive_on_rx E fuel _ s1 h1).1
  | rx_end =>
    simp only [step] at h
    unfold rf_handle_rx_end at h
    simp only [Option.map_eq_some'] at h
    obtain ⟨s1, h1, rfl⟩ := h
    intro _
    split
    · exact (rf_receive_on_rx E fuel _ s1 h1).1
    · rw [rf_handle_rx_frame_flags, rf_if_read_packet_flags]
      exact (rf_receive_on_rx E fuel _ s1 h1).1
  | ack_timeout =>
    simp only [step] at h
    split at h
    · unfold rf_ack_wait_timer_interrupt at h
      simp only [Option.map_eq_some'] at h
      obtain ⟨s1, h1, rfl⟩ := h
      intro _
      rw [rf_if_unlock_d]
      exact (rf_receive_on_rx E fuel _ s1 h1).1
    · cases h
  | state_control new_state rf_channel =>
    simp only [step, Option.map_eq_some'] at h
    obtain ⟨r, hr, rfl⟩ := h
    cases new_state <;> simp only [rf_interface_state_control, Option.map_eq_some',
      Option.some.injEq] at hr
    · subst hr; exact hinv
    · subst hr
      intro h2
      have h0 : (rf_off E s).d.rf_flags = 0 := by
        unfold rf_off
        rfl
      have h3 : (rf_off E s).d.rf_flags &&& RFF_RX ≠ 0 := h2
      rw [h0] at h3
      exact absurd (Nat.zero_and _) h3
    · obtain ⟨s1, h1, rfl⟩ := hr
      intro _
      exact (rf_receive_on_rx E fuel _ s1 h1).1
    · obtain ⟨s1, h1, rfl⟩ := hr
      intro _
      simp only [rf_if_write_register_d, rf_if_enable_cca_ed_done_interrupt, rf_if_set_bit_d,
        rf_if_read_register_d, rf_if_disable_irq_d]
      exact (rf_receive_on_rx E fuel _ s1 h1).1
    · obtain ⟨s1, h1, rfl⟩ := hr
      intro _
      exact (rf_receive_on_rx E fuel _ s1 h1).1

/-- `rf_init` returns with RFF_ON and RFF_RX set. -/
theorem rf_init_on_rx (E : Env) (fuel : Nat) (s0 s : State) (h : rf_init E fuel s0 = some s) :
    s.d.rf_flags &&& RFF_ON ≠ 0 ∧ s.d.rf_flags &&& RFF_RX ≠ 0 := by
  unfold rf_init at h
  simp only [Option.map_eq_some'] at h
  obtain ⟨s1, h1, rfl⟩ := h
  have h2 := rf_receive_on_rx E fuel _ s1 h1
  simp only [rf_if_unlock_d, rf_calibration_timer_start, rf_if_calibration_timer_start, log_d,
    (rf_if_read_rnd_frame E s1).1]
  exact h2

theorem rf_ed_wait_d (E : Env) (fuel : Nat) (s s2 : State) (h : rf_ed_wait E fuel s = some s2) :
    s2.d = s.d := by
  induction fuel generalizing s with
  | zero => simp [rf_ed_wait] at h
  | succ n ih =>
    unfold rf_ed_wait at h
    split at h
    · rw [ih _ h]
      rfl
    · cases h
      rfl

/-- `rf_extension` never changes `rf_flags`. -/
theorem rf_extension_flags (E : Env) (fuel : Nat) (extension_type : phy_extension_type_e)
    (data : Nat) (s : State) (r : Int × Nat × State)
    (h : rf_extension E fuel extension_type data s = some r) :
    r.2.2.d.rf_flags = s.d.rf_flags := by
  cases extension_type <;> simp only [rf_extension, Option.some.injEq, Option.map_eq_some'] at h
  · subst h
    unfold rf_if_ack_pending_ctrl
    simp only [rf_if_unlock_d]
    split <;> rfl
  · subst h
    rfl
  · subst h
    rfl
  · obtain ⟨s1, h1, rfl⟩ := h
    simp only [rf_if_write_register_d, rf_if_read_register_d]
    rw [rf_ed_wait_d E fuel s s1 h1]
  · subst h
    rfl
  · subst h
    rfl
  · subst h
    rfl

/-- The address setters never change the driver variables. -/
theorem rf_set_filter_d (E : Env) (write : State → State) (s : State)
    (hw : ∀ x, (write x).d = x.d) : (rf_set_filter E write s).d = s.d := by
  unfold rf_set_filter
  simp only [rf_if_unlock_d]
  split <;> split <;> simp [hw]

theorem rf_address_write_d (E : Env) (address_type : phy_address_type_e)
    (address_ptr : Nat → Nat) (s : State) :
    (rf_address_write E address_type address_ptr s).2.d = s.d := by
  cases address_type
  · rfl
  · exact rf_set_filter_d E _ s (fun x => by simp [rf_if_write_ieee_addr_registers])
  · exact rf_set_filter_d E _ s (fun x => rfl)
  · exact rf_set_filter_d E _ s (fun x => rfl)

/-- After the calibration timer handler, `rf_flags` is as before or has
RFF_ON and RFF_RX set. -/
theorem rf_calibration_timer_interrupt_flags (E : Env) (fuel : Nat) (s s2 : State)
    (h : rf_calibration_timer_interrupt E fuel s = some s2) :
    s2.d.rf_flags = s.d.rf_flags ∨
      (s2.d.rf_flags &&& RFF_ON ≠ 0 ∧ s2.d.rf_flags &&& RFF_RX ≠ 0) := by
  unfold rf_calibration_timer_interrupt at h
  simp only [Option.map_eq_some'] at h
  obtain ⟨s1, h1, rfl⟩ := h
  unfold rf_calibration_cb at h1
  split at h1
  · simp only [Option.bind_eq_some, Option.map_eq_some'] at h1
    obtain ⟨s3, -, s4, h4, rfl⟩ := h1
    right
    exact rf_receive_on_rx E fuel _ s4 h4
  · cases h1
    left
    rfl

/-- In every state the started driver can be in, RFF_RX set implies RFF_ON
set. -/
theorem Started_rx_implies_on (E : Env) (s : State) (hs : Started E s) :
    s.d.rf_flags &&& RFF_RX ≠ 0 → s.d.rf_flags &&& RFF_ON ≠ 0 := by
  induction hs with
  | init s0 s fuel h => exact fun _ => (rf_init_on_rx E fuel s0 s h).1
  | step s s2 fuel op _ h ih => exact step_rx_implies_on E fuel op s s2 h ih
  | extension s fuel extension_type data r _ h ih =>
    rw [rf_extension_flags E fuel extension_type data s r h]
    exact ih
  | address_write s address_type address_ptr _ ih =>
    rw [rf_address_write_d]
    exact ih
  | calibration_timer s s2 fuel _ h ih =>
    rcases rf_calibration_timer_interrupt_flags E fuel s s2 h with h1 | h1
    · rw [h1]
      exact ih
    · exact fun _ => h1.1

theorem last_write_check_cca (E : Env) (addr : Nat) (s : State)
    (hst : E.TRX_STATUS < 64) (haddr : addr < 64) :
    last_write addr (rf_if_check_cca E s).2.trace = last_write addr s.trace :=
  last_write_read E addr E.TRX_STATUS s (read_cmd_ne_write_cmd _ _ hst haddr)

theorem last_write_disable_protection (E : Env) (addr : Nat) (s : State)
    (hsyn : E.RX_SYN < 64) (haddr : addr < 64) (hne : E.RX_SYN ≠ addr) :
    last_write addr (rf_disable_static_frame_buffer_protection E s).trace =
      last_write addr s.trace := by
  unfold rf_disable_static_frame_buffer_protection
  split
  · unfold rf_flags_clear
    rw [last_write_log _ _ _ (by simp), last_write_write,
      if_neg (write_cmd_ne _ _ hsyn haddr hne)]
  · rfl

/-- C28. Let a CCA be in progress (RFF_CCA set) and let the CCA-done
interrupt find the channel clear, so that `rf_handle_cca_ed_done` calls
`rf_start_tx` in the state `s1` reached after the status read. If the
transceiver state read by `rf_start_tx` is RX_AACK_ON, the handler commands
FORCE_PLL_ON, clears RFF_RX, releases protection, enables the frame-end
interrupt, sets RFF_TX and commands RF_TX_START (the last value written to
TRX_STATE), with no timer or callback event. Otherwise (so always in sniffer
mode, where the receiver is in RX_ON) nothing is written to TRX_STATE, RFF_RX
and RFF_TX are as before, and the tx-done callback (when one is registered)
is invoked once with PHY_LINK_CCA_FAIL and the stored handle. In both
outcomes RFF_CCA and RFF_PROT are clear on return. The statements about
TRX_STATE are for six-bit register addresses with RX_SYN other than
TRX_STATE. -/
theorem C28_clear_channel_outcomes (E : Env) (s : State)
    (hcca : s.d.rf_flags &&& RFF_CCA ≠ 0)
    (hclear : (rf_if_check_cca E (rf_flags_clear RFF_CCA s)).1 ≠ 0) :
    ((rf_if_read_trx_state E (rf_if_check_cca E (rf_flags_clear RFF_CCA s)).2).1 = RX_AACK_ON →
      rf_handle_cca_ed_done E s =
        rf_if_change_trx_state E RF_TX_START
          (rf_flags_set RFF_TX
            (rf_if_enable_tx_end_interrupt E
              (rf_disable_static_frame_buffer_protection E
                (rf_flags_clear RFF_RX
                  (rf_if_change_trx_state E FORCE_PLL_ON
                    (rf_if_read_trx_state E
                      (rf_if_check_cca E (rf_flags_clear RFF_CCA s)).2).2))))) ∧
      (E.TRX_STATUS < 64 ∧ E.TRX_STATE < 64 →
        last_write E.TRX_STATE (rf_handle_cca_ed_done E s).trace = some RF_TX_START) ∧
      (rf_handle_cca_ed_done E s).d.rf_flags &&& RFF_RX = 0 ∧
      (rf_handle_cca_ed_done E s).d.rf_flags &&& RFF_TX ≠ 0 ∧
      obs (rf_handle_cca_ed_done E s).trace = obs s.trace) ∧
    ((rf_if_read_trx_state E (rf_if_check_cca E (rf_flags_clear RFF_CCA s)).2).1 ≠ RX_AACK_ON →
      (E.TRX_STATUS < 64 ∧ E.TRX_STATE < 64 ∧ E.RX_SYN < 64 ∧ E.RX_SYN ≠ E.TRX_STATE →
        last_write E.TRX_STATE (rf_handle_cca_ed_done E s).trace =
          last_write E.TRX_STATE s.trace) ∧
      (rf_handle_cca_ed_done E s).d.rf_flags &&& RFF_RX = s.d.rf_flags &&& RFF_RX ∧
      (rf_handle_cca_ed_done E s).d.rf_flags &&& RFF_TX = s.d.rf_flags &&& RFF_TX ∧
      obs (rf_handle_cca_ed_done E s).trace =
        if s.d.phy_tx_done_cb then
          Event.tx_done s.d.rf_radio_driver_id s.d.mac_tx_handle
            phy_link_tx_status_e.PHY_LINK_CCA_FAIL 0 0 :: obs s.trace
        else obs s.trace) ∧
    (rf_handle_cca_ed_done E s).d.rf_flags &&& RFF_CCA = 0 ∧
    (rf_handle_cca_ed_done E s).d.rf_flags &&& RFF_PROT = 0 := by
  have heq := rf_handle_cca_ed_done_clear E s hcca hclear
  have hf1 : (rf_if_check_cca E (rf_flags_clear RFF_CCA s)).2.d =
      { s.d with rf_flags := s.d.rf_flags &&& (0xFF ^^^ u8 RFF_CCA) } := by
    simp
  refine ⟨fun hgo => ?_, fun hno => ?_, ?_, ?_⟩
  · obtain ⟨hd, hp, ho⟩ := rf_start_tx_go E _ hgo
    rw [← heq] at hd hp ho
    refine ⟨?_, fun hr => ?_, ?_, ?_, ?_⟩
    · rw [heq, rf_start_tx, if_neg (by simpa using hgo)]
    · rw [heq, rf_start_tx, if_neg (by simpa using hgo)]
      exact last_write_change_trx_state E RF_TX_START _ hr.1 hr.2
    · rw [hd]
      simp only
      rw [flag_set_other _ _ _ (by decide) (by decide), prot_disable_other _ _ (by decide)]
      exact flag_clear_same _ _ _ (by decide)
    · rw [hd]
      simp only
      rw [flag_set_same _ _ (by decide)]
      decide
    · rw [ho]
      simp
  · obtain ⟨hd, hp, ho⟩ := rf_start_tx_fail E _ hno
    rw [← heq] at hd hp ho
    refine ⟨fun hr => ?_, ?_, ?_, ?_⟩
    · rw [heq, rf_start_tx, if_pos hno]
      unfold phy_tx_done_cb
      have h1 : last_write E.TRX_STATE
          (rf_disable_static_frame_buffer_protection E
            (rf_if_read_trx_state E
              (rf_if_check_cca E (rf_flags_clear RFF_CCA s)).2).2).trace =
          last_write E.TRX_STATE s.trace := by
        rw [last_write_disable_protection E _ _ hr.2.2.1 hr.2.1 hr.2.2.2,
          last_write_read_trx_state E _ _ hr.1 hr.2.1, last_write_check_cca E _ _ hr.1 hr.2.1]
        unfold rf_flags_clear
        exact last_write_log _ _ _ (by simp)
      split
      · rw [last_write_log _ _ _ (by simp)]
        exact h1
      · exact h1
    · rw [hd]
      simp only
      rw [prot_disable_other _ _ (by decide), hf1]
      exact flag_clear_other _ _ _ (by decide)
    · rw [hd]
      simp only
      rw [prot_disable_other _ _ (by decide), hf1]
      exact flag_clear_other _ _ _ (by decide)
    · rw [ho, hf1]
      simp
  · by_cases hst :
      (rf_if_read_trx_state E (rf_if_check_cca E (rf_flags_clear RFF_CCA s)).2).1 = RX_AACK_ON
    · rw [heq, (rf_start_tx_go E _ hst).1]
      simp only
      rw [flag_set_other _ _ _ (by decide) (by decide), prot_disable_other _ _ (by decide),
        flag_clear_other _ _ _ (by decide), hf1]
      exact flag_clear_same _ _ _ (by decide)
    · rw [heq, (rf_start_tx_fail E _ hst).1]
      simp only
      rw [prot_disable_other _ _ (by decide), hf1]
      exact flag_clear_same _ _ _ (by decide)
  · by_cases hst :
      (rf_if_read_trx_state E (rf_if_check_cca E (rf_flags_clear RFF_CCA s)).2).1 = RX_AACK_ON
    · rw [heq, (rf_start_tx_go E _ hst).1]
      simp only
      rw [flag_set_other _ _ _ (by decide) (by decide)]
      exact prot_disable_same _
    · rw [heq, (rf_start_tx_fail E _ hst).1]
      simp only
      exact prot_disable_same _

/-- C28 in sniffer mode, with a transceiver that reports RX_ON and a clear
channel (it answers every exchange with 0x46): the attempt ends in CCA_FAIL. -/
theorem C28_clear_channel_outcomes_witness :
    obs (rf_handle_cca_ed_done (env_const 0x46) st_cca_sniffer).trace =
      [Event.tx_done 0 7 phy_link_tx_status_e.PHY_LINK_CCA_FAIL 0 0] ∧
    (rf_handle_cca_ed_done (env_const 0x46) st_cca_sniffer).d.rf_flags &&& RFF_CCA = 0 ∧
    (rf_handle_cca_ed_done (env_const 0x46) st_cca_sniffer).d.rf_flags &&& RFF_PROT = 0 :=
  ⟨((C28_clear_channel_outcomes (env_const 0x46) st_cca_sniffer (by decide)
      (by decide)).2.1 (by decide)).2.2.2,
   (C28_clear_channel_outcomes (env_const 0x46) st_cca_sniffer (by decide) (by decide)).2.2⟩

/-! ## C29: reading a received frame -/

theorem rf_if_read_bytes_mosi (E : Env) (n i : Nat) (s : State) :
    (rf_if_read_bytes E n i s).mosi = List.replicate n 0 ++ s.mosi := by
  induction n generalizing i s with
  | zero => rfl
  | succ n ih =>
    rw [rf_if_read_bytes, ih, List.replicate_succ']
    simp only [List.append_assoc, List.singleton_append]
    rfl

theorem rf_if_read_bytes_length (E : Env) (n i : Nat) (s : State) :
    (rf_if_read_bytes E n i s).d.rf_buffer.length = s.d.rf_buffer.length := by
  induction n generalizing i s with
  | zero => rfl
  | succ n ih =>
    rw [rf_if_read_bytes, ih]
    simp

/-- The byte loop of `rf_if_read_packet` leaves the buffer outside the
indices `i .. i + n - 1` alone. -/
theorem rf_if_read_bytes_outside (E : Env) (n i j : Nat) (s : State)
    (hj : j < i ∨ i + n ≤ j) :
    (rf_if_read_bytes E n i s).d.rf_buffer[j]? = s.d.rf_buffer[j]? := by
  induction n generalizing i s with
  | zero => rfl
  | succ n ih =>
    rw [rf_if_read_bytes, ih (i + 1) _ (by omega)]
    simp only [rf_if_spi_exchange_d]
    exact List.getElem?_set_ne (by omega)

/-- The byte loop of `rf_if_read_packet` stores at index `j` the byte the
transceiver returns in exchange `j - i + 1` of the loop. -/
theorem rf_if_read_bytes_inside (E : Env) (n i j : Nat) (s : State)
    (hij : i ≤ j) (hjn : j < i + n) (hlen : j < s.d.rf_buffer.length) :
    (rf_if_read_bytes E n i s).d.rf_buffer[j]? =
      some (u8 (E.miso (List.replicate (j - i + 1) 0 ++ s.mosi))) := by
  induction n generalizing i s with
  | zero => omega
  | succ n ih =>
    rw [rf_if_read_bytes]
    by_cases h : j = i
    · subst h
      rw [rf_if_read_bytes_outside E n (j + 1) j _ (by omega)]
      simp only [rf_if_spi_exchange_d, Nat.sub_self, Nat.zero_add]
      rw [List.getElem?_set_self hlen]
      rfl
    · rw [ih (i + 1) _ (by omega) (by omega) (by simpa using hlen)]
      have h1 : j - i + 1 = (j - (i + 1) + 1) + 1 := by omega
      rw [h1, List.replicate_succ' (j - (i + 1) + 1)]
      simp only [List.append_assoc, List.singleton_append]
      rfl

/-- C29. For every transceiver behaviour, `rf_if_read_packet` sends the
command 0x20 and then `len + 4` zero bytes, where
`len = (byte returned in the second exchange) & 0x7F`, so `len ≤ 127 = RF_MTU`.
The 127-byte buffer keeps its length; for every `j < len` (an index inside
the buffer) byte `j` is the byte returned in exchange `j + 3`, and the bytes
from index `len` on are untouched. The three exchanges after the data give
LQI, ED and `crc_good = (bit 0x80 of the third byte is set)`. -/
theorem C29_read_packet (E : Env) (s : State) (hbuf : s.d.rf_buffer.length = 127) :
    (rf_if_read_packet E s).1.len = u8 (E.miso (0 :: 0x20 :: s.mosi)) &&& 0x7F ∧
    (rf_if_read_packet E s).1.len ≤ RF_MTU ∧
    (rf_if_read_packet E s).2.mosi =
      List.replicate ((rf_if_read_packet E s).1.len + 4) 0 ++ 0x20 :: s.mosi ∧
    (rf_if_read_packet E s).2.d.rf_buffer.length = 127 ∧
    (∀ j, j < (rf_if_read_packet E s).1.len →
      j < (rf_if_read_packet E s).2.d.rf_buffer.length ∧
      (rf_if_read_packet E s).2.d.rf_buffer[j]? =
        some (u8 (E.miso (List.replicate (j + 2) 0 ++ 0x20 :: s.mosi)))) ∧
    (∀ j, (rf_if_read_packet E s).1.len ≤ j →
      (rf_if_read_packet E s).2.d.rf_buffer[j]? = s.d.rf_buffer[j]?) ∧
    (rf_if_read_packet E s).1.lqi =
      u8 (E.miso (List.replicate ((rf_if_read_packet E s).1.len + 2) 0 ++ 0x20 :: s.mosi)) ∧
    (rf_if_read_packet E s).1.ed =
      u8 (E.miso (List.replicate ((rf_if_read_packet E s).1.len + 3) 0 ++ 0x20 :: s.mosi)) ∧
    (rf_if_read_packet E s).1.crc_good =
      decide (u8 (E.miso (List.replicate ((rf_if_read_packet E s).1.len + 4) 0 ++
        0x20 :: s.mosi)) &&& 0x80 ≠ 0) := by
  have hlen : (rf_if_read_packet E s).1.len = u8 (E.miso (0 :: 0x20 :: s.mosi)) &&& 0x7F := rfl
  have hle : (rf_if_read_packet E s).1.len ≤ 127 := by
    rw [hlen]
    exact Nat.and_le_right
  have hm0 : (rf_if_read_packet_len E s).2.mosi = 0 :: 0x20 :: s.mosi := rfl
  have hb0 : (rf_if_read_packet_len E s).2.d.rf_buffer = s.d.rf_buffer := rfl
  have hl1 : (rf_if_read_packet E s).1.len = (rf_if_read_packet_len E s).1 := rfl
  have hm1 := rf_if_read_bytes_mosi E (rf_if_read_packet_len E s).1 0 (rf_if_read_packet_len E s).2
  rw [hm0] at hm1
  have hrep : ∀ k, List.replicate k 0 ++ 0 :: 0x20 :: s.mosi =
      List.replicate (k + 1) 0 ++ 0x20 :: s.mosi := by
    intro k
    rw [List.replicate_succ']
    simp
  refine ⟨hlen, hle, ?_, ?_, fun j hj => ⟨?_, ?_⟩, fun j hj => ?_, ?_, ?_, ?_⟩
  · show u8 0 :: u8 0 :: u8 0 :: (rf_if_read_bytes E _ 0 _).mosi = _
    rw [hl1, hm1, hrep]
    rfl
  · show (rf_if_read_bytes E _ 0 _).d.rf_buffer.length = 127
    rw [rf_if_read_bytes_length, hb0, hbuf]
  · have h2 : (rf_if_read_packet E s).2.d.rf_buffer.length = 127 := by
      show (rf_if_read_bytes E _ 0 _).d.rf_buffer.length = 127
      rw [rf_if_read_bytes_length, hb0, hbuf]
    omega
  · show (rf_if_read_bytes E _ 0 _).d.rf_buffer[j]? = _
    rw [rf_if_read_bytes_inside E _ 0 j _ (Nat.zero_le _)
      (by rw [← hl1]; omega) (by rw [hb0, hbuf]; omega), hm0, Nat.sub_zero, hrep]
  · show (rf_if_read_bytes E _ 0 _).d.rf_buffer[j]? = _
    rw [rf_if_read_bytes_outside E _ 0 j _ (Or.inr (by rw [← hl1]; omega)), hb0]
  · show u8 (E.miso (u8 0 :: (rf_if_read_bytes E _ 0 _).mosi)) = _
    rw [hl1, hm1, hrep]
    rfl
  · show u8 (E.miso (u8 0 :: u8 0 :: (rf_if_read_bytes E _ 0 _).mosi)) = _
    rw [hl1, hm1, hrep]
    rfl
  · show decide (u8 (E.miso (u8 0 :: u8 0 :: u8 0 :: (rf_if_read_bytes E _ 0 _).mosi))
      &&& 0x80 ≠ 0) = _
    rw [hl1, hm1, hrep]
    rfl

/-- C29 at a transceiver that answers every exchange with 0xFF: the frame
has the maximum length 127. -/
theorem C29_read_packet_witness :
    (rf_if_read_packet (env_const 0xFF) st_receiving).1.len = 127 ∧
    (rf_if_read_packet (env_const 0xFF) st_receiving).1.len ≤ RF_MTU ∧
    (rf_if_read_packet (env_const 0xFF) st_receiving).2.d.rf_buffer.length = 127 :=
  ⟨(C29_read_packet (env_const 0xFF) st_receiving (List.length_replicate 127 0)).1.trans (by decide),
   (C29_read_packet (env_const 0xFF) st_receiving (List.length_replicate 127 0)).2.1,
   (C29_read_packet (env_const 0xFF) st_receiving (List.length_replicate 127 0)).2.2.2.1⟩

/-! ## C14, C15, C30: registration -/

/-- `rf_device_register` leaves the pointer `rf` and the lock depth alone. -/
theorem rf_device_register_keeps (E : Env) (fuel : Nat) (net_id : Int) (mac : List Nat)
    (s : State) (r : Int × State) (h : rf_device_register E fuel net_id mac s = some r) :
    r.2.d.rf = s.d.rf ∧ r.2.p.lock_depth = s.p.lock_depth := by
  unfold rf_device_register at h
  simp only [Option.map_eq_some'] at h
  obtain ⟨s1, h1, rfl⟩ := h
  obtain ⟨hr, hl⟩ := rf_init_keeps E fuel s s1 h1
  split
  · exact ⟨hr, hl⟩
  · exact ⟨hr, hl⟩

theorem rf_device_register_returns (E : Env) (fuel : Nat) (net_id : Int) (mac : List Nat)
    (s : State) (ht : s.d.rf_tuned ≠ 0) :
    ∃ r, rf_device_register E fuel net_id mac s = some r := by
  obtain ⟨s1, h1⟩ := rf_init_returns E fuel s ht
  exact ⟨_, by rw [rf_device_register, h1]; rfl⟩

/-- C14, counterexample. `rf_register` called on a second driver object
while a driver is registered returns -1 and the global pointer `rf` is not
null afterwards: it still points to the registered driver. -/
theorem C14_negative_return_rf_not_null :
    ∃ s2, rf_register env_chip 1 0 [] 0 nano st_registered = some (-1, nano, s2) ∧
      s2.d.rf = some 1 :=
  ⟨log Event.error (rf_if_unlock (rf_if_lock st_registered)), by decide, by decide⟩

/-- C14, amended. `rf_register` called while a driver is registered (global
pointer `rf` not null) returns -1 and leaves every driver variable (the
pointer `rf` and `rf_radio_driver_id` among them), the lock depth, the pins
and the timers as they were. Called with no driver registered, it returns
whenever the receiver is tuned, and then the pointer `rf` is null after a
negative return and is the object's `_rf` after a non-negative one. -/
theorem C14_rf_register (E : Env) (fuel : Nat) (eui_ret : Int) (eui : List Nat) (net_id : Int)
    (self : NanostackRfPhyAtmel) (s : State) :
    (s.d.rf ≠ none →
      ∃ s2, rf_register E fuel eui_ret eui net_id self s = some (-1, self, s2) ∧
        s2.d = s.d ∧ s2.p = s.p) ∧
    (s.d.rf = none →
      (s.d.rf_tuned ≠ 0 → ∃ r, rf_register E fuel eui_ret eui net_id self s = some r) ∧
      ∀ r, rf_register E fuel eui_ret eui net_id self s = some r →
        (r.1 < 0 → r.2.2.d.rf = none) ∧ (0 ≤ r.1 → r.2.2.d.rf = self._rf)) := by
  constructor
  · intro hreg
    unfold rf_register
    by_cases h0 : self._rf = none
    · rw [if_pos h0]
      exact ⟨s, rfl, rfl, rfl⟩
    · rw [if_neg h0, if_pos (by simpa using hreg)]
      refine ⟨_, rfl, rfl, ?_⟩
      rw [rf_if_unlock_lock]
      rfl
  · intro hnone
    constructor
    · intro ht
      unfold rf_register
      by_cases h0 : self._rf = none
      · rw [if_pos h0]
        exact ⟨_, rfl⟩
      · rw [if_neg h0, if_neg (by simpa using hnone)]
        by_cases h1 : self._mac_set = false ∧ eui_ret < 0
        · rw [if_pos h1]
          exact ⟨_, rfl⟩
        · rw [if_neg h1]
          obtain ⟨r, hr⟩ := rf_device_register_returns E fuel net_id
            (if self._mac_set then self._mac_addr else eui)
            { rf_if_lock s with d := { s.d with rf := self._rf } } ht
          exact ⟨_, by rw [hr]; rfl⟩
    · intro r h
      unfold rf_register at h
      by_cases h0 : self._rf = none
      · rw [if_pos h0] at h
        cases h
        exact ⟨fun _ => hnone, fun hge => absurd (show (0 : Int) ≤ -1 from hge) (by decide)⟩
      · rw [if_neg h0, if_neg (by simpa using hnone)] at h
        by_cases h1 : self._mac_set = false ∧ eui_ret < 0
        · rw [if_pos h1] at h
          cases h
          exact ⟨fun _ => rfl, fun hge => absurd (show (0 : Int) ≤ -1 from hge) (by decide)⟩
        · rw [if_neg h1] at h
          simp only [Option.map_eq_some'] at h
          obtain ⟨r1, hr1, rfl⟩ := h
          obtain ⟨hrf, -⟩ := rf_device_register_keeps E fuel net_id _ _ r1 hr1
          constructor
          · intro hneg
            simp only at hneg
            simp only [rf_if_unlock_d, if_pos hneg]
          · intro hge
            simp only at hge
            simp only [rf_if_unlock_d, if_neg (not_lt.mpr hge)]
            rw [hrf]

/-- C14 amended, at a driver object registering twice with the transceiver
`env_chip`: the second call fails and changes nothing. -/
theorem C14_rf_register_witness :
    ∃ s2, rf_register env_chip 1 0 [] 0 nano st_registered = some (-1, nano, s2) ∧
      s2.d = st_registered.d ∧ s2.p = st_registered.p :=
  (C14_rf_register env_chip 1 0 [] 0 nano st_registered).1 (by decide)

theorem rf_off_lock_depth (E : Env) (s : State) :
    (rf_off E s).p.lock_depth = s.p.lock_depth := by
  by_cases hon : s.d.rf_flags &&& RFF_ON = 0
  · rw [rf_off_powered_off E s hon]
    rfl
  · rw [(rf_off_powered_on E s hon).2.1]

theorem rf_device_unregister_p (s : State) : (rf_device_unregister s).p = s.p := by
  unfold rf_device_unregister
  split <;> rfl

theorem rf_start_cca_lock_depth (E : Env) (rnd : Nat) (data_ptr : List Nat)
    (data_length tx_handle : Nat) (s : State) :
    (rf_start_cca E rnd data_ptr data_length tx_handle s).2.p.lock_depth = s.p.lock_depth := by
  by_cases h : (rf_if_read_trx_state E s).1 = BUSY_RX_AACK ∨ data_length > 125
  · rw [(rf_start_cca_reject E rnd data_ptr data_length tx_handle s h).2.2.1]
  · rw [(rf_start_cca_accept E rnd data_ptr data_length tx_handle s h).2.1]

theorem rf_register_lock_depth (E : Env) (fuel : Nat) (eui_ret : Int) (eui : List Nat)
    (net_id : Int) (self : NanostackRfPhyAtmel) (s : State)
    (r : Int × NanostackRfPhyAtmel × State)
    (h : rf_register E fuel eui_ret eui net_id self s = some r) :
    r.2.2.p.lock_depth = s.p.lock_depth := by
  unfold rf_register at h
  split at h
  · cases h
    rfl
  · split at h
    · cases h
      show (rf_if_unlock (rf_if_lock s)).p.lock_depth = s.p.lock_depth
      rw [rf_if_unlock_lock]
    · split at h
      · cases h
        show (rf_if_unlock (rf_if_lock s)).p.lock_depth = s.p.lock_depth
        rw [rf_if_unlock_lock]
      · simp only [Option.map_eq_some'] at h
        obtain ⟨r1, hr1, rfl⟩ := h
        obtain ⟨-, hl⟩ := rf_device_register_keeps E fuel net_id _ _ r1 hr1
        have hl2 : r1.2.p.lock_depth = s.p.lock_depth + 1 := hl
        simp only [rf_if_unlock_p]
        split <;> simp [hl2]

/-- C30. With the lock modelled as a nesting depth, the depth on return
equals the depth on entry for every return of `rf_start_cca` (rejected or
accepted), `rf_register` (null instance, already registered, EUI-64 read
failure, and after `rf_device_register`), `rf_unregister`,
`get_mac_address`, `set_mac_address`, `rf_receive`, `rf_off` and
`rf_poll_trx_state_change`. -/
theorem C30_lock_depth_balanced (E : Env) (fuel : Nat) (s : State) :
    (∀ rnd data_ptr data_length tx_handle,
      (rf_start_cca E rnd data_ptr data_length tx_handle s).2.p.lock_depth = s.p.lock_depth) ∧
    (∀ eui_ret eui net_id self r,
      rf_register E fuel eui_ret eui net_id self s = some r →
        r.2.2.p.lock_depth = s.p.lock_depth) ∧
    (rf_unregister s).p.lock_depth = s.p.lock_depth ∧
    (∀ self, (get_mac_address self s).2.p.lock_depth = s.p.lock_depth) ∧
    (∀ mac self, (set_mac_address mac self s).2.p.lock_depth = s.p.lock_depth) ∧
    (∀ s2, rf_receive E fuel s = some s2 → s2.p.lock_depth = s.p.lock_depth) ∧
    (rf_off E s).p.lock_depth = s.p.lock_depth ∧
    (∀ t, (rf_poll_trx_state_change E t s).p.lock_depth = s.p.lock_depth) := by
  refine ⟨fun rnd data_ptr data_length tx_handle =>
      rf_start_cca_lock_depth E rnd data_ptr data_length tx_handle s,
    fun eui_ret eui net_id self r h => rf_register_lock_depth E fuel eui_ret eui net_id self s r h,
    ?_, fun self => ?_, fun mac self => ?_, fun s2 h => ?_, rf_off_lock_depth E s,
    fun t => by rw [rf_poll_trx_state_change_p]⟩
  · unfold rf_unregister
    split
    · rw [rf_if_unlock_lock]
    · simp only [rf_if_unlock_p, rf_device_unregister_p, rf_if_lock_p]
      simp
  · unfold get_mac_address
    split
    · show (rf_if_unlock (rf_if_lock s)).p.lock_depth = s.p.lock_depth
      rw [rf_if_unlock_lock]
    · show (rf_if_unlock (rf_if_lock s)).p.lock_depth = s.p.lock_depth
      rw [rf_if_unlock_lock]
  · unfold set_mac_address
    split
    · show (rf_if_unlock (rf_if_lock s)).p.lock_depth = s.p.lock_depth
      rw [rf_if_unlock_lock]
    · show (rf_if_unlock (rf_if_lock s)).p.lock_depth = s.p.lock_depth
      rw [rf_if_unlock_lock]
  · rw [(rf_receive_frame E fuel s s2 h).2.1]

/-- C30 at the registered driver: a second registration and a change of the
MAC address both fail, with the lock depth as on entry. -/
theorem C30_lock_depth_balanced_witness :
    (∃ r, rf_register env_chip 1 0 [] 0 nano st_registered = some r ∧
      r.2.2.p.lock_depth = st_registered.p.lock_depth) ∧
    (set_mac_address [] nano st_registered).2.p.lock_depth = st_registered.p.lock_depth :=
  ⟨⟨_, by decide,
    (C30_lock_depth_balanced env_chip 1 st_registered).2.1 0 [] 0 nano
      (-1, nano, log Event.error (rf_if_unlock (rf_if_lock st_registered))) (by decide)⟩,
   (C30_lock_depth_balanced env_chip 1 st_registered).2.2.2.2.1 [] nano⟩

end AtmelRf
